import Mathlib

/-!
# Operation evaluation core: transfers and asset operations

A shallow embedding of `libraries/protocol/asset_ops.cpp`,
`libraries/chain/evaluator.cpp` and `libraries/chain/transfer_evaluator.cpp`,
followed by the properties proved about it.

Conventions of the embedding.

* Amounts (`share_type`, that is `fc::safe<int64_t>`) are of type `Int`.
  `safe` arithmetic throws on overflow instead of wrapping; the embedding
  computes in `Int` and so describes the runs in which no sum leaves the
  64-bit range.  A property that concludes that a function returns or accepts
  after such arithmetic assumes of each sum it computes that it lies in that
  range (`in_int64`); a property about a run that has returned needs no such
  assumption.  Times (`fc::time_point_sec`) are seconds, of type `Nat`.
* A `std::string` is read as the list of its characters; the character tests
  are those of the C locale, which reject every character outside ASCII.
* Object ids are instance numbers (`Nat`).  A pointer into the object database
  kept by an evaluator is the id of the object it points to (`none` for a null
  pointer): database objects never move, `modify` changes them in place.
* A function that can throw returns `Except error _`.
* Constants and collaborators whose definitions are not part of the three
  source files (hardfork times, distinguished asset ids, whitelist queries,
  percent arithmetic in `double`) are fields of `chain_parameters`.
-/

namespace graphene

/-! ## `asset_ops.cpp`: symbol validation -/

/-- The C locale test `isalpha` on a character. -/
def isalpha (c : Char) : Bool :=
  (65 ≤ c.toNat && c.toNat ≤ 90) || (97 ≤ c.toNat && c.toNat ≤ 122)

/-- The C locale test `isupper` on a character. -/
def isupper (c : Char) : Bool :=
  65 ≤ c.toNat && c.toNat ≤ 90

/-- The C locale test `isdigit` on a character. -/
def isdigit (c : Char) : Bool :=
  48 ≤ c.toNat && c.toNat ≤ 57

/-- The value of `symbol.front()`: the first character; on an empty string the
read lands on the terminating NUL. -/
def front (symbol : List Char) : Char :=
  symbol.headD (Char.ofNat 0)

/-- The `for( const auto c : symbol )` loop of `is_valid_symbol`, with the
local `dot_already_present` as an accumulator.  `true` stands for falling out
of the loop (the function then returns `true`), `false` for a `return false`
inside it. -/
def is_valid_symbol_loop : List Char → Bool → Bool
  | [], _ => true
  | c :: cs, dot_already_present =>
    if (isalpha c && isupper c) || isdigit c then
      is_valid_symbol_loop cs dot_already_present
    else if c = '.' then
      if dot_already_present then false
      else is_valid_symbol_loop cs true
    else false

/-- Embedding of `is_valid_symbol` (asset_ops.cpp:36-69).  The two length
bounds `GRAPHENE_MIN_ASSET_SYMBOL_LENGTH` and `GRAPHENE_MAX_ASSET_SYMBOL_LENGTH`
are parameters. -/
def is_valid_symbol (MIN_LENGTH MAX_LENGTH : Nat) (symbol : String) : Bool :=
  if symbol.length < MIN_LENGTH then false
  else if symbol.length > MAX_LENGTH then false
  else if !isalpha (front symbol.data) then false
  else is_valid_symbol_loop symbol.data false

/-- A character of the symbol alphabet `[A-Z0-9.]` of the data model. -/
def symbol_char (c : Char) : Prop :=
  (65 ≤ c.toNat ∧ c.toNat ≤ 90) ∨ (48 ≤ c.toNat ∧ c.toNat ≤ 57) ∨ c = '.'

/-! ## Protocol and object types -/

/-- Instance number of an asset id. -/
abbrev asset_id_type := Nat

/-- Instance number of an account id. -/
abbrev account_id_type := Nat

/-- An amount of one asset (`graphene::protocol::asset`). -/
structure asset where
  amount : Int
  asset_id : asset_id_type
deriving DecidableEq

/-- Unary minus on `asset`. -/
def asset.neg (a : asset) : asset :=
  { amount := -a.amount, asset_id := a.asset_id }

/-- The range of `int64_t`, from `-2^63` to `2^63 - 1`: the values on which the
arithmetic of `share_type` (`fc::safe<int64_t>`) returns; a sum, difference or
negation outside it throws `overflow_exception`. -/
def in_int64 (x : Int) : Prop :=
  -9223372036854775808 ≤ x ∧ x ≤ 9223372036854775807

/-- An exchange rate between two assets (`graphene::protocol::price`). -/
structure price where
  base : asset
  quote : asset
deriving DecidableEq

/-- One entry of `settings.transfer_fees` / `settings.blind_transfer_fees`. -/
structure settings_fee where
  asset_id : asset_id_type
  percent : Int
deriving DecidableEq

/-- The direction argument of `not_restricted_account`. -/
inductive directionality_type where
  | payer
  | receiver
deriving DecidableEq

/-- What an evaluator throws.  The named exception types of `GRAPHENE_ASSERT`
are constructors of their own; every `FC_ASSERT` site read by a property below
has a constructor naming the site; the remaining ones throw
`assert_exception`. -/
inductive error where
  /-- thrown by `id(d)` or `d.get(id)` on an id that names no object -/
  | object_not_found
  /-- dereference of an evaluator pointer that was never set -/
  | null_pointer
  /-- evaluator.cpp:57, "You should pay fee in ..." -/
  | wrong_fee_asset
  | transfer_from_account_not_whitelisted
  | transfer_to_account_not_whitelisted
  | transfer_from_account_restricted
  | transfer_to_account_restricted
  | transfer_restricted_transfer_asset
  | override_transfer_not_permitted
  /-- the assertion "Daily transfers limit exceeded" -/
  | daily_limit_exceeded
  /-- the assertions "Insufficient Balance" on the transferred amount (and a
  fee in the same asset) -/
  | insufficient_balance
  /-- the assertions "Insufficient balance for fee" and "Insufficient fee" -/
  | insufficient_balance_for_fee
  /-- the assertion "Wrong fee amount" -/
  | wrong_fee_amount
  /-- the assertion "Cannot reserve (burn) ... because it is a market-issued
  asset" -/
  | burn_of_market_issued
  /-- the assertion `FC_ASSERT((current_supply - ...) >= 0)` -/
  | burn_exceeds_supply
  /-- the assertion that the settings object is found -/
  | missing_settings
  /-- any other `FC_ASSERT` -/
  | assert_exception
deriving DecidableEq

/-- The fields of `account_object` read or written by the evaluators.  The id of
an account is the key under which the database holds it. -/
structure account_object where
  statistics : Nat
  rank : Nat
  verification_is_required : Bool
  burning_mode_enabled : Bool
  edc_limit_transfers_enabled : Bool
  edc_transfers_max_amount : Int
  edc_transfers_amount_counter : Int
  edc_transfers_count : Nat
  edc_burnt : Int
deriving DecidableEq

/-- The fee bookkeeping of `account_statistics_object`. -/
structure account_statistics_object where
  pending_fees : Int
  pending_vested_fees : Int
deriving DecidableEq

/-- The fields of `asset_object` read by the evaluators; `transfer_restricted`,
`market_issued` and `can_override` hold what `is_transfer_restricted()`,
`is_market_issued()` and `can_override()` return, `fee_paying_asset` is
`params.fee_paying_asset` and `core_exchange_rate` is
`options.core_exchange_rate`. -/
structure asset_object where
  issuer : account_id_type
  fee_paying_asset : asset_id_type
  core_exchange_rate : price
  dynamic_asset_data_id : Nat
  transfer_restricted : Bool
  market_issued : Bool
  can_override : Bool
deriving DecidableEq

/-- Fields of `asset_dynamic_data_object`. -/
structure asset_dynamic_data_object where
  current_supply : Int
  accumulated_fees : Int
  fee_pool : Int
  fee_burnt : Int
deriving DecidableEq

/-- Fields of `settings_object`. -/
structure settings_object where
  transfer_fees : List settings_fee
  blind_transfer_fees : List settings_fee
  blind_transfer_default_fee : asset
  edc_transfers_daily_limit : Int
  witness_fees_percent : Nat
deriving DecidableEq

/-- Fields of `witnesses_info_object`. -/
structure witnesses_info_object where
  witness_fees_reward_edc_amount : Int
deriving DecidableEq

/-- A record of `blind_transfer2_object`; the memo is kept as its text. -/
structure blind_transfer2_object where
  from_ : account_id_type
  to_ : account_id_type
  amount : asset
  datetime : Nat
  memo : String
  fee : Int
deriving DecidableEq

/-- The object database (the ledger view): one finite map per object type,
the account balances (`get_balance`, zero where no balance object exists), the
blind-transfer records in creation order, and the values of
`head_block_time()` and
`get_global_properties().parameters.cashback_vesting_threshold`. -/
structure database where
  head_block_time : Nat
  accounts : account_id_type → Option account_object
  account_statistics : Nat → Option account_statistics_object
  assets : asset_id_type → Option asset_object
  asset_dynamic_data : Nat → Option asset_dynamic_data_object
  settings : Nat → Option settings_object
  witnesses_info : Nat → Option witnesses_info_object
  balances : account_id_type → asset_id_type → Int
  blind_transfers2 : List blind_transfer2_object
  cashback_vesting_threshold : Int

/-- Constants and collaborators defined outside the three source files. -/
structure chain_parameters where
  HARDFORK_419_TIME : Nat
  HARDFORK_620_TIME : Nat
  HARDFORK_623_TIME : Nat
  HARDFORK_627_TIME : Nat
  HARDFORK_628_TIME : Nat
  HARDFORK_631_TIME : Nat
  HARDFORK_636_TIME : Nat
  CORE_ASSET : asset_id_type
  EDC_ASSET : asset_id_type
  /-- numeric value of `e_account_rank::_default` -/
  rank_default : Nat
  /-- the query `is_authorized_asset( d, account, asset )`, the objects named by
  id -/
  is_authorized_asset : database → account_id_type → asset_id_type → Bool
  /-- the query `not_restricted_account( d, account, direction )` -/
  not_restricted_account : database → account_id_type → directionality_type → Bool
  /-- the lookup `d.get_custom_fee( list, asset_id )` -/
  get_custom_fee : database → List settings_fee → asset_id_type → Option settings_fee
  /-- the value of `d.get_account_fee_edc_percent_by_rank( account )` -/
  get_account_fee_edc_percent_by_rank : database → account_id_type → Int
  /-- the value of `std::round( amount.value * d.get_percent( percent ) )` as a
  `share_type`; the `double` arithmetic is not interpreted -/
  round_percent : database → Int → Int → Int
  /-- the product `asset * price` (`operator *` of asset.cpp), which can throw -/
  asset_mul_price : asset → price → Except error asset
  /-- the mutator
  `account_statistics_object::pay_fee( core_fee, cashback_vesting_threshold )` -/
  statistics_pay_fee : account_statistics_object → Int → Int →
    account_statistics_object
  GRAPHENE_MAX_SHARE_SUPPLY : Int
  GRAPHENE_100_PERCENT : Nat
  ASSET_ISSUER_PERMISSION_MASK : Nat
  /-- the flag `white_list` of `asset_issuer_permission_flags` -/
  white_list : Nat
  /-- the flag `disable_force_settle` of `asset_issuer_permission_flags` -/
  disable_force_settle : Nat
  /-- the flag `global_settle` of `asset_issuer_permission_flags` -/
  global_settle : Nat
  /-- the flag `witness_fed_asset` of `asset_issuer_permission_flags` -/
  witness_fed_asset : Nat
  /-- the flag `committee_fed_asset` of `asset_issuer_permission_flags` -/
  committee_fed_asset : Nat
  /-- the member `price::validate()` (asset.cpp), which returns or throws -/
  price_validate : price → Except error Unit
  GRAPHENE_MIN_ASSET_SYMBOL_LENGTH : Nat
  GRAPHENE_MAX_ASSET_SYMBOL_LENGTH : Nat

/-- Replace the value of a finite map at one key. -/
def update {α : Type} (f : Nat → Option α) (i : Nat) (v : α) : Nat → Option α :=
  fun k => if k = i then some v else f k

/-- The lookups `id(d)` and `d.get(id)`: the object, or an exception when there
is none. -/
def get {α : Type} (f : Nat → Option α) (i : Nat) : Except error α :=
  match f i with
  | some v => .ok v
  | none => .error .object_not_found

/-- Dereference of an evaluator pointer into one of the object maps. -/
def deref {α : Type} (f : Nat → Option α) (p : Option Nat) : Except error (Nat × α) :=
  match p with
  | none => .error .null_pointer
  | some i =>
    match f i with
    | some v => .ok (i, v)
    | none => .error .object_not_found

/-- The assertion `FC_ASSERT( c, ... )`, throwing the exception `e`. -/
def fc_assert (c : Bool) (e : error) : Except error Unit :=
  if c then .ok () else .error e

/-- The amount `d.get_balance( account, asset_type ).amount`. -/
def database.get_balance (d : database) (account : account_id_type)
    (asset_type : asset_id_type) : Int :=
  d.balances account asset_type

/-- Modelled from the spec: `database::adjust_balance( account, delta )`, whose
definition (db_balance.cpp) is not among the sources.  The signed amount is
added to the balance of the account in the asset of `delta`; a debit larger
than the balance throws, balances being non-negative at all times. -/
def database.adjust_balance (d : database) (account : account_id_type) (delta : asset) :
    Except error database :=
  if delta.amount < 0 ∧ d.balances account delta.asset_id < -delta.amount then
    .error .insufficient_balance
  else
    .ok { d with balances := fun a t =>
            if a = account ∧ t = delta.asset_id then d.balances a t + delta.amount
            else d.balances a t }

/-! ## Operations and evaluator state -/

/-- Fields of `transfer_operation`. -/
structure transfer_operation where
  fee : asset
  from_ : account_id_type
  to_ : account_id_type
  amount : asset
  memo : Option String
deriving DecidableEq

/-- Fields of `blind_transfer2_operation`. -/
structure blind_transfer2_operation where
  fee : asset
  from_ : account_id_type
  to_ : account_id_type
  amount : asset
  memo : String
deriving DecidableEq

/-- Fields of `override_transfer_operation`. -/
structure override_transfer_operation where
  fee : asset
  issuer : account_id_type
  from_ : account_id_type
  to_ : account_id_type
  amount : asset
deriving DecidableEq

/-- Fields of `update_blind_transfer2_settings_operation`. -/
structure update_blind_transfer2_settings_operation where
  fee : asset
  blind_fee : asset
deriving DecidableEq

/-- The `operation` variant: the four value-transfer operations, and every
other operation kind under the tag `which()` reports for it. -/
inductive operation where
  | transfer (op : transfer_operation)
  | blind_transfer2 (op : blind_transfer2_operation)
  | override_transfer (op : override_transfer_operation)
  | update_blind_transfer2_settings (op : update_blind_transfer2_settings_operation)
  | other (which : Nat)
deriving DecidableEq

/-- The `operation_result` variant, as far as these evaluators produce it. -/
inductive operation_result where
  | void_result
  | asset (a : asset)
deriving DecidableEq

/-- The members of `generic_evaluator`, with `trx_state->skip_fee`. -/
structure generic_evaluator where
  skip_fee : Bool
  fee_from_account : asset
  core_fee_paid : Int
  fee_paying_account : Option account_id_type
  fee_paying_account_statistics : Option Nat
  fee_asset : Option asset_id_type
  fee_asset_dyn_data : Option Nat
deriving DecidableEq

/-- The members of `transfer_evaluator`. -/
structure transfer_evaluator extends generic_evaluator where
  from_account_ptr : Option account_id_type
  to_account_ptr : Option account_id_type
  asset_dyn_data_ptr : Option Nat
  settings_ptr : Option Nat
  custom_fee : Int
deriving DecidableEq

/-- The members of `blind_transfer2_evaluator`. -/
structure blind_transfer2_evaluator extends generic_evaluator where
  from_account_ptr : Option account_id_type
  to_account_ptr : Option account_id_type
  asset_dyn_data_ptr : Option Nat
  fee_dyn_data_ptr : Option Nat
  settings_ptr : Option Nat
  custom_fee : asset
deriving DecidableEq

/-- The members of `override_transfer_evaluator`. -/
structure override_transfer_evaluator extends generic_evaluator where
  to_account_ptr : Option account_id_type
  asset_dyn_data_ptr : Option Nat
deriving DecidableEq

/-- An evaluator as constructed for one operation: no fee prepared, every
pointer null, `share_type` members zero. -/
def generic_evaluator.fresh (skip_fee : Bool) : generic_evaluator :=
  { skip_fee := skip_fee, fee_from_account := { amount := 0, asset_id := 0 },
    core_fee_paid := 0, fee_paying_account := none,
    fee_paying_account_statistics := none, fee_asset := none,
    fee_asset_dyn_data := none }

/-- A newly constructed `transfer_evaluator`. -/
def transfer_evaluator.fresh (skip_fee : Bool) : transfer_evaluator :=
  { togeneric_evaluator := generic_evaluator.fresh skip_fee,
    from_account_ptr := none, to_account_ptr := none, asset_dyn_data_ptr := none,
    settings_ptr := none, custom_fee := 0 }

/-! ## `transfer_evaluator.cpp`: `transfer_evaluator` -/

/-- The whitelist and restriction assertions shared by `transfer` and
`blind_transfer2` (transfer_evaluator.cpp:57-92 and 246-281). -/
def transfer_preflight (P : chain_parameters) (d : database) (asset_type : asset_object)
    (from_ to_ : account_id_type) (asset_id : asset_id_type) : Except error Unit := do
  fc_assert (P.is_authorized_asset d from_ asset_id) .transfer_from_account_not_whitelisted
  fc_assert (P.is_authorized_asset d to_ asset_id) .transfer_to_account_not_whitelisted
  fc_assert (P.not_restricted_account d from_ .payer) .transfer_from_account_restricted
  fc_assert (P.not_restricted_account d to_ .receiver) .transfer_to_account_restricted
  if asset_type.transfer_restricted then
    fc_assert (decide (from_ = asset_type.issuer ∨ to_ = asset_type.issuer))
      .transfer_restricted_transfer_asset

/-- The local `max_amount` of the daily-limit check (line 102). -/
def max_amount (from_account : account_object) (settings : settings_object) : Int :=
  if from_account.edc_transfers_max_amount > 0 then from_account.edc_transfers_max_amount
  else settings.edc_transfers_daily_limit

/-- The local `limit_is_valid` of the daily-limit check (lines 101-109). -/
def limit_is_valid (P : chain_parameters) (d : database) (from_account : account_object)
    (settings : settings_object) (op : transfer_operation) : Bool :=
  if d.head_block_time > P.HARDFORK_631_TIME then
    decide (max_amount from_account settings ≥
      from_account.edc_transfers_amount_counter + op.amount.amount)
  else
    decide (max_amount from_account settings >
      from_account.edc_transfers_amount_counter + op.amount.amount)

/-- The EDC daily limit of `transfer_evaluator::do_evaluate` (lines 97-114). -/
def transfer_evaluator.daily_limit (P : chain_parameters) (d : database)
    (from_account to_account : account_object) (settings : settings_object)
    (op : transfer_operation) : Except error Unit :=
  if op.amount.asset_id = P.EDC_ASSET ∧ from_account.edc_limit_transfers_enabled = true then
    if d.head_block_time < P.HARDFORK_636_TIME ∨ to_account.burning_mode_enabled = false then
      fc_assert (limit_is_valid P d from_account settings op) .daily_limit_exceeded
    else .ok ()
  else .ok ()

/-- The local `fee_percent` of `transfer_evaluator::do_evaluate` (lines 116-137). -/
def transfer_evaluator.fee_percent (P : chain_parameters) (d : database)
    (from_account to_account : account_object) (settings : settings_object)
    (fee_asset_id : asset_id_type) (op : transfer_operation) : Int :=
  if d.head_block_time > P.HARDFORK_628_TIME then
    if d.head_block_time ≥ P.HARDFORK_636_TIME ∧ fee_asset_id = P.EDC_ASSET
        ∧ from_account.rank > P.rank_default ∧ to_account.burning_mode_enabled = false then
      P.get_account_fee_edc_percent_by_rank d op.from_
    else if d.head_block_time < P.HARDFORK_636_TIME ∨ to_account.burning_mode_enabled = false then
      match P.get_custom_fee d settings.transfer_fees fee_asset_id with
      | some fee => fee.percent
      | none => 0
    else 0
  else
    match P.get_custom_fee d settings.transfer_fees op.amount.asset_id with
    | some fee => fee.percent
    | none => 0

/-- The member `custom_fee` after line 141: assigned when `fee_percent > 0`,
otherwise left at the value the evaluator holds. -/
def transfer_evaluator.resolve_custom_fee (P : chain_parameters) (d : database)
    (held : Int) (fee_percent : Int) (op : transfer_operation) : Int :=
  if fee_percent > 0 then P.round_percent d op.amount.amount fee_percent else held

/-- The block of `transfer_evaluator::do_evaluate` guarded by
`head_block_time() > HARDFORK_627_TIME` (lines 94-164); returns the member
`custom_fee` as the block leaves it. -/
def transfer_evaluator.post_627 (P : chain_parameters) (d : database) (held : Int)
    (from_account to_account : account_object) (settings : settings_object)
    (fee_asset_id : asset_id_type) (op : transfer_operation) : Except error Int := do
  transfer_evaluator.daily_limit P d from_account to_account settings op
  let fee_percent :=
    transfer_evaluator.fee_percent P d from_account to_account settings fee_asset_id op
  let custom_fee := transfer_evaluator.resolve_custom_fee P d held fee_percent op
  (if fee_percent > 0 then
    fc_assert (decide (d.get_balance op.from_ op.amount.asset_id ≥
      op.amount.amount + custom_fee)) .insufficient_balance
   else pure ())
  (if custom_fee > 0 then
    fc_assert (decide (op.fee.amount ≥ custom_fee)) .wrong_fee_amount
   else pure ())
  (if fee_percent = 0 then
    fc_assert (decide (d.get_balance op.from_ op.amount.asset_id ≥ op.amount.amount))
      .insufficient_balance
   else pure ())
  pure custom_fee

/-- The burning-destination assertions (lines 167-171, 390-395). -/
def burning_checks (to_account : account_object) (asset_type : asset_object)
    (asset_dyn_data : asset_dynamic_data_object) (total : Int) : Except error Unit :=
  if to_account.burning_mode_enabled then do
    fc_assert (!asset_type.market_issued) .burn_of_market_issued
    fc_assert (decide (asset_dyn_data.current_supply - total ≥ 0)) .burn_exceeds_supply
  else .ok ()

/-- The id of `fee_asset_type` (lines 46-48): the asset named by
`params.fee_paying_asset` when the database has it, else `CORE_ASSET(d)`. -/
def fee_asset_type (P : chain_parameters) (d : database) (asset_type : asset_object) :
    Except error asset_id_type :=
  match d.assets asset_type.fee_paying_asset with
  | some _ => .ok asset_type.fee_paying_asset
  | none => do
    let _ ← get d.assets P.CORE_ASSET
    pure P.CORE_ASSET

/-- Embedding of `transfer_evaluator::do_evaluate` (lines 34-176).  The
database is taken by `const` reference: the function returns the evaluator's
members or throws, and has no ledger to return. -/
def transfer_evaluator.do_evaluate (P : chain_parameters) (d : database)
    (ev : transfer_evaluator) (op : transfer_operation) : Except error transfer_evaluator := do
  let from_account ← get d.accounts op.from_
  let to_account ← get d.accounts op.to_
  let asset_type ← get d.assets op.amount.asset_id
  let fee_asset_id ← fee_asset_type P d asset_type
  let asset_dyn_data ← get d.asset_dynamic_data asset_type.dynamic_asset_data_id
  let settings ← get d.settings 0
  transfer_preflight P d asset_type op.from_ op.to_ op.amount.asset_id
  let custom_fee ←
    (if d.head_block_time > P.HARDFORK_627_TIME then
      transfer_evaluator.post_627 P d ev.custom_fee from_account to_account settings
        fee_asset_id op
     else pure ev.custom_fee)
  burning_checks to_account asset_type asset_dyn_data (op.amount.amount + custom_fee)
  pure { ev with
    from_account_ptr := some op.from_, to_account_ptr := some op.to_,
    asset_dyn_data_ptr := some asset_type.dynamic_asset_data_id,
    settings_ptr := some 0, custom_fee := custom_fee }

/-- The `modify` of the burning branches (transfer_evaluator.cpp:194-198,
447-451, 558-562) and of the fee burn (evaluator.cpp:117-121):
`current_supply -= amount; fee_burnt += amount` on one dynamic-data object. -/
def burn_supply (data : asset_dynamic_data_object) (amount : Int) :
    asset_dynamic_data_object :=
  { data with current_supply := data.current_supply - amount,
              fee_burnt := data.fee_burnt + amount }

/-- The burning branch of `do_apply` for `transfer` and `blind_transfer2`
(lines 192-207, 445-460): nothing when `asset_dyn_data_ptr` is null, else the
supply is burnt and, from `HARDFORK_636_TIME` on and for `EDC_ASSET`, the
sender's `edc_burnt` grows. -/
def apply_burning (P : chain_parameters) (d : database) (asset_dyn_data_ptr : Option Nat)
    (from_account_ptr : Option account_id_type) (amount : asset) : Except error database :=
  match asset_dyn_data_ptr with
  | none => .ok d
  | some i => do
    let data ← get d.asset_dynamic_data i
    let d1 : database :=
      { d with asset_dynamic_data := update d.asset_dynamic_data i (burn_supply data amount.amount) }
    if d1.head_block_time ≥ P.HARDFORK_636_TIME ∧ amount.asset_id = P.EDC_ASSET then do
      let (j, acc) ← deref d1.accounts from_account_ptr
      let acc1 : account_object := { acc with edc_burnt := acc.edc_burnt + amount.amount }
      pure { d1 with accounts := update d1.accounts j acc1 }
    else pure d1

/-- The "edc daily transfers counter" block of `do_apply` (lines 209-220,
428-438); `edc_transfers_count` is a 64-bit unsigned counter. -/
def apply_counters (P : chain_parameters) (d : database) (to_burning : Bool)
    (from_ : account_id_type) (amount : asset) : Except error database :=
  if d.head_block_time > P.HARDFORK_627_TIME ∧ amount.asset_id = P.EDC_ASSET then do
    let obj ← get d.accounts from_
    let obj1 : account_object :=
      if d.head_block_time < P.HARDFORK_636_TIME ∨ to_burning = false then
        { obj with edc_transfers_amount_counter :=
            obj.edc_transfers_amount_counter + amount.amount }
      else obj
    let obj2 : account_object :=
      { obj1 with edc_transfers_count := (obj1.edc_transfers_count + 1) % 2 ^ 64 }
    pure { d with accounts := update d.accounts from_ obj2 }
  else pure d

/-- Embedding of `transfer_evaluator::do_apply` (lines 178-223): the ledger
it leaves when it returns.  `to_account` is a reference to the destination
account object; none of the steps writes its `burning_mode_enabled`. -/
def transfer_evaluator.do_apply (P : chain_parameters) (d : database)
    (ev : transfer_evaluator) (o : transfer_operation) : Except error database := do
  let (_, to_account) ← deref d.accounts ev.to_account_ptr
  let d1 ← d.adjust_balance o.from_ o.amount.neg
  let d2 ←
    (if to_account.burning_mode_enabled = false then d1.adjust_balance o.to_ o.amount
     else apply_burning P d1 ev.asset_dyn_data_ptr ev.from_account_ptr o.amount)
  apply_counters P d2 to_account.burning_mode_enabled o.from_ o.amount

/-! ## `transfer_evaluator.cpp`: `blind_transfer2_evaluator` -/

/-- The EDC daily limit of `blind_transfer2_evaluator::do_evaluate`
(lines 283-296). -/
def blind_transfer2_evaluator.daily_limit (P : chain_parameters) (d : database)
    (from_account to_account : account_object) (settings : settings_object)
    (op : blind_transfer2_operation) : Except error Unit :=
  if d.head_block_time > P.HARDFORK_631_TIME ∧ op.amount.asset_id = P.EDC_ASSET
      ∧ from_account.edc_limit_transfers_enabled = true then
    if d.head_block_time < P.HARDFORK_636_TIME ∨ to_account.burning_mode_enabled = false then
      fc_assert (decide (max_amount from_account settings ≥
        from_account.edc_transfers_amount_counter + op.amount.amount)) .daily_limit_exceeded
    else .ok ()
  else .ok ()

/-- The member `custom_fee` as lines 305-326 leave it, starting from the
default fee of the settings. -/
def blind_transfer2_evaluator.resolve_custom_fee (P : chain_parameters) (d : database)
    (from_account to_account : account_object) (settings : settings_object)
    (op : blind_transfer2_operation) : asset :=
  if d.head_block_time ≥ P.HARDFORK_636_TIME ∧ op.amount.asset_id = P.EDC_ASSET
      ∧ from_account.rank > P.rank_default ∧ to_account.burning_mode_enabled = false then
    { amount := P.round_percent d op.amount.amount
        (P.get_account_fee_edc_percent_by_rank d op.from_),
      asset_id := P.EDC_ASSET }
  else if d.head_block_time < P.HARDFORK_636_TIME ∨ to_account.burning_mode_enabled = false then
    match P.get_custom_fee d settings.blind_transfer_fees op.amount.asset_id with
    | some fee =>
      { amount := P.round_percent d op.amount.amount fee.percent, asset_id := fee.asset_id }
    | none => settings.blind_transfer_default_fee
  else { amount := 0, asset_id := op.amount.asset_id }

/-- The pointer `&custom_fee.asset_id(d).dynamic_asset_data_id(d)` (lines 301,
328): the
id of the dynamic data of the fee asset; both lookups throw on a missing
object. -/
def fee_dyn_data (d : database) (custom_fee : asset) : Except error Nat := do
  let custom_fee_type ← get d.assets custom_fee.asset_id
  let _ ← get d.asset_dynamic_data custom_fee_type.dynamic_asset_data_id
  pure custom_fee_type.dynamic_asset_data_id

/-- Lines 303-387 of `blind_transfer2_evaluator::do_evaluate`: fee resolution
and balance checks; returns the members `custom_fee` and `fee_dyn_data_ptr`. -/
def blind_transfer2_evaluator.fee_checks (P : chain_parameters) (d : database)
    (from_account to_account : account_object) (settings : settings_object)
    (op : blind_transfer2_operation) : Except error (asset × Nat) := do
  let default_fee := settings.blind_transfer_default_fee
  let default_dyn ← fee_dyn_data d default_fee
  if d.head_block_time > P.HARDFORK_627_TIME then do
    let custom_fee :=
      blind_transfer2_evaluator.resolve_custom_fee P d from_account to_account settings op
    let fee_dyn ← fee_dyn_data d custom_fee
    (if op.amount.asset_id = custom_fee.asset_id then
      fc_assert (decide (d.get_balance op.from_ op.amount.asset_id ≥
        op.amount.amount + custom_fee.amount)) .insufficient_balance
     else do
      fc_assert (decide (d.get_balance op.from_ op.amount.asset_id ≥ op.amount.amount))
        .insufficient_balance
      fc_assert (decide (d.get_balance op.from_ custom_fee.asset_id ≥ custom_fee.amount))
        .insufficient_balance_for_fee)
    (if custom_fee.amount > 0 then do
      fc_assert (decide (op.fee.amount ≥ custom_fee.amount)) .wrong_fee_amount
      fc_assert (decide (op.fee.asset_id = custom_fee.asset_id)) .wrong_fee_asset
     else pure ())
    pure (custom_fee, fee_dyn)
  else do
    fc_assert (decide (d.get_balance op.from_ op.amount.asset_id ≥ op.amount.amount))
      .insufficient_balance
    fc_assert (decide (d.get_balance op.from_ default_fee.asset_id ≥ default_fee.amount))
      .insufficient_balance_for_fee
    pure (default_fee, default_dyn)

/-- Embedding of `blind_transfer2_evaluator::do_evaluate` (lines 227-400). -/
def blind_transfer2_evaluator.do_evaluate (P : chain_parameters) (d : database)
    (ev : blind_transfer2_evaluator) (op : blind_transfer2_operation) :
    Except error blind_transfer2_evaluator := do
  let from_account ← get d.accounts op.from_
  let to_account ← get d.accounts op.to_
  let asset_type ← get d.assets op.amount.asset_id
  let asset_dyn_data ← get d.asset_dynamic_data asset_type.dynamic_asset_data_id
  let settings ← get d.settings 0
  transfer_preflight P d asset_type op.from_ op.to_ op.amount.asset_id
  blind_transfer2_evaluator.daily_limit P d from_account to_account settings op
  let (custom_fee, fee_dyn) ←
    blind_transfer2_evaluator.fee_checks P d from_account to_account settings op
  burning_checks to_account asset_type asset_dyn_data (op.amount.amount + custom_fee.amount)
  pure { ev with
    from_account_ptr := some op.from_, to_account_ptr := some op.to_,
    asset_dyn_data_ptr := some asset_type.dynamic_asset_data_id,
    fee_dyn_data_ptr := some fee_dyn,
    settings_ptr := some 0, custom_fee := custom_fee }

/-- Lines 57-114 of `transfer_evaluator::do_evaluate`, the checks that come
before the fee: the whitelist and restriction assertions, then, after
`HARDFORK_627_TIME`, the EDC daily limit. -/
def transfer_evaluator.preflight_checks (P : chain_parameters) (d : database)
    (asset_type : asset_object) (from_account to_account : account_object)
    (settings : settings_object) (op : transfer_operation) : Except error Unit := do
  transfer_preflight P d asset_type op.from_ op.to_ op.amount.asset_id
  if d.head_block_time > P.HARDFORK_627_TIME then
    transfer_evaluator.daily_limit P d from_account to_account settings op
  else pure ()

/-- Lines 246-296 of `blind_transfer2_evaluator::do_evaluate`, the checks that
come before the fee: the whitelist and restriction assertions, then the EDC
daily limit. -/
def blind_transfer2_evaluator.preflight_checks (P : chain_parameters) (d : database)
    (asset_type : asset_object) (from_account to_account : account_object)
    (settings : settings_object) (op : blind_transfer2_operation) : Except error Unit := do
  transfer_preflight P d asset_type op.from_ op.to_ op.amount.asset_id
  blind_transfer2_evaluator.daily_limit P d from_account to_account settings op

/-! ## `transfer_evaluator.cpp`: settings and override evaluators -/

/-- Embedding of `update_blind_transfer2_settings_evaluator::do_evaluate`
(lines 478-488). -/
def update_blind_transfer2_settings_evaluator.do_evaluate (d : database)
    (ev : generic_evaluator) (_op : update_blind_transfer2_settings_operation) :
    Except error generic_evaluator :=
  match d.settings 0 with
  | some _ => .ok ev
  | none => .error .missing_settings

/-- The burning-destination block of `override_transfer_evaluator::do_evaluate`
(lines 534-540); returns the member `asset_dyn_data_ptr`, which is assigned
only here. -/
def override_transfer_evaluator.burning_checks (d : database) (held : Option Nat)
    (to_account : account_object) (asset_type : asset_object)
    (op : override_transfer_operation) : Except error (Option Nat) :=
  if to_account.burning_mode_enabled then do
    fc_assert (!asset_type.market_issued) .burn_of_market_issued
    let asset_dyn_data ← get d.asset_dynamic_data asset_type.dynamic_asset_data_id
    fc_assert (decide (asset_dyn_data.current_supply - op.amount.amount ≥ 0))
      .burn_exceeds_supply
    pure (some asset_type.dynamic_asset_data_id)
  else pure held

/-- Embedding of `override_transfer_evaluator::do_evaluate` (lines 503-543). -/
def override_transfer_evaluator.do_evaluate (P : chain_parameters) (d : database)
    (ev : override_transfer_evaluator) (op : override_transfer_operation) :
    Except error override_transfer_evaluator := do
  let asset_type ← get d.assets op.amount.asset_id
  fc_assert asset_type.can_override .override_transfer_not_permitted
  fc_assert (decide (asset_type.issuer = op.issuer)) .assert_exception
  let _ ← get d.accounts op.from_
  let to_account ← get d.accounts op.to_
  fc_assert (P.is_authorized_asset d op.to_ op.amount.asset_id) .assert_exception
  fc_assert (P.is_authorized_asset d op.from_ op.amount.asset_id) .assert_exception
  fc_assert (P.not_restricted_account d op.from_ .payer) .assert_exception
  fc_assert (P.not_restricted_account d op.to_ .receiver) .assert_exception
  (if d.head_block_time ≤ P.HARDFORK_419_TIME then
    fc_assert (P.is_authorized_asset d op.from_ op.amount.asset_id) .assert_exception
   else pure ())
  fc_assert (decide (d.get_balance op.from_ op.amount.asset_id ≥ op.amount.amount))
    .insufficient_balance
  let dyn_ptr ←
    override_transfer_evaluator.burning_checks d ev.asset_dyn_data_ptr to_account asset_type op
  pure { ev with to_account_ptr := some op.to_, asset_dyn_data_ptr := dyn_ptr }

/-- A newly constructed `blind_transfer2_evaluator`. -/
def blind_transfer2_evaluator.fresh (skip_fee : Bool) : blind_transfer2_evaluator :=
  { togeneric_evaluator := generic_evaluator.fresh skip_fee,
    from_account_ptr := none, to_account_ptr := none, asset_dyn_data_ptr := none,
    fee_dyn_data_ptr := none, settings_ptr := none,
    custom_fee := { amount := 0, asset_id := 0 } }

/-- The fee block of `blind_transfer2_evaluator::do_apply` (lines 412-426),
entered when `head_block_time() < HARDFORK_627_TIME`: the custom fee, when
positive, is taken from the sender, and it is burnt in the dynamic data behind
`fee_dyn_data_ptr` when that pointer is set. -/
def blind_transfer2_evaluator.apply_fee (P : chain_parameters) (d : database)
    (ev : blind_transfer2_evaluator) (o : blind_transfer2_operation) : Except error database :=
  if d.head_block_time < P.HARDFORK_627_TIME then do
    let d1 ← (if ev.custom_fee.amount > 0 then d.adjust_balance o.from_ ev.custom_fee.neg
              else pure d)
    match ev.fee_dyn_data_ptr with
    | none => pure d1
    | some i => do
      let data ← get d1.asset_dynamic_data i
      let burnt := burn_supply data ev.custom_fee.amount
      pure { d1 with asset_dynamic_data := update d1.asset_dynamic_data i burnt }
  else pure d

/-- The record created by `blind_transfer2_evaluator::do_apply`
(lines 463-471). -/
def blind_transfer2_evaluator.new_object (d : database) (ev : blind_transfer2_evaluator)
    (o : blind_transfer2_operation) : blind_transfer2_object :=
  { from_ := o.from_, to_ := o.to_, amount := o.amount, datetime := d.head_block_time,
    memo := o.memo, fee := ev.custom_fee.amount }

/-- Embedding of `blind_transfer2_evaluator::do_apply` (lines 402-474): the
ledger it leaves and the asset it returns.  `to_account` is a reference to the
destination account object; none of the steps writes its
`burning_mode_enabled`. -/
def blind_transfer2_evaluator.do_apply (P : chain_parameters) (d : database)
    (ev : blind_transfer2_evaluator) (o : blind_transfer2_operation) :
    Except error (database × asset) := do
  let (_, to_account) ← deref d.accounts ev.to_account_ptr
  let d1 ← d.adjust_balance o.from_ o.amount.neg
  let d2 ← blind_transfer2_evaluator.apply_fee P d1 ev o
  let d3 ← apply_counters P d2 to_account.burning_mode_enabled o.from_ o.amount
  let d4 ←
    (if to_account.burning_mode_enabled = false then d3.adjust_balance o.to_ o.amount
     else apply_burning P d3 ev.asset_dyn_data_ptr ev.from_account_ptr o.amount)
  let obj := blind_transfer2_evaluator.new_object d4 ev o
  pure ({ d4 with blind_transfers2 := d4.blind_transfers2 ++ [obj] }, ev.custom_fee)

/-- Embedding of `update_blind_transfer2_settings_evaluator::do_apply`
(lines 490-499). -/
def update_blind_transfer2_settings_evaluator.do_apply (d : database)
    (o : update_blind_transfer2_settings_operation) : Except error database := do
  let obj ← get d.settings 0
  let obj1 : settings_object := { obj with blind_transfer_default_fee := o.blind_fee }
  pure { d with settings := update d.settings 0 obj1 }

/-- The credit or burn of `override_transfer_evaluator::do_apply` behind a set
`to_account_ptr` (lines 553-563). -/
def override_transfer_evaluator.apply_credit (d : database)
    (ev : override_transfer_evaluator) (o : override_transfer_operation)
    (to_account : account_object) : Except error database :=
  if to_account.burning_mode_enabled = false then d.adjust_balance o.to_ o.amount
  else
    match ev.asset_dyn_data_ptr with
    | none => pure d
    | some j => do
      let data ← get d.asset_dynamic_data j
      let burnt := burn_supply data o.amount.amount
      pure { d with asset_dynamic_data := update d.asset_dynamic_data j burnt }

/-- Embedding of `override_transfer_evaluator::do_apply` (lines 545-567). -/
def override_transfer_evaluator.do_apply (d : database)
    (ev : override_transfer_evaluator) (o : override_transfer_operation) :
    Except error database := do
  let d1 ← d.adjust_balance o.from_ o.amount.neg
  match ev.to_account_ptr with
  | none => pure d1
  | some i => do
    let to_account ← get d1.accounts i
    override_transfer_evaluator.apply_credit d1 ev o to_account

/-! ## `evaluator.cpp`: `generic_evaluator` -/

/-- The fee-asset assertion of `start_evaluate` (lines 50-59).  When the
assertion fails its message is built first, and building it looks up
`should_pay_in(d)`. -/
def generic_evaluator.check_fee_asset (P : chain_parameters) (d : database) (op : operation) :
    Except error Unit :=
  if d.head_block_time > P.HARDFORK_620_TIME then
    match op with
    | .transfer tr_op => do
      let amount_asset ← get d.assets tr_op.amount.asset_id
      let should_pay_in := amount_asset.fee_paying_asset
      if tr_op.fee.asset_id = should_pay_in then pure ()
      else do
        let _ ← get d.assets should_pay_in
        throw .wrong_fee_asset
    | _ => pure ()
  else pure ()

/-- Embedding of `generic_evaluator::start_evaluate` (lines 44-65) for an
evaluator whose members have type `σ`.  The virtual members `evaluate` and
`apply` are parameters; each takes the ledger and leaves a ledger, whether it
returns or throws. -/
def generic_evaluator.start_evaluate (P : chain_parameters) {σ : Type}
    (evaluate : σ → database → operation → database × Except error (σ × operation_result))
    (apply : σ → database → operation → database × Except error (σ × operation_result))
    (ev : σ) (d : database) (op : operation) (apply_flag : Bool) :
    database × Except error (σ × operation_result) :=
  match generic_evaluator.check_fee_asset P d op with
  | .error e => (d, .error e)
  | .ok _ =>
    match evaluate ev d op with
    | (d1, .error e) => (d1, .error e)
    | (d1, .ok (ev1, result)) =>
      if apply_flag then apply ev1 d1 op else (d1, .ok (ev1, result))

/-- Embedding of `generic_evaluator::prepare_fee` (lines 67-105). -/
def generic_evaluator.prepare_fee (P : chain_parameters) (d : database)
    (g : generic_evaluator) (account_id : account_id_type) (fee : asset) :
    Except error generic_evaluator := do
  fc_assert (decide (fee.amount ≥ 0)) .assert_exception
  let fee_paying_account ← get d.accounts account_id
  let _ ← get d.account_statistics fee_paying_account.statistics
  let fee_asset ← get d.assets fee.asset_id
  let _ ← get d.asset_dynamic_data fee_asset.dynamic_asset_data_id
  (if d.head_block_time > P.HARDFORK_419_TIME then
    fc_assert (P.is_authorized_asset d account_id fee.asset_id) .assert_exception
   else pure ())
  fc_assert (P.not_restricted_account d account_id .payer) .assert_exception
  fc_assert (!fee_paying_account.verification_is_required) .assert_exception
  let core_fee_paid ←
    (if fee.asset_id = P.CORE_ASSET then pure fee.amount
     else do
      let fee_from_pool ← P.asset_mul_price fee fee_asset.core_exchange_rate
      fc_assert (decide (fee_from_pool.asset_id = P.CORE_ASSET)) .assert_exception
      pure fee_from_pool.amount)
  pure { g with
    fee_from_account := fee, core_fee_paid := core_fee_paid,
    fee_paying_account := some account_id,
    fee_paying_account_statistics := some fee_paying_account.statistics,
    fee_asset := some fee.asset_id,
    fee_asset_dyn_data := some fee_asset.dynamic_asset_data_id }

/-- Embedding of `generic_evaluator::convert_fee` (lines 107-143). -/
def generic_evaluator.convert_fee (P : chain_parameters) (g : generic_evaluator)
    (d : database) : Except error database :=
  if g.skip_fee = false then do
    let (asset_id, _) ← deref d.assets g.fee_asset
    if asset_id ≠ P.CORE_ASSET then
      if d.head_block_time > P.HARDFORK_623_TIME then do
        let (i, dyn_data) ← deref d.asset_dynamic_data g.fee_asset_dyn_data
        let d1 : database :=
          { d with asset_dynamic_data :=
              update d.asset_dynamic_data i (burn_supply dyn_data g.fee_from_account.amount) }
        let settings ← get d1.settings 0
        if g.fee_from_account.asset_id = P.EDC_ASSET ∧ settings.witness_fees_percent > 0 then do
          let witnesses_info ← get d1.witnesses_info 0
          let obj : witnesses_info_object :=
            { witness_fees_reward_edc_amount :=
                witnesses_info.witness_fees_reward_edc_amount + g.fee_from_account.amount }
          pure { d1 with witnesses_info := update d1.witnesses_info 0 obj }
        else pure d1
      else do
        let (i, dyn_data) ← deref d.asset_dynamic_data g.fee_asset_dyn_data
        let obj : asset_dynamic_data_object :=
          { dyn_data with
              accumulated_fees := dyn_data.accumulated_fees + g.fee_from_account.amount,
              fee_pool := dyn_data.fee_pool - g.core_fee_paid }
        pure { d with asset_dynamic_data := update d.asset_dynamic_data i obj }
    else pure d
  else pure d

/-- Embedding of `generic_evaluator::pay_fee` (lines 145-155). -/
def generic_evaluator.pay_fee (P : chain_parameters) (g : generic_evaluator)
    (d : database) : Except error database :=
  if g.skip_fee = false then do
    let (i, s) ← deref d.account_statistics g.fee_paying_account_statistics
    let s1 := P.statistics_pay_fee s g.core_fee_paid d.cashback_vesting_threshold
    pure { d with account_statistics := update d.account_statistics i s1 }
  else pure d

/-- Embedding of `generic_evaluator::db_adjust_balance` (lines 174-176). -/
def generic_evaluator.db_adjust_balance (d : database) (fee_payer : account_id_type)
    (fee_amount : asset) : Except error database :=
  d.adjust_balance fee_payer fee_amount

/-- Modelled from the spec: the apply phase of a transfer.  Its driver
(`evaluator<transfer_evaluator>::apply` of evaluator.hpp) is not among the
sources; the steps and their order are those of the spec: `do_apply`, then
`convert_fee`, then `pay_fee`. -/
def transfer_apply_phase (P : chain_parameters) (d : database) (ev : transfer_evaluator)
    (o : transfer_operation) : Except error database := do
  let d1 ← transfer_evaluator.do_apply P d ev o
  let d2 ← ev.togeneric_evaluator.convert_fee P d1
  ev.togeneric_evaluator.pay_fee P d2

/-- Modelled from the spec: step 3 of `start_evaluate` for a transfer, "call
`do_evaluate(op)` (variant-specific)".  The virtual `evaluate` is defined by
`evaluator<transfer_evaluator>` (evaluator.hpp), which is not among the
sources.  `do_evaluate` reads the ledger through a `const` reference, so the
ledger is handed back as it came; `op.get<transfer_operation>()` throws on any
other variant. -/
def transfer_evaluator.evaluate (P : chain_parameters) (ev : transfer_evaluator)
    (d : database) (op : operation) :
    database × Except error (transfer_evaluator × operation_result) :=
  match op with
  | .transfer o =>
    (d, (transfer_evaluator.do_evaluate P d ev o).map (fun ev1 => (ev1, .void_result)))
  | _ => (d, .error .assert_exception)

/-! ## The four `do_evaluate` as statements run on the ledger -/

/-- A statement of an evaluator run on the ledger `db()`: the ledger it leaves,
and what it returns or throws. -/
def ledger_step (α : Type) : Type := database → database × Except error α

/-- The statement that returns a value and does nothing else. -/
def ledger_step.ret {α : Type} (a : α) : ledger_step α :=
  fun d => (d, .ok a)

/-- Two statements in a row: the second runs on the ledger the first has left;
an exception ends the run with the ledger as it is at the throw. -/
def ledger_step.seq {α β : Type} (x : ledger_step α) (f : α → ledger_step β) :
    ledger_step β :=
  fun d =>
    match x d with
    | (d1, .ok a) => f a d1
    | (d1, .error e) => (d1, .error e)

instance : Monad ledger_step where
  pure := ledger_step.ret
  bind := ledger_step.seq

/-- A statement that reaches the ledger through the reference
`const database& d = db()` and only calls `const` members on it (a lookup, a
query, an assertion on what was read): the ledger is handed on as it is. -/
def read_ledger {α : Type} (f : database → Except error α) : ledger_step α :=
  fun d => (d, f d)

/-- A statement that does not reach the ledger at all: an assertion on values
already read. -/
def local_step {α : Type} (x : Except error α) : ledger_step α :=
  fun d => (d, x)

/-- The five assertions of lines 57-92 and 246-281, one statement each. -/
def transfer_preflight_steps (P : chain_parameters) (asset_type : asset_object)
    (from_ to_ : account_id_type) (asset_id : asset_id_type) : ledger_step Unit := do
  read_ledger fun d =>
    fc_assert (P.is_authorized_asset d from_ asset_id) .transfer_from_account_not_whitelisted
  read_ledger fun d =>
    fc_assert (P.is_authorized_asset d to_ asset_id) .transfer_to_account_not_whitelisted
  read_ledger fun d =>
    fc_assert (P.not_restricted_account d from_ .payer) .transfer_from_account_restricted
  read_ledger fun d =>
    fc_assert (P.not_restricted_account d to_ .receiver) .transfer_to_account_restricted
  local_step
    (if asset_type.transfer_restricted then
      fc_assert (decide (from_ = asset_type.issuer ∨ to_ = asset_type.issuer))
        .transfer_restricted_transfer_asset
     else pure ())

/-- `transfer_evaluator::do_evaluate` (lines 34-176) statement by statement on
the ledger.  Line 37 binds `const database& d = db()` and every later statement
goes through `d`: the lookups of lines 39-52, the assertions of lines 57-92,
the block behind `head_block_time() > HARDFORK_627_TIME` (lines 94-164) and the
assertions on a burning destination (lines 167-171), which read no more than
what was looked up. -/
def transfer_evaluator.do_evaluate_steps (P : chain_parameters) (ev : transfer_evaluator)
    (op : transfer_operation) : ledger_step transfer_evaluator := do
  let from_account ← read_ledger fun d => get d.accounts op.from_
  let to_account ← read_ledger fun d => get d.accounts op.to_
  let asset_type ← read_ledger fun d => get d.assets op.amount.asset_id
  let fee_asset_id ← read_ledger fun d => fee_asset_type P d asset_type
  let asset_dyn_data ←
    read_ledger fun d => get d.asset_dynamic_data asset_type.dynamic_asset_data_id
  let settings ← read_ledger fun d => get d.settings 0
  transfer_preflight_steps P asset_type op.from_ op.to_ op.amount.asset_id
  let custom_fee ← read_ledger fun d =>
    (if d.head_block_time > P.HARDFORK_627_TIME then
      transfer_evaluator.post_627 P d ev.custom_fee from_account to_account settings
        fee_asset_id op
     else pure ev.custom_fee)
  local_step
    (burning_checks to_account asset_type asset_dyn_data (op.amount.amount + custom_fee))
  pure { ev with
    from_account_ptr := some op.from_, to_account_ptr := some op.to_,
    asset_dyn_data_ptr := some asset_type.dynamic_asset_data_id,
    settings_ptr := some 0, custom_fee := custom_fee }

/-- `blind_transfer2_evaluator::do_evaluate` (lines 227-400) statement by
statement on the ledger; line 230 binds `const database& d = db()`. -/
def blind_transfer2_evaluator.do_evaluate_steps (P : chain_parameters)
    (ev : blind_transfer2_evaluator) (op : blind_transfer2_operation) :
    ledger_step blind_transfer2_evaluator := do
  let from_account ← read_ledger fun d => get d.accounts op.from_
  let to_account ← read_ledger fun d => get d.accounts op.to_
  let asset_type ← read_ledger fun d => get d.assets op.amount.asset_id
  let asset_dyn_data ←
    read_ledger fun d => get d.asset_dynamic_data asset_type.dynamic_asset_data_id
  let settings ← read_ledger fun d => get d.settings 0
  transfer_preflight_steps P asset_type op.from_ op.to_ op.amount.asset_id
  read_ledger fun d =>
    blind_transfer2_evaluator.daily_limit P d from_account to_account settings op
  let fee ← read_ledger fun d =>
    blind_transfer2_evaluator.fee_checks P d from_account to_account settings op
  local_step
    (burning_checks to_account asset_type asset_dyn_data (op.amount.amount + fee.1.amount))
  pure { ev with
    from_account_ptr := some op.from_, to_account_ptr := some op.to_,
    asset_dyn_data_ptr := some asset_type.dynamic_asset_data_id,
    fee_dyn_data_ptr := some fee.2,
    settings_ptr := some 0, custom_fee := fee.1 }

/-- `override_transfer_evaluator::do_evaluate` (lines 503-543) statement by
statement on the ledger; line 505 binds `const database& d = db()`. -/
def override_transfer_evaluator.do_evaluate_steps (P : chain_parameters)
    (ev : override_transfer_evaluator) (op : override_transfer_operation) :
    ledger_step override_transfer_evaluator := do
  let asset_type ← read_ledger fun d => get d.assets op.amount.asset_id
  local_step (fc_assert asset_type.can_override .override_transfer_not_permitted)
  local_step (fc_assert (decide (asset_type.issuer = op.issuer)) .assert_exception)
  let _ ← read_ledger fun d => get d.accounts op.from_
  let to_account ← read_ledger fun d => get d.accounts op.to_
  read_ledger fun d =>
    fc_assert (P.is_authorized_asset d op.to_ op.amount.asset_id) .assert_exception
  read_ledger fun d =>
    fc_assert (P.is_authorized_asset d op.from_ op.amount.asset_id) .assert_exception
  read_ledger fun d => fc_assert (P.not_restricted_account d op.from_ .payer) .assert_exception
  read_ledger fun d => fc_assert (P.not_restricted_account d op.to_ .receiver) .assert_exception
  read_ledger fun d =>
    (if d.head_block_time ≤ P.HARDFORK_419_TIME then
      fc_assert (P.is_authorized_asset d op.from_ op.amount.asset_id) .assert_exception
     else pure ())
  read_ledger fun d =>
    fc_assert (decide (d.get_balance op.from_ op.amount.asset_id ≥ op.amount.amount))
      .insufficient_balance
  let dyn_ptr ← read_ledger fun d =>
    override_transfer_evaluator.burning_checks d ev.asset_dyn_data_ptr to_account asset_type op
  pure { ev with to_account_ptr := some op.to_, asset_dyn_data_ptr := dyn_ptr }

/-- `update_blind_transfer2_settings_evaluator::do_evaluate` (lines 478-488) on
the ledger: line 481 binds `const database& d = db()`, line 483 looks up the
settings through it. -/
def update_blind_transfer2_settings_evaluator.do_evaluate_steps (ev : generic_evaluator)
    (_op : update_blind_transfer2_settings_operation) : ledger_step generic_evaluator := do
  let itr ← read_ledger fun d => pure (d.settings 0)
  local_step
    (match itr with
      | some _ => pure ()
      | none => throw .missing_settings)
  pure ev

/-- The result of `evaluate`, which is `void_result` for each of the four
operations, next to the members of the evaluator. -/
def with_void_result {σ : Type} (run : database × Except error σ) :
    database × Except error (σ × operation_result) :=
  (run.1, run.2.map fun ev1 => (ev1, .void_result))

/-- Modelled from the spec: step 3 of `start_evaluate` for a transfer, "call
`do_evaluate(op)` (variant-specific)", with `do_evaluate` run statement by
statement on the ledger.  The virtual `evaluate` is defined by
`evaluator<transfer_evaluator>` (evaluator.hpp), which is not among the
sources; `op.get<transfer_operation>()` throws on any other variant. -/
def transfer_evaluator.evaluate_steps (P : chain_parameters) (ev : transfer_evaluator)
    (d : database) (op : operation) :
    database × Except error (transfer_evaluator × operation_result) :=
  match op with
  | .transfer o => with_void_result (transfer_evaluator.do_evaluate_steps P ev o d)
  | _ => (d, .error .assert_exception)

/-- Modelled from the spec: step 3 of `start_evaluate` for a blind transfer
(see `transfer_evaluator.evaluate_steps`). -/
def blind_transfer2_evaluator.evaluate_steps (P : chain_parameters)
    (ev : blind_transfer2_evaluator) (d : database) (op : operation) :
    database × Except error (blind_transfer2_evaluator × operation_result) :=
  match op with
  | .blind_transfer2 o =>
    with_void_result (blind_transfer2_evaluator.do_evaluate_steps P ev o d)
  | _ => (d, .error .assert_exception)

/-- Modelled from the spec: step 3 of `start_evaluate` for an override transfer
(see `transfer_evaluator.evaluate_steps`). -/
def override_transfer_evaluator.evaluate_steps (P : chain_parameters)
    (ev : override_transfer_evaluator) (d : database) (op : operation) :
    database × Except error (override_transfer_evaluator × operation_result) :=
  match op with
  | .override_transfer o =>
    with_void_result (override_transfer_evaluator.do_evaluate_steps P ev o d)
  | _ => (d, .error .assert_exception)

/-- Modelled from the spec: step 3 of `start_evaluate` for a settings update
(see `transfer_evaluator.evaluate_steps`). -/
def update_blind_transfer2_settings_evaluator.evaluate_steps (ev : generic_evaluator)
    (d : database) (op : operation) :
    database × Except error (generic_evaluator × operation_result) :=
  match op with
  | .update_blind_transfer2_settings o =>
    with_void_result (update_blind_transfer2_settings_evaluator.do_evaluate_steps ev o d)
  | _ => (d, .error .assert_exception)

/-! ## `asset_ops.cpp`: asset options -/

/-- The fields of `asset_options` read by `validate()`.  `market_fee_percent`,
`issuer_permissions` and `flags` are `uint16_t`; the four sets are kept as the
lists of their elements. -/
structure asset_options where
  max_supply : Int
  market_fee_percent : Nat
  max_market_fee : Int
  issuer_permissions : Nat
  flags : Nat
  core_exchange_rate : price
  whitelist_authorities : List account_id_type
  blacklist_authorities : List account_id_type
  whitelist_markets : List asset_id_type
  blacklist_markets : List asset_id_type
deriving DecidableEq

/-- The value of `x & ~mask` for a 16-bit `x` and a 32-bit `mask`: the operands
of `&` are promoted to 32 bits, in which `~` complements the mask. -/
def and_not_mask (x mask : Nat) : Nat :=
  x &&& ((2 ^ 32 - 1) ^^^ (mask % 2 ^ 32))

/-- A loop `for( auto item : items ) FC_ASSERT( test(item) );`. -/
def assert_each {α : Type} (items : List α) (test : α → Bool) : Except error Unit :=
  match items with
  | [] => .ok ()
  | item :: rest => do
    fc_assert (test item) .assert_exception
    assert_each rest test

/-- Embedding of `asset_options::validate` (asset_ops.cpp:246-272). -/
def asset_options.validate (P : chain_parameters) (o : asset_options) : Except error Unit := do
  fc_assert (decide (o.max_supply > 0)) .assert_exception
  fc_assert (decide (o.max_supply ≤ P.GRAPHENE_MAX_SHARE_SUPPLY)) .assert_exception
  fc_assert (decide (o.market_fee_percent ≤ P.GRAPHENE_100_PERCENT)) .assert_exception
  fc_assert (decide (o.max_market_fee ≥ 0 ∧ o.max_market_fee ≤ P.GRAPHENE_MAX_SHARE_SUPPLY))
    .assert_exception
  fc_assert (decide (and_not_mask o.issuer_permissions P.ASSET_ISSUER_PERMISSION_MASK = 0))
    .assert_exception
  fc_assert (decide (o.flags &&& P.global_settle = 0)) .assert_exception
  fc_assert (decide (o.flags &&& (P.witness_fed_asset ||| P.committee_fed_asset) ≠
    (P.witness_fed_asset ||| P.committee_fed_asset))) .assert_exception
  P.price_validate o.core_exchange_rate
  fc_assert (decide (o.core_exchange_rate.base.asset_id = 0 ∨
    o.core_exchange_rate.quote.asset_id = 0)) .assert_exception
  (if !o.whitelist_authorities.isEmpty || !o.blacklist_authorities.isEmpty then
    fc_assert (decide (o.flags &&& P.white_list ≠ 0)) .assert_exception
   else pure ())
  assert_each o.whitelist_markets (fun item => !o.blacklist_markets.contains item)
  assert_each o.blacklist_markets (fun item => !o.whitelist_markets.contains item)

/-- The fields of `bitasset_options` read by `validate()`: `minimum_feeds` is
`uint8_t`, the two percentages are `uint16_t`. -/
structure bitasset_options where
  minimum_feeds : Nat
  force_settlement_offset_percent : Nat
  maximum_force_settlement_volume : Nat
deriving DecidableEq

/-- Embedding of `bitasset_options::validate` (asset_ops.cpp:239-244). -/
def bitasset_options.validate (P : chain_parameters) (o : bitasset_options) :
    Except error Unit := do
  fc_assert (decide (o.minimum_feeds > 0)) .assert_exception
  fc_assert (decide (o.force_settlement_offset_percent ≤ P.GRAPHENE_100_PERCENT))
    .assert_exception
  fc_assert (decide (o.maximum_force_settlement_volume ≤ P.GRAPHENE_100_PERCENT))
    .assert_exception

/-- The fields of `asset_create_operation` read by `validate()`; `precision` is
`uint8_t`, `bitasset_opts` an `optional`. -/
structure asset_create_operation where
  fee : asset
  symbol : String
  precision : Nat
  common_options : asset_options
  bitasset_opts : Option bitasset_options
  is_prediction_market : Bool
deriving DecidableEq

/-- The `if( bitasset_opts ) bitasset_opts->validate();` of line 107. -/
def validate_if_present (P : chain_parameters) (opts : Option bitasset_options) :
    Except error Unit :=
  match opts with
  | some b => b.validate P
  | none => .ok ()

/-- Embedding of `asset_create_operation::validate` (asset_ops.cpp:95-112).
The value `asset(1)` carries the default asset id, instance 0. -/
def asset_create_operation.validate (P : chain_parameters) (o : asset_create_operation) :
    Except error Unit := do
  fc_assert (decide (o.fee.amount ≥ 0)) .assert_exception
  fc_assert (is_valid_symbol P.GRAPHENE_MIN_ASSET_SYMBOL_LENGTH
    P.GRAPHENE_MAX_ASSET_SYMBOL_LENGTH o.symbol) .assert_exception
  o.common_options.validate P
  (if o.common_options.issuer_permissions &&& (P.disable_force_settle ||| P.global_settle) ≠ 0
    then fc_assert o.bitasset_opts.isSome .assert_exception
    else pure ())
  (if o.is_prediction_market then do
    fc_assert o.bitasset_opts.isSome .assert_exception
    fc_assert (decide (o.common_options.issuer_permissions &&& P.global_settle ≠ 0))
      .assert_exception
   else pure ())
  validate_if_present P o.bitasset_opts
  let dummy ← P.asset_mul_price { amount := 1, asset_id := 0 } o.common_options.core_exchange_rate
  fc_assert (decide (dummy.asset_id = P.EDC_ASSET)) .assert_exception
  fc_assert (decide (o.precision ≤ 12)) .assert_exception

/-- The fields of `asset_update_operation` read by `validate()`. -/
structure asset_update_operation where
  fee : asset
  issuer : account_id_type
  asset_to_update : asset_id_type
  new_issuer : Option account_id_type
  new_options : asset_options
deriving DecidableEq

/-- The fields of `asset_update2_operation` read by `validate()`. -/
structure asset_update2_operation where
  fee : asset
  issuer : account_id_type
  asset_to_update : asset_id_type
  new_issuer : Option account_id_type
  new_options : asset_options
deriving DecidableEq

/-- The `if( new_issuer ) FC_ASSERT(issuer != *new_issuer);` of lines 121-122
and 137-138. -/
def assert_new_issuer (issuer : account_id_type) (new_issuer : Option account_id_type) :
    Except error Unit :=
  match new_issuer with
  | some n => fc_assert (decide (issuer ≠ n)) .assert_exception
  | none => .ok ()

/-- Embedding of `asset_update_operation::validate` (asset_ops.cpp:118-127). -/
def asset_update_operation.validate (P : chain_parameters) (o : asset_update_operation) :
    Except error Unit := do
  fc_assert (decide (o.fee.amount ≥ 0)) .assert_exception
  assert_new_issuer o.issuer o.new_issuer
  o.new_options.validate P
  let dummy ← P.asset_mul_price { amount := 1, asset_id := o.asset_to_update }
    o.new_options.core_exchange_rate
  fc_assert (decide (dummy.asset_id = P.CORE_ASSET)) .assert_exception

/-- Embedding of `asset_update2_operation::validate` (asset_ops.cpp:134-143). -/
def asset_update2_operation.validate (P : chain_parameters) (o : asset_update2_operation) :
    Except error Unit := do
  fc_assert (decide (o.fee.amount ≥ 0)) .assert_exception
  assert_new_issuer o.issuer o.new_issuer
  o.new_options.validate P
  let dummy ← P.asset_mul_price { amount := 1, asset_id := o.asset_to_update }
    o.new_options.core_exchange_rate
  fc_assert (decide (dummy.asset_id = P.CORE_ASSET)) .assert_exception

/-- The fields of `asset_reserve_operation` read by `validate()`. -/
structure asset_reserve_operation where
  fee : asset
  amount_to_reserve : asset
deriving DecidableEq

/-- Embedding of `asset_reserve_operation::validate` (asset_ops.cpp:170-175). -/
def asset_reserve_operation.validate (P : chain_parameters) (o : asset_reserve_operation) :
    Except error Unit := do
  fc_assert (decide (o.fee.amount ≥ 0)) .assert_exception
  fc_assert (decide (o.amount_to_reserve.amount ≤ P.GRAPHENE_MAX_SHARE_SUPPLY)) .assert_exception
  fc_assert (decide (o.amount_to_reserve.amount > 0)) .assert_exception

/-- The fields of `asset_issue_operation` read by `validate()`. -/
structure asset_issue_operation where
  fee : asset
  asset_to_issue : asset
deriving DecidableEq

/-- Embedding of `asset_issue_operation::validate` (asset_ops.cpp:177-183). -/
def asset_issue_operation.validate (P : chain_parameters) (o : asset_issue_operation) :
    Except error Unit := do
  fc_assert (decide (o.fee.amount ≥ 0)) .assert_exception
  fc_assert (decide (o.asset_to_issue.amount ≤ P.GRAPHENE_MAX_SHARE_SUPPLY)) .assert_exception
  fc_assert (decide (o.asset_to_issue.amount > 0)) .assert_exception
  fc_assert (decide (o.asset_to_issue.asset_id ≠ P.CORE_ASSET)) .assert_exception

/-- Modelled from the spec: the fields of `bonus_operation`, whose declaration
(asset_ops.hpp) is not among the sources.  `validate()` compares the member
`asset_to_issue` as a whole with `CORE_ASSET`, an asset id, where the other
issuing operations compare `asset_to_issue.asset_id`: the member is an asset
id.  `amount` is the amount to issue that the specification gives the
operation; `validate()` reads no such member. -/
structure bonus_operation where
  asset_to_issue : asset_id_type
  amount : Int
deriving DecidableEq

/-- Embedding of `bonus_operation::validate` (asset_ops.cpp:185-188). -/
def bonus_operation.validate (P : chain_parameters) (o : bonus_operation) :
    Except error Unit :=
  fc_assert (decide (o.asset_to_issue ≠ P.CORE_ASSET)) .assert_exception

/-- The field of `daily_issue_operation` read by `validate()`. -/
structure daily_issue_operation where
  asset_to_issue : asset
deriving DecidableEq

/-- Embedding of `daily_issue_operation::validate` (asset_ops.cpp:189-194). -/
def daily_issue_operation.validate (P : chain_parameters) (o : daily_issue_operation) :
    Except error Unit := do
  fc_assert (decide (o.asset_to_issue.amount ≤ P.GRAPHENE_MAX_SHARE_SUPPLY)) .assert_exception
  fc_assert (decide (o.asset_to_issue.amount > 0)) .assert_exception
  fc_assert (decide (o.asset_to_issue.asset_id ≠ P.CORE_ASSET)) .assert_exception

/-- The field of `referral_issue_operation` read by `validate()`. -/
structure referral_issue_operation where
  asset_to_issue : asset
deriving DecidableEq

/-- Embedding of `referral_issue_operation::validate` (asset_ops.cpp:195-200). -/
def referral_issue_operation.validate (P : chain_parameters) (o : referral_issue_operation) :
    Except error Unit := do
  fc_assert (decide (o.asset_to_issue.amount ≤ P.GRAPHENE_MAX_SHARE_SUPPLY)) .assert_exception
  fc_assert (decide (o.asset_to_issue.amount > 0)) .assert_exception
  fc_assert (decide (o.asset_to_issue.asset_id ≠ P.CORE_ASSET)) .assert_exception

/-- Asset options of the example chain: a supply limit of 1000, a market fee of
1 percent, the permissions `white_list` and override, no flag, the core asset
as quote of the exchange rate, no lists. -/
def example_options : asset_options :=
  { max_supply := 1000, market_fee_percent := 100, max_market_fee := 10,
    issuer_permissions := 0x06, flags := 0,
    core_exchange_rate :=
      { base := { amount := 1, asset_id := 2 }, quote := { amount := 1, asset_id := 0 } },
    whitelist_authorities := [], blacklist_authorities := [],
    whitelist_markets := [], blacklist_markets := [] }

/-! ## Reference behaviour, in the words of the specification -/

/-- The reference for `convert_fee`, written from the specification and not
from the code: nothing changes when the fee is skipped or stated in
`CORE_ASSET`; otherwise, after `HARDFORK_623_TIME`, the dynamic data of the fee
asset has `current_supply` lowered and `fee_burnt` raised by `fee.amount`,
and the witnesses accumulator is raised by `fee.amount` exactly when the fee
asset is `EDC_ASSET` and `settings.witness_fees_percent > 0`; up to
`HARDFORK_623_TIME`, the dynamic data has `accumulated_fees` raised by
`fee.amount` and `fee_pool` lowered by `core_fee_paid`.  The objects named are
those of the ledger: `fee_asset` the fee asset, `dyn` its dynamic data,
`settings` and `witnesses_info` the two singletons. -/
def convert_fee_reference (P : chain_parameters) (skip_fee : Bool) (fee : asset)
    (core_fee_paid : Int) (fee_asset : asset_object) (dyn : asset_dynamic_data_object)
    (settings : settings_object) (witnesses_info : witnesses_info_object)
    (d : database) : database :=
  if skip_fee = true ∨ fee.asset_id = P.CORE_ASSET then d
  else if d.head_block_time > P.HARDFORK_623_TIME then
    let burnt : asset_dynamic_data_object :=
      { dyn with current_supply := dyn.current_supply - fee.amount,
                 fee_burnt := dyn.fee_burnt + fee.amount }
    let d1 : database :=
      { d with asset_dynamic_data :=
          update d.asset_dynamic_data fee_asset.dynamic_asset_data_id burnt }
    if fee.asset_id = P.EDC_ASSET ∧ settings.witness_fees_percent > 0 then
      let rewarded : witnesses_info_object :=
        { witness_fees_reward_edc_amount :=
            witnesses_info.witness_fees_reward_edc_amount + fee.amount }
      { d1 with witnesses_info := update d.witnesses_info 0 rewarded }
    else d1
  else
    let pooled : asset_dynamic_data_object :=
      { dyn with accumulated_fees := dyn.accumulated_fees + fee.amount,
                 fee_pool := dyn.fee_pool - core_fee_paid }
    { d with asset_dynamic_data :=
        update d.asset_dynamic_data fee_asset.dynamic_asset_data_id pooled }

/-- The percent of a custom fee entry, 0 when the entry is absent. -/
def percent_or_zero (fee : Option settings_fee) : Int :=
  (fee.map fun entry => entry.percent).getD 0

/-- The reference for the `fee_percent` of a transfer after
`HARDFORK_627_TIME`, written from the specification and not from the code.  Up
to `HARDFORK_628_TIME` it is the percent of the custom fee that
`settings.transfer_fees` holds for the asset of the amount, or 0.  After
`HARDFORK_628_TIME`: (a) from `HARDFORK_636_TIME` on, when the fee-paying asset
is `EDC_ASSET`, the rank of `from` is above the default and the destination is
not burning, it is the percent by rank of `from`; (b) else, before
`HARDFORK_636_TIME` or when the destination is not burning, it is the percent of
the custom fee held for the fee-paying asset, or 0; (c) else 0. -/
def fee_percent_reference (P : chain_parameters) (d : database)
    (from_account to_account : account_object) (settings : settings_object)
    (fee_paying_asset : asset_id_type) (from_ : account_id_type)
    (amount_asset : asset_id_type) : Int :=
  if d.head_block_time ≤ P.HARDFORK_628_TIME then
    percent_or_zero (P.get_custom_fee d settings.transfer_fees amount_asset)
  else if P.HARDFORK_636_TIME ≤ d.head_block_time ∧ fee_paying_asset = P.EDC_ASSET
      ∧ P.rank_default < from_account.rank ∧ to_account.burning_mode_enabled = false then
    P.get_account_fee_edc_percent_by_rank d from_
  else if d.head_block_time < P.HARDFORK_636_TIME ∨ to_account.burning_mode_enabled = false then
    percent_or_zero (P.get_custom_fee d settings.transfer_fees fee_paying_asset)
  else 0

/-- The sum `current_supply + fee_burnt` of the dynamic-data object `k` of a
ledger; `none` when the ledger has no such object. -/
def supply_plus_burnt (d : database) (k : Nat) : Option Int :=
  (d.asset_dynamic_data k).map fun data => data.current_supply + data.fee_burnt

/-! ## A concrete chain, for evaluating the definitions -/

/-- Rounded percentage in exact arithmetic, `percent` counted in hundredths:
the nearest integer to `amount * percent / 100`. -/
def example_round_percent (amount : Int) (percent : Int) : Int :=
  (2 * amount * percent + 100) / 200

/-- Parameters of the example chain: the hardfork gates in their order, the
core asset 0 and EDC 1, every account authorized and unrestricted, custom fees
found by asset id, nine permission flags from `0x01` to `0x100`, and a price
valid when both amounts are positive and the two assets differ. -/
def example_parameters : chain_parameters :=
  { HARDFORK_419_TIME := 419, HARDFORK_620_TIME := 620, HARDFORK_623_TIME := 623,
    HARDFORK_627_TIME := 627, HARDFORK_628_TIME := 628, HARDFORK_631_TIME := 631,
    HARDFORK_636_TIME := 636, CORE_ASSET := 0, EDC_ASSET := 1, rank_default := 0,
    is_authorized_asset := fun _ _ _ => true,
    not_restricted_account := fun _ _ _ => true,
    get_custom_fee := fun _ fees id => fees.find? (fun fee => decide (fee.asset_id = id)),
    get_account_fee_edc_percent_by_rank := fun _ _ => 0,
    round_percent := fun _ amount percent => example_round_percent amount percent,
    asset_mul_price := fun a p =>
      if a.asset_id = p.base.asset_id ∧ p.base.amount > 0 then
        .ok { amount := a.amount * p.quote.amount / p.base.amount, asset_id := p.quote.asset_id }
      else if a.asset_id = p.quote.asset_id ∧ p.quote.amount > 0 then
        .ok { amount := a.amount * p.base.amount / p.quote.amount, asset_id := p.base.asset_id }
      else .error .assert_exception,
    statistics_pay_fee := fun s core_fee threshold =>
      if core_fee > threshold then { s with pending_fees := s.pending_fees + core_fee }
      else { s with pending_vested_fees := s.pending_vested_fees + core_fee },
    GRAPHENE_MAX_SHARE_SUPPLY := 1000000000000000, GRAPHENE_100_PERCENT := 10000,
    ASSET_ISSUER_PERMISSION_MASK := 0x1FF, white_list := 0x02, disable_force_settle := 0x10,
    global_settle := 0x20, witness_fed_asset := 0x80, committee_fed_asset := 0x100,
    price_validate := fun p =>
      fc_assert (decide (p.base.amount > 0 ∧ p.quote.amount > 0
        ∧ p.base.asset_id ≠ p.quote.asset_id)) .assert_exception,
    GRAPHENE_MIN_ASSET_SYMBOL_LENGTH := 3, GRAPHENE_MAX_ASSET_SYMBOL_LENGTH := 16 }

/-- An ordinary account of the example chain. -/
def example_account : account_object :=
  { statistics := 0, rank := 0, verification_is_required := false,
    burning_mode_enabled := false, edc_limit_transfers_enabled := false,
    edc_transfers_max_amount := 0, edc_transfers_amount_counter := 0,
    edc_transfers_count := 0, edc_burnt := 0 }

/-- An asset of the example chain: issued by account 1, fees paid in the asset
itself, exchanged one to one for the core asset, dynamic data under the
instance number of the asset. -/
def example_asset (id : asset_id_type) : asset_object :=
  { issuer := 1, fee_paying_asset := id, dynamic_asset_data_id := id,
    core_exchange_rate :=
      { base := { amount := 1, asset_id := id }, quote := { amount := 1, asset_id := 0 } },
    transfer_restricted := false, market_issued := false, can_override := true }

/-- Settings of the example chain: no custom fees. -/
def example_settings : settings_object :=
  { transfer_fees := [], blind_transfer_fees := [],
    blind_transfer_default_fee := { amount := 0, asset_id := 1 },
    edc_transfers_daily_limit := 100, witness_fees_percent := 0 }

/-- The example ledger at time `t`: accounts 1 and 2 are ordinary, account 3 is
a burning account; assets 0 (core), 1 (EDC) and 2, each with a supply of 200;
accounts 1 and 3 hold `b` units of every asset, account 2 nothing. -/
def example_database (t : Nat) (b : Int) : database :=
  { head_block_time := t,
    accounts := fun i =>
      if i = 1 ∨ i = 2 then some example_account
      else if i = 3 then some { example_account with burning_mode_enabled := true }
      else none,
    account_statistics := fun i =>
      if i = 0 then some { pending_fees := 0, pending_vested_fees := 0 } else none,
    assets := fun i => if i ≤ 2 then some (example_asset i) else none,
    asset_dynamic_data := fun i =>
      if i ≤ 2 then
        some { current_supply := 200, accumulated_fees := 0, fee_pool := 0, fee_burnt := 0 }
      else none,
    settings := fun i => if i = 0 then some example_settings else none,
    witnesses_info := fun i =>
      if i = 0 then some { witness_fees_reward_edc_amount := 0 } else none,
    balances := fun a _ => if a = 1 ∨ a = 3 then b else 0,
    blind_transfers2 := [],
    cashback_vesting_threshold := 0 }

/-- The evaluator of the example chain for a transfer paid for by account 1:
a new `transfer_evaluator` on which `prepare_fee( 1, fee )` has run; when
`prepare_fee` throws, the new evaluator itself. -/
def example_evaluator (d : database) (fee : asset) : transfer_evaluator :=
  match generic_evaluator.prepare_fee example_parameters d (generic_evaluator.fresh false)
      1 fee with
  | .ok g => { transfer_evaluator.fresh false with togeneric_evaluator := g }
  | .error _ => transfer_evaluator.fresh false

/-- The example ledger with the list `fees` as `settings.transfer_fees`. -/
def example_database_with_fees (t : Nat) (b : Int) (fees : List settings_fee) : database :=
  { example_database t b with
    settings := fun i =>
      if i = 0 then some { example_settings with transfer_fees := fees } else none }

/-- An account of the example chain under the EDC daily limit: a personal
maximum of 100 of which 99 are used. -/
def example_limited_account : account_object :=
  { example_account with
    edc_limit_transfers_enabled := true, edc_transfers_max_amount := 100,
    edc_transfers_amount_counter := 99 }

/-- The example ledger at time `t` with `example_limited_account` as account 1,
holding 1000 units of every asset. -/
def example_database_limited (t : Nat) : database :=
  { example_database t 1000 with
    accounts := fun i =>
      if i = 1 then some example_limited_account else (example_database t 1000).accounts i }

/-- An override transfer of the example chain, free of charge. -/
def example_override (issuer from_ to_ : account_id_type) (amount : asset) :
    override_transfer_operation :=
  { fee := { amount := 0, asset_id := 0 }, issuer := issuer, from_ := from_, to_ := to_,
    amount := amount }

/-- The example ledger at time `t` with override transfers switched off for
asset 2. -/
def example_database_no_override (t : Nat) (b : Int) : database :=
  { example_database t b with
    assets := fun i =>
      if i = 2 then some { example_asset 2 with can_override := false }
      else (example_database t b).assets i }

/-- A newly constructed `override_transfer_evaluator`. -/
def override_transfer_evaluator.fresh (skip_fee : Bool) : override_transfer_evaluator :=
  { togeneric_evaluator := generic_evaluator.fresh skip_fee,
    to_account_ptr := none, asset_dyn_data_ptr := none }

/-- The example ledger at time `t` for blind transfers: account 1 holds `x`
units of asset 2 and `e` units of EDC, and the settings carry `default_fee` as
`blind_transfer_default_fee`. -/
def example_database_blind (t : Nat) (x e : Int) (default_fee : asset) : database :=
  { example_database t 0 with
    balances := fun a i => if a = 1 ∧ i = 2 then x else if a = 1 ∧ i = 1 then e else 0,
    settings := fun i =>
      if i = 0 then some { example_settings with blind_transfer_default_fee := default_fee }
      else none }

/-- A blind transfer of the example chain. -/
def example_blind_transfer (from_ to_ : account_id_type) (amount fee : asset) :
    blind_transfer2_operation :=
  { fee := fee, from_ := from_, to_ := to_, amount := amount, memo := "memo" }

/-- The parameters of the example chain with no account authorized for any
asset. -/
def example_parameters_unauthorized : chain_parameters :=
  { example_parameters with is_authorized_asset := fun _ _ _ => false }

/-- The example ledger at time `t` with a witness fee of 10 percent in the
settings. -/
def example_database_witness_fees (t : Nat) : database :=
  { example_database t 1000 with
    settings := fun i =>
      if i = 0 then some { example_settings with witness_fees_percent := 10 } else none }

/-- The generic evaluator of the example chain after `prepare_fee( 1, fee )` on
the ledger `d`; a new evaluator when `prepare_fee` throws. -/
def example_prepared (d : database) (fee : asset) : generic_evaluator :=
  match (generic_evaluator.fresh false).prepare_fee example_parameters d 1 fee with
  | .ok g => g
  | .error _ => generic_evaluator.fresh false

/-- The example ledger at time `t` with account 1 under the EDC daily limit: a
personal maximum of 500 of which 400 are used, holding 1000 units of every
asset. -/
def example_database_counter (t : Nat) : database :=
  { example_database t 1000 with
    accounts := fun i =>
      if i = 1 then
        some { example_account with
          edc_limit_transfers_enabled := true, edc_transfers_max_amount := 500,
          edc_transfers_amount_counter := 400 }
      else (example_database t 1000).accounts i }

/-- A transfer of the example chain, without memo. -/
def example_transfer (from_ to_ : account_id_type) (amount fee : asset) : transfer_operation :=
  { fee := fee, from_ := from_, to_ := to_, amount := amount, memo := none }

/-! # Properties -/

/-! ## Symbol validation -/

theorem loop_continue_iff (c : Char) :
    ((isalpha c && isupper c) || isdigit c) = true ↔
      ((65 ≤ c.toNat ∧ c.toNat ≤ 90) ∨ (48 ≤ c.toNat ∧ c.toNat ≤ 57)) := by
  simp only [isalpha, isupper, isdigit, Bool.or_eq_true, Bool.and_eq_true,
    decide_eq_true_eq]
  omega

theorem dot_not_continue : ((isalpha '.' && isupper '.') || isdigit '.') = false := by
  decide

theorem is_valid_symbol_loop_iff (cs : List Char) (dot : Bool) :
    is_valid_symbol_loop cs dot = true ↔
      (∀ c ∈ cs, symbol_char c) ∧ cs.count '.' + (if dot then 1 else 0) ≤ 1 := by
  induction cs generalizing dot with
  | nil => cases dot <;> simp [is_valid_symbol_loop]
  | cons c cs ih =>
    unfold is_valid_symbol_loop
    by_cases hc : ((isalpha c && isupper c) || isdigit c) = true
    · have hne : c ≠ '.' := by
        intro h
        rw [h, dot_not_continue] at hc
        exact Bool.noConfusion hc
      have hsym : symbol_char c := by
        rcases (loop_continue_iff c).1 hc with h | h
        · exact Or.inl h
        · exact Or.inr (Or.inl h)
      rw [if_pos hc, ih dot, List.count_cons_of_ne (Ne.symm hne)]
      simp [hsym]
    · rw [if_neg hc]
      by_cases hd : c = '.'
      · subst hd
        rw [if_pos rfl]
        cases dot
        · simp only [Bool.false_eq_true, if_false]
          rw [ih true, List.count_cons_self]
          simp [symbol_char]
        · simp [List.count_cons_self]
      · rw [if_neg hd]
        have hns : ¬ symbol_char c := by
          intro h
          rcases h with h | h | h
          · exact hc ((loop_continue_iff c).2 (Or.inl h))
          · exact hc ((loop_continue_iff c).2 (Or.inr h))
          · exact hd h
        simp [hns]

/-- C1. `is_valid_symbol` returns true exactly on the strings whose length lies
between the minimum and the maximum symbol length, whose first character is an
uppercase letter `A`-`Z`, whose characters all belong to `[A-Z0-9.]` and which
contain at most one `.`. -/
theorem is_valid_symbol_iff (MIN_LENGTH MAX_LENGTH : Nat) (s : String) :
    is_valid_symbol MIN_LENGTH MAX_LENGTH s = true ↔
      (MIN_LENGTH ≤ s.length ∧ s.length ≤ MAX_LENGTH) ∧
      (∃ c, s.data.head? = some c ∧ 65 ≤ c.toNat ∧ c.toNat ≤ 90) ∧
      (∀ c ∈ s.data, symbol_char c) ∧
      s.data.count '.' ≤ 1 := by
  unfold is_valid_symbol
  by_cases h1 : s.length < MIN_LENGTH
  · rw [if_pos h1]
    constructor
    · intro h; exact Bool.noConfusion h
    · rintro ⟨⟨h, _⟩, _⟩; omega
  rw [if_neg h1]
  by_cases h2 : s.length > MAX_LENGTH
  · rw [if_pos h2]
    constructor
    · intro h; exact Bool.noConfusion h
    · rintro ⟨⟨_, h⟩, _⟩; omega
  rw [if_neg h2]
  have hlen : MIN_LENGTH ≤ s.length ∧ s.length ≤ MAX_LENGTH := ⟨by omega, by omega⟩
  by_cases h3 : (!isalpha (front s.data)) = true
  · rw [if_pos h3]
    constructor
    · intro h; exact Bool.noConfusion h
    · rintro ⟨_, ⟨c, hc, hlo, hhi⟩, _⟩
      cases hs : s.data with
      | nil => rw [hs] at hc; simp at hc
      | cons a as =>
        rw [hs] at hc h3
        simp only [List.head?_cons, Option.some.injEq] at hc
        subst hc
        simp only [front, List.headD_cons, isalpha, Bool.not_eq_true', Bool.or_eq_false_iff,
          Bool.and_eq_false_iff, decide_eq_false_iff_not] at h3
        omega
  rw [if_neg h3, is_valid_symbol_loop_iff]
  simp only [Bool.false_eq_true, if_false, Nat.add_zero]
  constructor
  · rintro ⟨hall, hcount⟩
    refine ⟨hlen, ?_, hall, hcount⟩
    cases hs : s.data with
    | nil =>
      rw [hs] at h3
      exact absurd (by decide : (!isalpha (front [])) = true) h3
    | cons a as =>
      rw [hs] at h3 hall
      refine ⟨a, rfl, ?_⟩
      have ha : symbol_char a := hall a (List.mem_cons_self a as)
      simp only [front, List.headD_cons, isalpha, Bool.not_eq_true', Bool.or_eq_false_iff,
        Bool.and_eq_false_iff, decide_eq_false_iff_not, not_and, not_or] at h3
      rcases ha with h | h | h
      · exact h
      · omega
      · subst h
        exact absurd (by decide : ¬ (65 ≤ '.'.toNat ∧ '.'.toNat ≤ 90) ∧
          ¬ (97 ≤ '.'.toNat ∧ '.'.toNat ≤ 122)) (by simp at h3)
  · rintro ⟨_, _, hall, hcount⟩
    exact ⟨hall, hcount⟩

/-! ## Exceptions: reading a successful run -/

theorem bind_ok_iff {α β : Type} (x : Except error α) (f : α → Except error β) (b : β) :
    (x >>= f) = .ok b ↔ ∃ a, x = .ok a ∧ f a = .ok b := by
  cases x with
  | error e => simp [bind, Except.bind]
  | ok a => simp [bind, Except.bind]

theorem fc_assert_ok_iff (c : Bool) (e : error) (u : Unit) :
    fc_assert c e = .ok u ↔ c = true := by
  cases c <;> simp [fc_assert]

theorem get_ok_iff {α : Type} (f : Nat → Option α) (i : Nat) (v : α) :
    get f i = .ok v ↔ f i = some v := by
  unfold get
  cases f i <;> simp

/-! ## The life-cycle of `start_evaluate` -/

/-- C2. After `HARDFORK_620_TIME`, `start_evaluate` returns on a transfer only
if the fee is paid in the `fee_paying_asset` of the transferred asset; when the
two differ it throws, with the same exception whatever `evaluate` and `apply`
are, and the ledger as it was: neither of them has run. -/
theorem start_evaluate_fee_asset_rule (P : chain_parameters) (d : database)
    (op : transfer_operation) (h620 : d.head_block_time > P.HARDFORK_620_TIME) :
    (∀ (σ : Type)
        (evaluate apply : σ → database → operation →
          database × Except error (σ × operation_result))
        (ev : σ) (apply_flag : Bool) (r : σ × operation_result),
        (generic_evaluator.start_evaluate P evaluate apply ev d (.transfer op) apply_flag).2
            = .ok r →
        ∃ a, d.assets op.amount.asset_id = some a ∧ op.fee.asset_id = a.fee_paying_asset) ∧
    (∀ a, d.assets op.amount.asset_id = some a → op.fee.asset_id ≠ a.fee_paying_asset →
      ∃ e, (d.assets a.fee_paying_asset ≠ none → e = .wrong_fee_asset) ∧
        ∀ (σ : Type)
          (evaluate apply : σ → database → operation →
            database × Except error (σ × operation_result))
          (ev : σ) (apply_flag : Bool),
          generic_evaluator.start_evaluate P evaluate apply ev d (.transfer op) apply_flag
            = (d, .error e)) := by
  constructor
  · intro σ evaluate apply ev apply_flag r h
    unfold generic_evaluator.start_evaluate at h
    cases hc : generic_evaluator.check_fee_asset P d (.transfer op) with
    | error e => rw [hc] at h; simp at h
    | ok u =>
      simp only [generic_evaluator.check_fee_asset, if_pos h620] at hc
      obtain ⟨a, ha, hrest⟩ := (bind_ok_iff _ _ _).1 hc
      refine ⟨a, (get_ok_iff _ _ _).1 ha, ?_⟩
      by_cases heq : op.fee.asset_id = a.fee_paying_asset
      · exact heq
      · rw [if_neg heq] at hrest
        obtain ⟨_, _, hthrow⟩ := (bind_ok_iff _ _ _).1 hrest
        simp [throw, throwThe, MonadExceptOf.throw] at hthrow
  · intro a ha hne
    cases hpay : d.assets a.fee_paying_asset with
    | none =>
      refine ⟨.object_not_found, fun h => absurd rfl h, ?_⟩
      intro σ evaluate apply ev apply_flag
      simp [generic_evaluator.start_evaluate, generic_evaluator.check_fee_asset, h620, ha,
        hne, get, hpay, bind, Except.bind]
    | some b =>
      refine ⟨.wrong_fee_asset, fun _ => rfl, ?_⟩
      intro σ evaluate apply ev apply_flag
      simp [generic_evaluator.start_evaluate, generic_evaluator.check_fee_asset, h620, ha,
        hne, get, hpay, bind, Except.bind, throw, throwThe, MonadExceptOf.throw]

/-- A statement that has left the ledger alone, followed by statements that
leave it alone, has left it alone; what the run returns or throws is what the
statements return or throw in a row. -/
theorem ledger_step_then {α β : Type} (x : ledger_step α) (r : Except error α)
    (f : α → ledger_step β) (g : α → Except error β) (d : database)
    (hx : x d = (d, r)) (hf : ∀ a, f a d = (d, g a)) :
    (x >>= f) d = (d, r >>= g) := by
  show ledger_step.seq x f d = (d, r >>= g)
  unfold ledger_step.seq
  rw [hx]
  cases r with
  | error e => rfl
  | ok a => exact hf a

/-- The five whitelist and restriction assertions, run one by one, leave the
ledger alone and end as `transfer_preflight` does. -/
theorem transfer_preflight_steps_eq (P : chain_parameters) (d : database)
    (asset_type : asset_object) (from_ to_ : account_id_type) (asset_id : asset_id_type) :
    transfer_preflight_steps P asset_type from_ to_ asset_id d =
      (d, transfer_preflight P d asset_type from_ to_ asset_id) := by
  unfold transfer_preflight_steps transfer_preflight
  refine ledger_step_then _ _ _ _ d rfl (fun _ => ?_)
  refine ledger_step_then _ _ _ _ d rfl (fun _ => ?_)
  refine ledger_step_then _ _ _ _ d rfl (fun _ => ?_)
  refine ledger_step_then _ _ _ _ d rfl (fun _ => ?_)
  rfl

/-- The statements of `transfer_evaluator::do_evaluate`, run one by one, leave
the ledger alone and end as the function `transfer_evaluator.do_evaluate`
does. -/
theorem transfer_do_evaluate_steps_eq (P : chain_parameters) (d : database)
    (ev : transfer_evaluator) (op : transfer_operation) :
    transfer_evaluator.do_evaluate_steps P ev op d =
      (d, transfer_evaluator.do_evaluate P d ev op) := by
  unfold transfer_evaluator.do_evaluate_steps transfer_evaluator.do_evaluate
  refine ledger_step_then _ _ _ _ d rfl (fun from_account => ?_)
  refine ledger_step_then _ _ _ _ d rfl (fun to_account => ?_)
  refine ledger_step_then _ _ _ _ d rfl (fun asset_type => ?_)
  refine ledger_step_then _ _ _ _ d rfl (fun fee_asset_id => ?_)
  refine ledger_step_then _ _ _ _ d rfl (fun asset_dyn_data => ?_)
  refine ledger_step_then _ _ _ _ d rfl (fun settings => ?_)
  refine ledger_step_then _ _ _ _ d (transfer_preflight_steps_eq P d _ _ _ _) (fun _ => ?_)
  refine ledger_step_then _ _ _ _ d rfl (fun custom_fee => ?_)
  refine ledger_step_then _ _ _ _ d rfl (fun _ => ?_)
  rfl

/-- The statements of `blind_transfer2_evaluator::do_evaluate`, run one by one,
leave the ledger alone and end as the function
`blind_transfer2_evaluator.do_evaluate` does. -/
theorem blind_do_evaluate_steps_eq (P : chain_parameters) (d : database)
    (ev : blind_transfer2_evaluator) (op : blind_transfer2_operation) :
    blind_transfer2_evaluator.do_evaluate_steps P ev op d =
      (d, blind_transfer2_evaluator.do_evaluate P d ev op) := by
  unfold blind_transfer2_evaluator.do_evaluate_steps blind_transfer2_evaluator.do_evaluate
  refine ledger_step_then _ _ _ _ d rfl (fun from_account => ?_)
  refine ledger_step_then _ _ _ _ d rfl (fun to_account => ?_)
  refine ledger_step_then _ _ _ _ d rfl (fun asset_type => ?_)
  refine ledger_step_then _ _ _ _ d rfl (fun asset_dyn_data => ?_)
  refine ledger_step_then _ _ _ _ d rfl (fun settings => ?_)
  refine ledger_step_then _ _ _ _ d (transfer_preflight_steps_eq P d _ _ _ _) (fun _ => ?_)
  refine ledger_step_then _ _ _ _ d rfl (fun _ => ?_)
  refine ledger_step_then _ _ _ _ d rfl (fun fee => ?_)
  refine ledger_step_then _ _ _ _ d rfl (fun _ => ?_)
  rfl

/-- The statements of `override_transfer_evaluator::do_evaluate`, run one by
one, leave the ledger alone and end as the function
`override_transfer_evaluator.do_evaluate` does. -/
theorem override_do_evaluate_steps_eq (P : chain_parameters) (d : database)
    (ev : override_transfer_evaluator) (op : override_transfer_operation) :
    override_transfer_evaluator.do_evaluate_steps P ev op d =
      (d, override_transfer_evaluator.do_evaluate P d ev op) := by
  unfold override_transfer_evaluator.do_evaluate_steps override_transfer_evaluator.do_evaluate
  refine ledger_step_then _ _ _ _ d rfl (fun asset_type => ?_)
  refine ledger_step_then _ _ _ _ d rfl (fun _ => ?_)
  refine ledger_step_then _ _ _ _ d rfl (fun _ => ?_)
  refine ledger_step_then _ _ _ _ d rfl (fun _ => ?_)
  refine ledger_step_then _ _ _ _ d rfl (fun to_account => ?_)
  refine ledger_step_then _ _ _ _ d rfl (fun _ => ?_)
  refine ledger_step_then _ _ _ _ d rfl (fun _ => ?_)
  refine ledger_step_then _ _ _ _ d rfl (fun _ => ?_)
  refine ledger_step_then _ _ _ _ d rfl (fun _ => ?_)
  refine ledger_step_then _ _ _ _ d rfl (fun _ => ?_)
  refine ledger_step_then _ _ _ _ d rfl (fun _ => ?_)
  refine ledger_step_then _ _ _ _ d rfl (fun dyn_ptr => ?_)
  rfl

/-- With `apply = false`, `start_evaluate` leaves the ledger alone whenever its
`evaluate` does. -/
theorem start_evaluate_keeps_ledger_of_evaluate (P : chain_parameters) {σ : Type}
    (evaluate apply : σ → database → operation → database × Except error (σ × operation_result))
    (ev : σ) (d : database) (op : operation) (hevaluate : (evaluate ev d op).1 = d) :
    (generic_evaluator.start_evaluate P evaluate apply ev d op false).1 = d := by
  unfold generic_evaluator.start_evaluate
  cases generic_evaluator.check_fee_asset P d op with
  | error e => rfl
  | ok u =>
    simp only
    cases he : evaluate ev d op with
    | mk d1 r =>
      rw [he] at hevaluate
      cases r with
      | error e => exact hevaluate
      | ok a => exact hevaluate

/-- The statements of `update_blind_transfer2_settings_evaluator::do_evaluate`,
run one by one, leave the ledger alone and end as the function
`update_blind_transfer2_settings_evaluator.do_evaluate` does. -/
theorem update_settings_do_evaluate_steps_eq (d : database) (ev : generic_evaluator)
    (op : update_blind_transfer2_settings_operation) :
    update_blind_transfer2_settings_evaluator.do_evaluate_steps ev op d =
      (d, update_blind_transfer2_settings_evaluator.do_evaluate d ev op) := by
  unfold update_blind_transfer2_settings_evaluator.do_evaluate_steps
  refine (ledger_step_then _ _ _ _ d rfl (fun itr =>
    ledger_step_then _ _ _ _ d rfl (fun _ => rfl))).trans ?_
  unfold update_blind_transfer2_settings_evaluator.do_evaluate
  beta_reduce
  cases d.settings 0 <;> rfl

/-- The fee-asset rule at work on the example chain after `HARDFORK_620_TIME`:
a transfer of asset 1 whose fee is stated in asset 0 is thrown out with the
"You should pay fee in" assertion and the ledger is untouched, although
`apply` was requested. -/
theorem start_evaluate_fee_asset_rule_witness :
    ∃ e, e = error.wrong_fee_asset ∧
      generic_evaluator.start_evaluate example_parameters
        (transfer_evaluator.evaluate example_parameters)
        (transfer_evaluator.evaluate example_parameters)
        (transfer_evaluator.fresh false) (example_database 700 1000)
        (.transfer (example_transfer 1 2 { amount := 100, asset_id := 1 }
          { amount := 5, asset_id := 0 })) true
      = (example_database 700 1000, .error e) := by
  obtain ⟨e, he, h⟩ :=
    (start_evaluate_fee_asset_rule example_parameters (example_database 700 1000)
      (example_transfer 1 2 { amount := 100, asset_id := 1 } { amount := 5, asset_id := 0 })
      (by decide)).2 (example_asset 1) rfl (by decide)
  exact ⟨e, he (by decide), h _ _ _ _ _⟩

/-! ## Reading an accepted transfer -/

theorem deref_ok_iff {α : Type} (f : Nat → Option α) (p : Option Nat) (i : Nat) (v : α) :
    deref f p = .ok (i, v) ↔ p = some i ∧ f i = some v := by
  unfold deref
  cases p with
  | none => simp
  | some j =>
    simp only [Option.some.injEq]
    constructor
    · intro h
      cases hj : f j with
      | none => rw [hj] at h; exact Except.noConfusion h
      | some w =>
        rw [hj] at h
        simp only [Except.ok.injEq, Prod.mk.injEq] at h
        obtain ⟨h1, h2⟩ := h
        subst h1 h2
        exact ⟨rfl, hj⟩
    · rintro ⟨h1, h2⟩
      subst h1
      rw [h2]

/-- What a returning `transfer_evaluator::do_evaluate` has established. -/
theorem transfer_do_evaluate_ok {P : chain_parameters} {d : database}
    {ev ev1 : transfer_evaluator} {op : transfer_operation}
    (h : transfer_evaluator.do_evaluate P d ev op = .ok ev1) :
    ∃ from_account to_account asset_type fee_asset_id asset_dyn_data settings custom_fee,
      d.accounts op.from_ = some from_account ∧
      d.accounts op.to_ = some to_account ∧
      d.assets op.amount.asset_id = some asset_type ∧
      fee_asset_type P d asset_type = .ok fee_asset_id ∧
      d.asset_dynamic_data asset_type.dynamic_asset_data_id = some asset_dyn_data ∧
      d.settings 0 = some settings ∧
      transfer_preflight P d asset_type op.from_ op.to_ op.amount.asset_id = .ok () ∧
      (if d.head_block_time > P.HARDFORK_627_TIME then
          transfer_evaluator.post_627 P d ev.custom_fee from_account to_account settings
            fee_asset_id op = .ok custom_fee
        else custom_fee = ev.custom_fee) ∧
      burning_checks to_account asset_type asset_dyn_data (op.amount.amount + custom_fee)
        = .ok () ∧
      ev1 = { ev with
        from_account_ptr := some op.from_, to_account_ptr := some op.to_,
        asset_dyn_data_ptr := some asset_type.dynamic_asset_data_id,
        settings_ptr := some 0, custom_fee := custom_fee } := by
  unfold transfer_evaluator.do_evaluate at h
  obtain ⟨from_account, h1, h⟩ := (bind_ok_iff _ _ _).1 h
  obtain ⟨to_account, h2, h⟩ := (bind_ok_iff _ _ _).1 h
  obtain ⟨asset_type, h3, h⟩ := (bind_ok_iff _ _ _).1 h
  obtain ⟨fee_asset_id, h4, h⟩ := (bind_ok_iff _ _ _).1 h
  obtain ⟨asset_dyn_data, h5, h⟩ := (bind_ok_iff _ _ _).1 h
  obtain ⟨settings, h6, h⟩ := (bind_ok_iff _ _ _).1 h
  obtain ⟨_, h7, h⟩ := (bind_ok_iff _ _ _).1 h
  obtain ⟨custom_fee, h8, h⟩ := (bind_ok_iff _ _ _).1 h
  obtain ⟨_, h9, h⟩ := (bind_ok_iff _ _ _).1 h
  refine ⟨from_account, to_account, asset_type, fee_asset_id, asset_dyn_data, settings,
    custom_fee, (get_ok_iff _ _ _).1 h1, (get_ok_iff _ _ _).1 h2, (get_ok_iff _ _ _).1 h3, h4,
    (get_ok_iff _ _ _).1 h5, (get_ok_iff _ _ _).1 h6, h7, ?_, h9, ?_⟩
  · by_cases ht : d.head_block_time > P.HARDFORK_627_TIME
    · rw [if_pos ht] at h8 ⊢
      exact h8
    · rw [if_neg ht] at h8 ⊢
      simp only [pure, Except.pure, Except.ok.injEq] at h8
      exact h8.symm
  · simp only [pure, Except.pure, Except.ok.injEq] at h
    exact h.symm

/-- A returning `adjust_balance` has added the signed amount to one balance and
touched nothing else; a debit was covered by the balance. -/
theorem adjust_balance_ok {d d1 : database} {account : account_id_type} {delta : asset}
    (h : d.adjust_balance account delta = .ok d1) :
    d1 = { d with balances := fun a t =>
            if a = account ∧ t = delta.asset_id then d.balances a t + delta.amount
            else d.balances a t } ∧
    (delta.amount < 0 → -delta.amount ≤ d.balances account delta.asset_id) := by
  unfold database.adjust_balance at h
  by_cases hc : delta.amount < 0 ∧ d.balances account delta.asset_id < -delta.amount
  · rw [if_pos hc] at h
    exact Except.noConfusion h
  · rw [if_neg hc] at h
    refine ⟨(Except.ok.inj h).symm, ?_⟩
    intro hneg
    by_contra hlt
    exact hc ⟨hneg, by omega⟩

/-- The burning branch of `do_apply` leaves every balance alone. -/
theorem apply_burning_balances {P : chain_parameters} {d d1 : database} {dp fp : Option Nat}
    {amount : asset} (h : apply_burning P d dp fp amount = .ok d1) :
    d1.balances = d.balances := by
  unfold apply_burning at h
  cases dp with
  | none =>
    simp only [Except.ok.injEq] at h
    rw [← h]
  | some i =>
    simp only at h
    obtain ⟨data, _, h⟩ := (bind_ok_iff _ _ _).1 h
    split at h
    · obtain ⟨⟨j, acc⟩, _, h⟩ := (bind_ok_iff _ _ _).1 h
      simp only [pure, Except.pure, Except.ok.injEq] at h
      rw [← h]
    · simp only [pure, Except.pure, Except.ok.injEq] at h
      rw [← h]

/-- The counter block of `do_apply` writes one account object and nothing
else. -/
theorem apply_counters_frame {P : chain_parameters} {d d1 : database} {b : Bool}
    {from_ : account_id_type} {amount : asset} (h : apply_counters P d b from_ amount = .ok d1) :
    d1.balances = d.balances ∧ d1.asset_dynamic_data = d.asset_dynamic_data ∧
    d1.head_block_time = d.head_block_time ∧
    ∀ i, i ≠ from_ → d1.accounts i = d.accounts i := by
  unfold apply_counters at h
  split at h
  · obtain ⟨obj, _, h⟩ := (bind_ok_iff _ _ _).1 h
    simp only [pure, Except.pure, Except.ok.injEq] at h
    rw [← h]
    refine ⟨rfl, rfl, rfl, ?_⟩
    intro i hi
    simp [update, hi]
  · simp only [pure, Except.pure, Except.ok.injEq] at h
    rw [← h]
    exact ⟨rfl, rfl, rfl, fun _ _ => rfl⟩

/-- The steps of a returning `transfer_evaluator::do_apply`. -/
theorem transfer_do_apply_ok {P : chain_parameters} {d d3 : database}
    {ev : transfer_evaluator} {o : transfer_operation}
    (h : transfer_evaluator.do_apply P d ev o = .ok d3) :
    ∃ i to_account d1 d2,
      ev.to_account_ptr = some i ∧ d.accounts i = some to_account ∧
      d.adjust_balance o.from_ o.amount.neg = .ok d1 ∧
      (if to_account.burning_mode_enabled = false then d1.adjust_balance o.to_ o.amount
        else apply_burning P d1 ev.asset_dyn_data_ptr ev.from_account_ptr o.amount) = .ok d2 ∧
      apply_counters P d2 to_account.burning_mode_enabled o.from_ o.amount = .ok d3 := by
  unfold transfer_evaluator.do_apply at h
  obtain ⟨⟨i, to_account⟩, h1, h⟩ := (bind_ok_iff _ _ _).1 h
  obtain ⟨d1, h2, h⟩ := (bind_ok_iff _ _ _).1 h
  obtain ⟨d2, h3, h⟩ := (bind_ok_iff _ _ _).1 h
  obtain ⟨hp, hacc⟩ := (deref_ok_iff _ _ _ _).1 h1
  exact ⟨i, to_account, d1, d2, hp, hacc, h2, h3, h⟩

/-! ## Transfers: conservation and burning -/

/-- C4. A transfer accepted by `do_evaluate` whose destination account is not
in burning mode: once `do_apply` has returned, the sum of the sender's and the
receiver's balance in the transferred asset is what it was (also when sender
and receiver are the same account), and no dynamic-data object has changed, so
the current supply of the asset is what it was. -/
theorem transfer_conservation (P : chain_parameters) (d d3 : database)
    (ev0 ev : transfer_evaluator) (op : transfer_operation) (to_account : account_object)
    (heval : transfer_evaluator.do_evaluate P d ev0 op = .ok ev)
    (happly : transfer_evaluator.do_apply P d ev op = .ok d3)
    (hto : d.accounts op.to_ = some to_account)
    (hnb : to_account.burning_mode_enabled = false) :
    d3.get_balance op.from_ op.amount.asset_id + d3.get_balance op.to_ op.amount.asset_id
      = d.get_balance op.from_ op.amount.asset_id + d.get_balance op.to_ op.amount.asset_id ∧
    d3.asset_dynamic_data = d.asset_dynamic_data := by
  obtain ⟨_, _, _, _, _, _, cf, _, _, _, _, _, _, _, _, _, hev⟩ := transfer_do_evaluate_ok heval
  obtain ⟨i, to_account1, d1, d2, hp, hacc, h1, h2, h3⟩ := transfer_do_apply_ok happly
  have hi : i = op.to_ := by
    rw [hev] at hp
    exact (Option.some.inj hp).symm
  subst hi
  rw [hto] at hacc
  have hta : to_account1 = to_account := (Option.some.inj hacc).symm
  subst hta
  rw [if_pos hnb] at h2
  obtain ⟨e1, _⟩ := adjust_balance_ok h1
  obtain ⟨e2, _⟩ := adjust_balance_ok h2
  obtain ⟨hb, hd, _, _⟩ := apply_counters_frame h3
  constructor
  · simp only [database.get_balance, hb, e2, e1, asset.neg]
    by_cases hft : op.from_ = op.to_
    · simp [hft]
    · have htf : ¬ op.to_ = op.from_ := fun h => hft h.symm
      simp only [hft, htf, true_and, false_and, if_true, if_false]
      omega
  · rw [hd, e2, e1]

/-- A plain transfer on the example chain after every hardfork: account 1,
holding 1000 units of asset 2, sends 300 to account 2; the two balances still
add up to 1000 and the supply is still 200. -/
theorem transfer_conservation_witness :
    ∃ ev d3,
      transfer_evaluator.do_evaluate example_parameters (example_database 700 1000)
        (transfer_evaluator.fresh false)
        (example_transfer 1 2 { amount := 300, asset_id := 2 } { amount := 0, asset_id := 2 })
        = .ok ev ∧
      transfer_evaluator.do_apply example_parameters (example_database 700 1000) ev
        (example_transfer 1 2 { amount := 300, asset_id := 2 } { amount := 0, asset_id := 2 })
        = .ok d3 ∧
      d3.get_balance 1 2 = 700 ∧ d3.get_balance 2 2 = 300 ∧
      d3.get_balance 1 2 + d3.get_balance 2 2
        = (example_database 700 1000).get_balance 1 2
          + (example_database 700 1000).get_balance 2 2 ∧
      d3.asset_dynamic_data = (example_database 700 1000).asset_dynamic_data := by
  refine ⟨_, _, rfl, rfl, by decide, by decide, ?_, ?_⟩
  · exact (transfer_conservation example_parameters (example_database 700 1000) _
      (transfer_evaluator.fresh false) _
      (example_transfer 1 2 { amount := 300, asset_id := 2 } { amount := 0, asset_id := 2 })
      example_account rfl rfl rfl rfl).1
  · exact (transfer_conservation example_parameters (example_database 700 1000) _
      (transfer_evaluator.fresh false) _
      (example_transfer 1 2 { amount := 300, asset_id := 2 } { amount := 0, asset_id := 2 })
      example_account rfl rfl rfl rfl).2

/-- The burning branch of `do_apply`, run with both pointers set. -/
theorem apply_burning_ok {P : chain_parameters} {d d1 : database} {i j : Nat}
    {amount : asset} (h : apply_burning P d (some i) (some j) amount = .ok d1) :
    ∃ data, d.asset_dynamic_data i = some data ∧
      d1.asset_dynamic_data = update d.asset_dynamic_data i (burn_supply data amount.amount) ∧
      d1.head_block_time = d.head_block_time ∧
      (if d.head_block_time ≥ P.HARDFORK_636_TIME ∧ amount.asset_id = P.EDC_ASSET then
        ∃ acc, d.accounts j = some acc ∧
          d1.accounts = update d.accounts j { acc with edc_burnt := acc.edc_burnt + amount.amount }
       else d1.accounts = d.accounts) := by
  unfold apply_burning at h
  simp only at h
  obtain ⟨data, hdata, h⟩ := (bind_ok_iff _ _ _).1 h
  refine ⟨data, (get_ok_iff _ _ _).1 hdata, ?_⟩
  by_cases hc : d.head_block_time ≥ P.HARDFORK_636_TIME ∧ amount.asset_id = P.EDC_ASSET
  · rw [if_pos hc] at h
    obtain ⟨⟨k, acc⟩, hk, h⟩ := (bind_ok_iff _ _ _).1 h
    obtain ⟨hk1, hk2⟩ := (deref_ok_iff _ _ _ _).1 hk
    have hkj : j = k := Option.some.inj hk1
    subst hkj
    simp only [pure, Except.pure, Except.ok.injEq] at h
    rw [← h, if_pos hc]
    exact ⟨rfl, rfl, acc, hk2, rfl⟩
  · rw [if_neg hc] at h
    simp only [pure, Except.pure, Except.ok.injEq] at h
    rw [← h, if_neg hc]
    exact ⟨rfl, rfl, rfl⟩

/-- The counter block of `do_apply` never writes `edc_burnt`. -/
theorem apply_counters_edc_burnt {P : chain_parameters} {d d1 : database} {b : Bool}
    {from_ : account_id_type} {amount : asset} (h : apply_counters P d b from_ amount = .ok d1)
    (i : Nat) :
    (d1.accounts i).map (fun acc => acc.edc_burnt) = (d.accounts i).map (fun acc => acc.edc_burnt) := by
  unfold apply_counters at h
  split at h
  · obtain ⟨obj, hobj, h⟩ := (bind_ok_iff _ _ _).1 h
    have hobj1 := (get_ok_iff _ _ _).1 hobj
    simp only [pure, Except.pure, Except.ok.injEq] at h
    rw [← h]
    by_cases hi : i = from_
    · subst hi
      simp only [update, if_true, Option.map_some', hobj1]
      split <;> rfl
    · simp [update, hi]
  · simp only [pure, Except.pure, Except.ok.injEq] at h
    rw [← h]

/-- C5, amended. A transfer of `x` units of asset `a` accepted by `do_evaluate`
whose destination account is in burning mode: once `do_apply` has returned, the
current supply of `a` is `x` lower and its `fee_burnt` is `x` higher; the
destination's balance in `a` is what it was when the sender is another
account, and `x` lower when the burning account sends to itself; the sender's
`edc_burnt` is `x` higher when `head_block_time >= HARDFORK_636_TIME` and `a`
is `EDC_ASSET`, and what it was otherwise. -/
theorem transfer_burning (P : chain_parameters) (d d3 : database)
    (ev0 ev : transfer_evaluator) (op : transfer_operation)
    (from_account to_account : account_object) (asset_type : asset_object)
    (dyn : asset_dynamic_data_object)
    (heval : transfer_evaluator.do_evaluate P d ev0 op = .ok ev)
    (happly : transfer_evaluator.do_apply P d ev op = .ok d3)
    (hfrom : d.accounts op.from_ = some from_account)
    (hto : d.accounts op.to_ = some to_account)
    (hasset : d.assets op.amount.asset_id = some asset_type)
    (hdyn : d.asset_dynamic_data asset_type.dynamic_asset_data_id = some dyn)
    (hburning : to_account.burning_mode_enabled = true) :
    (∃ dyn3, d3.asset_dynamic_data asset_type.dynamic_asset_data_id = some dyn3 ∧
      dyn3.current_supply = dyn.current_supply - op.amount.amount ∧
      dyn3.fee_burnt = dyn.fee_burnt + op.amount.amount) ∧
    d3.get_balance op.to_ op.amount.asset_id =
      (if op.from_ = op.to_ then d.get_balance op.to_ op.amount.asset_id - op.amount.amount
       else d.get_balance op.to_ op.amount.asset_id) ∧
    (∃ from3, d3.accounts op.from_ = some from3 ∧
      from3.edc_burnt =
        if d.head_block_time ≥ P.HARDFORK_636_TIME ∧ op.amount.asset_id = P.EDC_ASSET then
          from_account.edc_burnt + op.amount.amount
        else from_account.edc_burnt) := by
  obtain ⟨_, _, asset_type1, _, _, _, cf, _, _, hasset1, _, _, _, _, _, _, hev⟩ :=
    transfer_do_evaluate_ok heval
  rw [hasset] at hasset1
  have hat : asset_type1 = asset_type := (Option.some.inj hasset1).symm
  subst hat
  obtain ⟨i, to_account1, d1, d2, hp, hacc, h1, h2, h3⟩ := transfer_do_apply_ok happly
  have hi : i = op.to_ := by
    rw [hev] at hp
    exact (Option.some.inj hp).symm
  subst hi
  rw [hto] at hacc
  have hta : to_account1 = to_account := (Option.some.inj hacc).symm
  subst hta
  have hnb : ¬ to_account1.burning_mode_enabled = false := by simp [hburning]
  rw [if_neg hnb, hev] at h2
  obtain ⟨e1, _⟩ := adjust_balance_ok h1
  obtain ⟨data, hdata, hdd, ht2, hacc2⟩ := apply_burning_ok h2
  obtain ⟨hb3, hd3, _, _⟩ := apply_counters_frame h3
  have hbal2 := apply_burning_balances h2
  have hd1 : d1.asset_dynamic_data = d.asset_dynamic_data := by rw [e1]
  have ha1 : d1.accounts = d.accounts := by rw [e1]
  have ht1 : d1.head_block_time = d.head_block_time := by rw [e1]
  rw [hd1, hdyn] at hdata
  have hdata' : data = dyn := (Option.some.inj hdata).symm
  subst hdata'
  refine ⟨⟨burn_supply data op.amount.amount, ?_, rfl, rfl⟩, ?_, ?_⟩
  · rw [hd3, hdd]
    simp [update]
  · simp only [database.get_balance, hb3, hbal2, e1, asset.neg]
    by_cases hft : op.from_ = op.to_
    · simp only [hft, true_and, if_true]
      omega
    · have htf : ¬ op.to_ = op.from_ := fun h => hft h.symm
      simp only [hft, htf, false_and, if_false]
  · have hedc := apply_counters_edc_burnt h3 op.from_
    rw [ht1, ha1] at hacc2
    by_cases hc : d.head_block_time ≥ P.HARDFORK_636_TIME ∧ op.amount.asset_id = P.EDC_ASSET
    · rw [if_pos hc] at hacc2 ⊢
      obtain ⟨acc, hacc, hacc2⟩ := hacc2
      rw [hfrom] at hacc
      have hfa : acc = from_account := (Option.some.inj hacc).symm
      subst hfa
      have h2from : d2.accounts op.from_ =
          some { acc with edc_burnt := acc.edc_burnt + op.amount.amount } := by
        rw [hacc2]
        simp [update]
      rw [h2from] at hedc
      cases h3from : d3.accounts op.from_ with
      | none => rw [h3from] at hedc; simp at hedc
      | some from3 =>
        rw [h3from] at hedc
        simp only [Option.map_some', Option.some.injEq] at hedc
        exact ⟨from3, rfl, hedc⟩
    · rw [if_neg hc] at hacc2 ⊢
      rw [hacc2, hfrom] at hedc
      cases h3from : d3.accounts op.from_ with
      | none => rw [h3from] at hedc; simp at hedc
      | some from3 =>
        rw [h3from] at hedc
        simp only [Option.map_some', Option.some.injEq] at hedc
        exact ⟨from3, rfl, hedc⟩

/-- A burn on the example chain after every hardfork: account 1 sends 50 EDC
to the burning account 3 while the supply is 200.  The supply becomes 150,
`fee_burnt` grows by 50, account 3 still holds what it held and the sender's
`edc_burnt` grows by 50. -/
theorem transfer_burning_witness :
    ∃ ev d3,
      transfer_evaluator.do_evaluate example_parameters (example_database 700 1000)
        (transfer_evaluator.fresh false)
        (example_transfer 1 3 { amount := 50, asset_id := 1 } { amount := 0, asset_id := 1 })
        = .ok ev ∧
      transfer_evaluator.do_apply example_parameters (example_database 700 1000) ev
        (example_transfer 1 3 { amount := 50, asset_id := 1 } { amount := 0, asset_id := 1 })
        = .ok d3 ∧
      (∃ dyn3, d3.asset_dynamic_data 1 = some dyn3 ∧ dyn3.current_supply = 200 - 50 ∧
        dyn3.fee_burnt = 0 + 50) ∧
      d3.get_balance 3 1 = 1000 ∧
      (∃ from3, d3.accounts 1 = some from3 ∧ from3.edc_burnt = 0 + 50) := by
  refine ⟨_, _, rfl, rfl, ?_⟩
  exact transfer_burning example_parameters (example_database 700 1000) _
    (transfer_evaluator.fresh false) _
    (example_transfer 1 3 { amount := 50, asset_id := 1 } { amount := 0, asset_id := 1 })
    example_account { example_account with burning_mode_enabled := true } (example_asset 1)
    { current_supply := 200, accumulated_fees := 0, fee_pool := 0, fee_burnt := 0 }
    rfl rfl rfl rfl rfl rfl rfl

/-- C5 as stated fails when a burning account transfers to itself: on the
example chain account 3, in burning mode and holding 100 units of asset 2,
sends 50 of them to itself; `do_evaluate` accepts, `do_apply` returns, and the
balance of the destination has gone from 100 to 50. -/
theorem transfer_burning_self_counterexample :
    ∃ ev d3 to_account,
      transfer_evaluator.do_evaluate example_parameters (example_database 700 100)
        (transfer_evaluator.fresh false)
        (example_transfer 3 3 { amount := 50, asset_id := 2 } { amount := 0, asset_id := 2 })
        = .ok ev ∧
      transfer_evaluator.do_apply example_parameters (example_database 700 100) ev
        (example_transfer 3 3 { amount := 50, asset_id := 2 } { amount := 0, asset_id := 2 })
        = .ok d3 ∧
      (example_database 700 100).accounts 3 = some to_account ∧
      to_account.burning_mode_enabled = true ∧
      (example_database 700 100).get_balance 3 2 = 100 ∧
      d3.get_balance 3 2 = 50 :=
  ⟨_, _, _, rfl, rfl, rfl, rfl, by decide, by decide⟩

/-! ## The apply phase and the fee -/

/-- The function `convert_fee` writes dynamic data and the witnesses
accumulator, never a balance. -/
theorem convert_fee_balances {P : chain_parameters} {g : generic_evaluator} {d d1 : database}
    (h : g.convert_fee P d = .ok d1) : d1.balances = d.balances := by
  unfold generic_evaluator.convert_fee at h
  split at h
  · obtain ⟨⟨asset_id, _⟩, _, h⟩ := (bind_ok_iff _ _ _).1 h
    simp only at h
    split at h
    · split at h
      · obtain ⟨⟨i, dyn_data⟩, _, h⟩ := (bind_ok_iff _ _ _).1 h
        simp only at h
        obtain ⟨settings, _, h⟩ := (bind_ok_iff _ _ _).1 h
        split at h
        · obtain ⟨witnesses_info, _, h⟩ := (bind_ok_iff _ _ _).1 h
          simp only [pure, Except.pure, Except.ok.injEq] at h
          rw [← h]
        · simp only [pure, Except.pure, Except.ok.injEq] at h
          rw [← h]
      · obtain ⟨⟨i, dyn_data⟩, _, h⟩ := (bind_ok_iff _ _ _).1 h
        simp only [pure, Except.pure, Except.ok.injEq] at h
        rw [← h]
    · simp only [pure, Except.pure, Except.ok.injEq] at h
      rw [← h]
  · simp only [pure, Except.pure, Except.ok.injEq] at h
    rw [← h]

/-- The function `pay_fee` writes one statistics object, never a balance. -/
theorem pay_fee_balances {P : chain_parameters} {g : generic_evaluator} {d d1 : database}
    (h : g.pay_fee P d = .ok d1) : d1.balances = d.balances := by
  unfold generic_evaluator.pay_fee at h
  split at h
  · obtain ⟨⟨i, s⟩, _, h⟩ := (bind_ok_iff _ _ _).1 h
    simp only [pure, Except.pure, Except.ok.injEq] at h
    rw [← h]
  · simp only [pure, Except.pure, Except.ok.injEq] at h
    rw [← h]

/-- The sender's balance after a returning `transfer_evaluator::do_apply`. -/
theorem transfer_do_apply_sender_balance {P : chain_parameters} {d d3 : database}
    {ev0 ev : transfer_evaluator} {op : transfer_operation} {to_account : account_object}
    (heval : transfer_evaluator.do_evaluate P d ev0 op = .ok ev)
    (happly : transfer_evaluator.do_apply P d ev op = .ok d3)
    (hto : d.accounts op.to_ = some to_account) :
    d3.get_balance op.from_ op.amount.asset_id =
      (if op.from_ = op.to_ ∧ to_account.burning_mode_enabled = false then
        d.get_balance op.from_ op.amount.asset_id
       else d.get_balance op.from_ op.amount.asset_id - op.amount.amount) ∧
    (op.amount.amount > 0 → op.amount.amount ≤ d.get_balance op.from_ op.amount.asset_id) := by
  obtain ⟨_, _, _, _, _, _, cf, _, _, _, _, _, _, _, _, _, hev⟩ := transfer_do_evaluate_ok heval
  obtain ⟨i, to_account1, d1, d2, hp, hacc, h1, h2, h3⟩ := transfer_do_apply_ok happly
  have hi : i = op.to_ := by
    rw [hev] at hp
    exact (Option.some.inj hp).symm
  subst hi
  rw [hto] at hacc
  have hta : to_account1 = to_account := (Option.some.inj hacc).symm
  subst hta
  obtain ⟨e1, hcover⟩ := adjust_balance_ok h1
  obtain ⟨hb3, _, _, _⟩ := apply_counters_frame h3
  refine ⟨?_, ?_⟩
  · by_cases hnb : to_account1.burning_mode_enabled = false
    · rw [if_pos hnb] at h2
      obtain ⟨e2, _⟩ := adjust_balance_ok h2
      simp only [database.get_balance, hb3, e2, e1, asset.neg, hnb, and_true]
      by_cases hft : op.from_ = op.to_
      · simp only [hft, true_and, if_true]
        omega
      · simp only [hft, false_and, true_and, if_true, if_false]
        omega
    · rw [if_neg hnb] at h2
      have hbal2 := apply_burning_balances h2
      simp only [database.get_balance, hb3, hbal2, e1, asset.neg, hnb, reduceCtorEq,
        and_false, if_false, true_and, if_true]
      omega
  · intro hpos
    have := hcover (by simp only [asset.neg]; omega)
    simp only [asset.neg, neg_neg] at this
    exact this

/-- C6, amended. For a transfer accepted by `do_evaluate`, the apply phase
(`do_apply`, then `convert_fee`, then `pay_fee`) lowers the sender's balance in
the transferred asset by exactly `op.amount.amount` (and leaves it as it was
when the sender transfers to itself and is not a burning account); none of the
three steps debits the fee.  When `db_adjust_balance( op.from, -op.fee )` runs
afterwards with the fee stated in the transferred asset, the balance is lower
by `op.fee.amount` more. -/
theorem transfer_apply_phase_debit (P : chain_parameters) (d d3 : database)
    (ev0 ev : transfer_evaluator) (op : transfer_operation) (to_account : account_object)
    (heval : transfer_evaluator.do_evaluate P d ev0 op = .ok ev)
    (hphase : transfer_apply_phase P d ev op = .ok d3)
    (hto : d.accounts op.to_ = some to_account) :
    d3.get_balance op.from_ op.amount.asset_id =
      (if op.from_ = op.to_ ∧ to_account.burning_mode_enabled = false then
        d.get_balance op.from_ op.amount.asset_id
       else d.get_balance op.from_ op.amount.asset_id - op.amount.amount) ∧
    (∀ d4, op.fee.asset_id = op.amount.asset_id →
      generic_evaluator.db_adjust_balance d3 op.from_ op.fee.neg = .ok d4 →
      d4.get_balance op.from_ op.amount.asset_id =
        d3.get_balance op.from_ op.amount.asset_id - op.fee.amount) := by
  unfold transfer_apply_phase at hphase
  obtain ⟨d1, h1, hphase⟩ := (bind_ok_iff _ _ _).1 hphase
  obtain ⟨d2, h2, hphase⟩ := (bind_ok_iff _ _ _).1 hphase
  have hb2 := convert_fee_balances h2
  have hb3 := pay_fee_balances hphase
  constructor
  · have := (transfer_do_apply_sender_balance heval h1 hto).1
    simp only [database.get_balance] at this ⊢
    rw [hb3, hb2]
    exact this
  · intro d4 hfee h4
    obtain ⟨e4, _⟩ := adjust_balance_ok h4
    simp only [database.get_balance, e4, asset.neg, hfee, and_self, if_true]
    omega

/-- The apply phase on the example chain: account 1 holds 10000 EDC and sends
1000 to account 2 with a fee of 100 EDC prepared by `prepare_fee`.  After
`do_apply`, `convert_fee` and `pay_fee` the sender holds 9000; the separate
debit of the fee brings the balance to 8900. -/
theorem transfer_apply_phase_debit_witness :
    ∃ ev d3 d4,
      transfer_evaluator.do_evaluate example_parameters (example_database 700 10000)
        (example_evaluator (example_database 700 10000) { amount := 100, asset_id := 1 })
        (example_transfer 1 2 { amount := 1000, asset_id := 1 } { amount := 100, asset_id := 1 })
        = .ok ev ∧
      transfer_apply_phase example_parameters (example_database 700 10000) ev
        (example_transfer 1 2 { amount := 1000, asset_id := 1 } { amount := 100, asset_id := 1 })
        = .ok d3 ∧
      generic_evaluator.db_adjust_balance d3 1 { amount := -100, asset_id := 1 } = .ok d4 ∧
      d3.get_balance 1 1 = 10000 - 1000 ∧
      d4.get_balance 1 1 = d3.get_balance 1 1 - 100 := by
  refine ⟨_, _, _, rfl, rfl, rfl, ?_, ?_⟩
  · exact (transfer_apply_phase_debit example_parameters (example_database 700 10000) _
      (example_evaluator (example_database 700 10000) { amount := 100, asset_id := 1 }) _
      (example_transfer 1 2 { amount := 1000, asset_id := 1 } { amount := 100, asset_id := 1 })
      example_account rfl rfl rfl).1
  · exact (transfer_apply_phase_debit example_parameters (example_database 700 10000) _
      (example_evaluator (example_database 700 10000) { amount := 100, asset_id := 1 }) _
      (example_transfer 1 2 { amount := 1000, asset_id := 1 } { amount := 100, asset_id := 1 })
      example_account rfl rfl rfl).2 _ rfl rfl

/-- C6 as stated fails: on the example chain account 1 holds 10000 EDC and
sends 1000 to account 2 with a fee of 100 EDC; `do_evaluate` accepts, the apply
phase returns, and the sender's balance is 9000, not 10000 - (1000 + 100). -/
theorem transfer_apply_phase_counterexample :
    ∃ ev d3,
      transfer_evaluator.do_evaluate example_parameters (example_database 700 10000)
        (example_evaluator (example_database 700 10000) { amount := 100, asset_id := 1 })
        (example_transfer 1 2 { amount := 1000, asset_id := 1 } { amount := 100, asset_id := 1 })
        = .ok ev ∧
      transfer_apply_phase example_parameters (example_database 700 10000) ev
        (example_transfer 1 2 { amount := 1000, asset_id := 1 } { amount := 100, asset_id := 1 })
        = .ok d3 ∧
      (example_database 700 10000).get_balance 1 1 = 10000 ∧
      d3.get_balance 1 1 = 9000 ∧
      d3.get_balance 1 1 ≠ (example_database 700 10000).get_balance 1 1 - (1000 + 100) :=
  ⟨_, _, rfl, rfl, by decide, by decide, by decide⟩

/-! ## Transfers: what acceptance guarantees to `do_apply` -/

/-- The dynamic data of the transferred asset after a returning
`transfer_evaluator::do_apply`: burnt by the amount for a burning destination,
untouched otherwise. -/
theorem transfer_do_apply_dyn_data {P : chain_parameters} {d d3 : database}
    {ev0 ev : transfer_evaluator} {op : transfer_operation} {to_account : account_object}
    {asset_type : asset_object} {dyn : asset_dynamic_data_object}
    (heval : transfer_evaluator.do_evaluate P d ev0 op = .ok ev)
    (happly : transfer_evaluator.do_apply P d ev op = .ok d3)
    (hto : d.accounts op.to_ = some to_account)
    (hasset : d.assets op.amount.asset_id = some asset_type)
    (hdyn : d.asset_dynamic_data asset_type.dynamic_asset_data_id = some dyn) :
    d3.asset_dynamic_data asset_type.dynamic_asset_data_id =
      some (if to_account.burning_mode_enabled = true then burn_supply dyn op.amount.amount
            else dyn) := by
  obtain ⟨_, _, asset_type1, _, _, _, cf, _, _, hasset1, _, _, _, _, _, _, hev⟩ :=
    transfer_do_evaluate_ok heval
  rw [hasset] at hasset1
  have hat : asset_type1 = asset_type := (Option.some.inj hasset1).symm
  subst hat
  obtain ⟨i, to_account1, d1, d2, hp, hacc, h1, h2, h3⟩ := transfer_do_apply_ok happly
  have hi : i = op.to_ := by
    rw [hev] at hp
    exact (Option.some.inj hp).symm
  subst hi
  rw [hto] at hacc
  have hta : to_account1 = to_account := (Option.some.inj hacc).symm
  subst hta
  obtain ⟨e1, _⟩ := adjust_balance_ok h1
  obtain ⟨_, hd3, _, _⟩ := apply_counters_frame h3
  have hd1 : d1.asset_dynamic_data = d.asset_dynamic_data := by rw [e1]
  by_cases hnb : to_account1.burning_mode_enabled = false
  · rw [if_pos hnb] at h2
    obtain ⟨e2, _⟩ := adjust_balance_ok h2
    have hd2 : d2.asset_dynamic_data = d1.asset_dynamic_data := by rw [e2]
    rw [hd3, hd2, hd1, hdyn]
    simp [hnb]
  · rw [if_neg hnb, hev] at h2
    obtain ⟨data, hdata, hdd, _, _⟩ := apply_burning_ok h2
    rw [hd1, hdyn] at hdata
    have hdata' : data = dyn := (Option.some.inj hdata).symm
    subst hdata'
    have hb : to_account1.burning_mode_enabled = true := by
      cases hx : to_account1.burning_mode_enabled
      · exact absurd hx hnb
      · rfl
    rw [hd3, hdd, if_pos hb]
    simp [update]

/-- The burning branch of the embedding returns once the objects behind its two
pointers exist; the embedding computes in `Int`, the code also needs its sums
to be int64. -/
theorem apply_burning_returns (P : chain_parameters) (d : database) (i j : Nat) (amount : asset)
    (data : asset_dynamic_data_object) (acc : account_object)
    (hdata : d.asset_dynamic_data i = some data) (hacc : d.accounts j = some acc) :
    ∃ d1, apply_burning P d (some i) (some j) amount = .ok d1 := by
  unfold apply_burning
  simp only [get, hdata, bind, Except.bind]
  split
  · simp only [deref, hacc]
    exact ⟨_, rfl⟩
  · exact ⟨_, rfl⟩

/-- The counter block of the embedding returns once the sender's account
exists; the embedding computes in `Int`, the code also needs its sum to be
int64. -/
theorem apply_counters_returns (P : chain_parameters) (d : database) (b : Bool)
    (from_ : account_id_type) (amount : asset) (obj : account_object)
    (hobj : d.accounts from_ = some obj) :
    ∃ d1, apply_counters P d b from_ amount = .ok d1 := by
  unfold apply_counters
  split
  · simp only [get, hobj, bind, Except.bind]
    exact ⟨_, rfl⟩
  · exact ⟨_, rfl⟩

/-- What a returning post-`HARDFORK_627_TIME` block has established. -/
theorem post_627_ok {P : chain_parameters} {d : database} {held cf : Int}
    {from_account to_account : account_object} {settings : settings_object}
    {fee_asset_id : asset_id_type} {op : transfer_operation}
    (h : transfer_evaluator.post_627 P d held from_account to_account settings fee_asset_id op
      = .ok cf) :
    transfer_evaluator.daily_limit P d from_account to_account settings op = .ok () ∧
    cf = transfer_evaluator.resolve_custom_fee P d held
      (transfer_evaluator.fee_percent P d from_account to_account settings fee_asset_id op) op ∧
    (transfer_evaluator.fee_percent P d from_account to_account settings fee_asset_id op > 0 →
      d.get_balance op.from_ op.amount.asset_id ≥ op.amount.amount + cf) ∧
    (cf > 0 → op.fee.amount ≥ cf) ∧
    (transfer_evaluator.fee_percent P d from_account to_account settings fee_asset_id op = 0 →
      d.get_balance op.from_ op.amount.asset_id ≥ op.amount.amount) := by
  unfold transfer_evaluator.post_627 at h
  obtain ⟨_, h1, h⟩ := (bind_ok_iff _ _ _).1 h
  simp only at h
  obtain ⟨_, h2, h⟩ := (bind_ok_iff _ _ _).1 h
  obtain ⟨_, h3, h⟩ := (bind_ok_iff _ _ _).1 h
  obtain ⟨_, h4, h⟩ := (bind_ok_iff _ _ _).1 h
  simp only [pure, Except.pure, Except.ok.injEq] at h
  subst h
  refine ⟨h1, rfl, ?_, ?_, ?_⟩
  · intro hp
    rw [if_pos hp] at h2
    exact of_decide_eq_true ((fc_assert_ok_iff _ _ _).1 h2)
  · intro hp
    rw [if_pos hp] at h3
    exact of_decide_eq_true ((fc_assert_ok_iff _ _ _).1 h3)
  · intro hp
    rw [if_pos hp] at h4
    exact of_decide_eq_true ((fc_assert_ok_iff _ _ _).1 h4)

/-- The burning-destination assertions pass exactly when the destination is
not burning, or the asset is not market-issued and the supply covers the
total. -/
theorem burning_checks_ok_iff (to_account : account_object) (asset_type : asset_object)
    (dyn : asset_dynamic_data_object) (total : Int) :
    burning_checks to_account asset_type dyn total = .ok () ↔
      (to_account.burning_mode_enabled = true →
        asset_type.market_issued = false ∧ dyn.current_supply - total ≥ 0) := by
  unfold burning_checks
  cases hb : to_account.burning_mode_enabled with
  | false => simp
  | true =>
    simp only [if_true, true_implies]
    constructor
    · intro h
      obtain ⟨_, h1, h2⟩ := (bind_ok_iff _ _ _).1 h
      have h1' := (fc_assert_ok_iff _ _ _).1 h1
      have h2' := of_decide_eq_true ((fc_assert_ok_iff _ _ _).1 h2)
      refine ⟨?_, h2'⟩
      cases hm : asset_type.market_issued
      · rfl
      · rw [hm] at h1'
        exact absurd h1' (by decide)
    · rintro ⟨h1, h2⟩
      simp [fc_assert, h1, h2, bind, Except.bind]

/-- The resolved `fee_percent` is non-negative when every configured percent
is. -/
theorem fee_percent_nonneg {P : chain_parameters} {d : database}
    (from_account to_account : account_object) (settings : settings_object)
    (fee_asset_id : asset_id_type) (op : transfer_operation)
    (hcustom : ∀ id fee,
      P.get_custom_fee d settings.transfer_fees id = some fee → 0 ≤ fee.percent)
    (hrank : 0 ≤ P.get_account_fee_edc_percent_by_rank d op.from_) :
    0 ≤ transfer_evaluator.fee_percent P d from_account to_account settings fee_asset_id op := by
  unfold transfer_evaluator.fee_percent
  split
  · split
    · exact hrank
    · split
      · split
        · next fee hfee => exact hcustom _ fee hfee
        · exact le_refl 0
      · exact le_refl 0
  · split
    · next fee hfee => exact hcustom _ fee hfee
    · exact le_refl 0

/-- Rounding on the example chain never goes below zero for a non-negative
amount and percent. -/
theorem example_round_percent_nonneg (amount percent : Int) (ha : 0 ≤ amount)
    (hp : 0 ≤ percent) : 0 ≤ example_round_percent amount percent := by
  unfold example_round_percent
  apply Int.ediv_nonneg
  · have := mul_nonneg ha hp
    linarith
  · decide

set_option linter.unusedVariables false in
/-- C8. An EDC transfer evaluated after `HARDFORK_627_TIME` from an account with
`edc_limit_transfers_enabled`, to a destination that is not burning once
`HARDFORK_636_TIME` is reached; `max` is the account's
`edc_transfers_max_amount` when positive and the settings' daily limit
otherwise, and the sum `counter + amount` that lines 105 and 108 compute is an
int64 (`hrange`; outside that range the addition throws, and the embedding,
which adds in `Int`, is not the code).  The daily-limit check passes exactly
when `max >= counter + amount` after `HARDFORK_631_TIME`, and exactly when
`max > counter + amount` up to it; and `do_evaluate` accepts only if the check
passes. -/
theorem daily_limit_boundary (P : chain_parameters) (d : database)
    (ev0 : transfer_evaluator) (op : transfer_operation)
    (from_account to_account : account_object) (settings : settings_object)
    (hfrom : d.accounts op.from_ = some from_account)
    (hto : d.accounts op.to_ = some to_account)
    (hsettings : d.settings 0 = some settings)
    (h627 : d.head_block_time > P.HARDFORK_627_TIME)
    (hedc : op.amount.asset_id = P.EDC_ASSET)
    (henabled : from_account.edc_limit_transfers_enabled = true)
    (hdest : d.head_block_time ≥ P.HARDFORK_636_TIME → to_account.burning_mode_enabled = false)
    (hrange : in_int64 (from_account.edc_transfers_amount_counter + op.amount.amount)) :
    (d.head_block_time > P.HARDFORK_631_TIME →
      (transfer_evaluator.daily_limit P d from_account to_account settings op = .ok () ↔
        (if from_account.edc_transfers_max_amount > 0 then from_account.edc_transfers_max_amount
          else settings.edc_transfers_daily_limit) ≥
          from_account.edc_transfers_amount_counter + op.amount.amount)) ∧
    (d.head_block_time ≤ P.HARDFORK_631_TIME →
      (transfer_evaluator.daily_limit P d from_account to_account settings op = .ok () ↔
        (if from_account.edc_transfers_max_amount > 0 then from_account.edc_transfers_max_amount
          else settings.edc_transfers_daily_limit) >
          from_account.edc_transfers_amount_counter + op.amount.amount)) ∧
    (∀ ev, transfer_evaluator.do_evaluate P d ev0 op = .ok ev →
      transfer_evaluator.daily_limit P d from_account to_account settings op = .ok ()) := by
  have hgate : d.head_block_time < P.HARDFORK_636_TIME ∨ to_account.burning_mode_enabled = false := by
    by_cases h : d.head_block_time < P.HARDFORK_636_TIME
    · exact Or.inl h
    · exact Or.inr (hdest (by omega))
  have hcheck : transfer_evaluator.daily_limit P d from_account to_account settings op =
      fc_assert (limit_is_valid P d from_account settings op) .daily_limit_exceeded := by
    unfold transfer_evaluator.daily_limit
    rw [if_pos ⟨hedc, henabled⟩, if_pos hgate]
  refine ⟨?_, ?_, ?_⟩
  · intro h631
    rw [hcheck, fc_assert_ok_iff]
    unfold limit_is_valid max_amount
    rw [if_pos h631, decide_eq_true_iff]
  · intro h631
    rw [hcheck, fc_assert_ok_iff]
    unfold limit_is_valid max_amount
    rw [if_neg (by omega), decide_eq_true_iff]
  · intro ev heval
    obtain ⟨from_account1, to_account1, _, _, _, settings1, cf, hfrom1, hto1, _, _, _, hsettings1,
      _, hpost, _, _⟩ := transfer_do_evaluate_ok heval
    rw [hfrom] at hfrom1
    rw [hto] at hto1
    rw [hsettings] at hsettings1
    have e1 : from_account1 = from_account := (Option.some.inj hfrom1).symm
    have e2 : to_account1 = to_account := (Option.some.inj hto1).symm
    have e3 : settings1 = settings := (Option.some.inj hsettings1).symm
    subst e1 e2 e3
    rw [if_pos h627] at hpost
    exact (post_627_ok hpost).1

/-- The boundary of the daily limit on the example chain, with a maximum of
100, a counter of 99 and a transfer of 1 EDC: at time 630, after
`HARDFORK_627_TIME` and before `HARDFORK_631_TIME`, the check fails and
`do_evaluate` throws "Daily transfers limit exceeded"; at time 700 the check
passes and `do_evaluate` accepts. -/
theorem daily_limit_boundary_witness :
    transfer_evaluator.do_evaluate example_parameters (example_database_limited 630)
      (transfer_evaluator.fresh false)
      (example_transfer 1 2 { amount := 1, asset_id := 1 } { amount := 0, asset_id := 1 })
      = .error .daily_limit_exceeded ∧
    ¬ transfer_evaluator.daily_limit example_parameters (example_database_limited 630)
      example_limited_account example_account example_settings
      (example_transfer 1 2 { amount := 1, asset_id := 1 } { amount := 0, asset_id := 1 })
      = .ok () ∧
    (∃ ev, transfer_evaluator.do_evaluate example_parameters (example_database_limited 700)
      (transfer_evaluator.fresh false)
      (example_transfer 1 2 { amount := 1, asset_id := 1 } { amount := 0, asset_id := 1 })
      = .ok ev) ∧
    transfer_evaluator.daily_limit example_parameters (example_database_limited 700)
      example_limited_account example_account example_settings
      (example_transfer 1 2 { amount := 1, asset_id := 1 } { amount := 0, asset_id := 1 })
      = .ok () := by
  have h630 := daily_limit_boundary example_parameters (example_database_limited 630)
    (transfer_evaluator.fresh false)
    (example_transfer 1 2 { amount := 1, asset_id := 1 } { amount := 0, asset_id := 1 })
    example_limited_account example_account example_settings rfl rfl rfl
    (by decide) rfl rfl (fun _ => rfl) ⟨by decide, by decide⟩
  have h700 := daily_limit_boundary example_parameters (example_database_limited 700)
    (transfer_evaluator.fresh false)
    (example_transfer 1 2 { amount := 1, asset_id := 1 } { amount := 0, asset_id := 1 })
    example_limited_account example_account example_settings rfl rfl rfl
    (by decide) rfl rfl (fun _ => rfl) ⟨by decide, by decide⟩
  refine ⟨rfl, ?_, ⟨_, rfl⟩, ?_⟩
  · intro h
    exact absurd ((h630.2.1 (by decide)).1 h) (by decide)
  · exact (h700.1 (by decide)).2 (by decide)

/-- C9. A transfer evaluated after `HARDFORK_627_TIME` whose resolved
`fee_percent` is positive, its fee amount being non-negative as `prepare_fee`
asserts before `do_evaluate` runs: when `do_evaluate` accepts, the member
`custom_fee` is the rounded product of the amount and the percent, the sender's
balance in the transferred asset is at least `amount + custom_fee`, and
`op.fee.amount` is at least `custom_fee`. -/
theorem custom_fee_rule (P : chain_parameters) (d : database)
    (ev0 ev : transfer_evaluator) (op : transfer_operation)
    (from_account to_account : account_object) (asset_type : asset_object)
    (settings : settings_object) (fee_asset_id : asset_id_type)
    (hfrom : d.accounts op.from_ = some from_account)
    (hto : d.accounts op.to_ = some to_account)
    (hasset : d.assets op.amount.asset_id = some asset_type)
    (hfee_asset : fee_asset_type P d asset_type = .ok fee_asset_id)
    (hsettings : d.settings 0 = some settings)
    (h627 : d.head_block_time > P.HARDFORK_627_TIME)
    (hpercent :
      transfer_evaluator.fee_percent P d from_account to_account settings fee_asset_id op > 0)
    (hfee : 0 ≤ op.fee.amount)
    (heval : transfer_evaluator.do_evaluate P d ev0 op = .ok ev) :
    ev.custom_fee = P.round_percent d op.amount.amount
      (transfer_evaluator.fee_percent P d from_account to_account settings fee_asset_id op) ∧
    d.get_balance op.from_ op.amount.asset_id ≥ op.amount.amount + ev.custom_fee ∧
    op.fee.amount ≥ ev.custom_fee := by
  obtain ⟨from_account1, to_account1, asset_type1, fee_asset_id1, _, settings1, cf, hfrom1, hto1,
    hasset1, hfee_asset1, _, hsettings1, _, hpost, _, hev⟩ := transfer_do_evaluate_ok heval
  rw [hfrom] at hfrom1
  rw [hto] at hto1
  rw [hasset] at hasset1
  rw [hsettings] at hsettings1
  have e1 : from_account1 = from_account := (Option.some.inj hfrom1).symm
  have e2 : to_account1 = to_account := (Option.some.inj hto1).symm
  have e3 : asset_type1 = asset_type := (Option.some.inj hasset1).symm
  have e4 : settings1 = settings := (Option.some.inj hsettings1).symm
  subst e1 e2 e3 e4
  rw [hfee_asset] at hfee_asset1
  have e5 : fee_asset_id1 = fee_asset_id := (Except.ok.inj hfee_asset1).symm
  subst e5
  rw [if_pos h627] at hpost
  obtain ⟨_, hcf, hbal, hfee_check, _⟩ := post_627_ok hpost
  have hcustom : ev.custom_fee = cf := by rw [hev]
  unfold transfer_evaluator.resolve_custom_fee at hcf
  rw [if_pos hpercent] at hcf
  rw [hcustom]
  refine ⟨hcf, hbal hpercent, ?_⟩
  by_cases hpos : cf > 0
  · exact hfee_check hpos
  · omega

/-- The custom fee on the example chain after every hardfork, with 1 percent
configured for asset 2: for a transfer of 10000 units the custom fee is 100; a
stated fee of 99 is thrown out with "Wrong fee amount", a stated fee of 100 is
accepted. -/
theorem custom_fee_rule_witness :
    transfer_evaluator.do_evaluate example_parameters
      (example_database_with_fees 700 20000 [{ asset_id := 2, percent := 1 }])
      (transfer_evaluator.fresh false)
      (example_transfer 1 2 { amount := 10000, asset_id := 2 } { amount := 99, asset_id := 2 })
      = .error .wrong_fee_amount ∧
    ∃ ev,
      transfer_evaluator.do_evaluate example_parameters
        (example_database_with_fees 700 20000 [{ asset_id := 2, percent := 1 }])
        (transfer_evaluator.fresh false)
        (example_transfer 1 2 { amount := 10000, asset_id := 2 } { amount := 100, asset_id := 2 })
        = .ok ev ∧
      ev.custom_fee = 100 ∧
      (example_database_with_fees 700 20000 [{ asset_id := 2, percent := 1 }]).get_balance 1 2
        ≥ 10000 + ev.custom_fee ∧
      (100 : Int) ≥ ev.custom_fee := by
  refine ⟨rfl, _, rfl, ?_⟩
  exact custom_fee_rule example_parameters
    (example_database_with_fees 700 20000 [{ asset_id := 2, percent := 1 }])
    (transfer_evaluator.fresh false) _
    (example_transfer 1 2 { amount := 10000, asset_id := 2 } { amount := 100, asset_id := 2 })
    example_account example_account (example_asset 2)
    { example_settings with transfer_fees := [{ asset_id := 2, percent := 1 }] } 2
    rfl rfl rfl rfl rfl (by decide) (by decide) (by decide) rfl

/-! ## Override transfers -/

/-- When the burning-destination block of the override evaluator returns. -/
theorem override_burning_checks_ok_iff (d : database) (held : Option Nat)
    (to_account : account_object) (asset_type : asset_object)
    (op : override_transfer_operation) :
    (∃ p, override_transfer_evaluator.burning_checks d held to_account asset_type op = .ok p) ↔
      (to_account.burning_mode_enabled = true →
        asset_type.market_issued = false ∧
        ∃ dyn, d.asset_dynamic_data asset_type.dynamic_asset_data_id = some dyn ∧
          dyn.current_supply - op.amount.amount ≥ 0) := by
  unfold override_transfer_evaluator.burning_checks
  cases hb : to_account.burning_mode_enabled with
  | false => simp [pure, Except.pure]
  | true =>
    simp only [if_true, true_implies]
    constructor
    · rintro ⟨p, h⟩
      obtain ⟨_, h1, h⟩ := (bind_ok_iff _ _ _).1 h
      obtain ⟨dyn, h2, h⟩ := (bind_ok_iff _ _ _).1 h
      obtain ⟨_, h3, h⟩ := (bind_ok_iff _ _ _).1 h
      have h1' := (fc_assert_ok_iff _ _ _).1 h1
      refine ⟨?_, dyn, (get_ok_iff _ _ _).1 h2, of_decide_eq_true ((fc_assert_ok_iff _ _ _).1 h3)⟩
      cases hm : asset_type.market_issued
      · rfl
      · rw [hm] at h1'
        exact absurd h1' (by decide)
    · rintro ⟨h1, dyn, h2, h3⟩
      refine ⟨some asset_type.dynamic_asset_data_id, ?_⟩
      simp [fc_assert, get, h1, h2, h3, bind, Except.bind, pure, Except.pure]

/-- Every dynamic-data object of the example ledger has a supply of 200 and
nothing burnt, accumulated or pooled. -/
theorem example_dynamic_data (t : Nat) (b : Int) (i : Nat) (dyn : asset_dynamic_data_object)
    (h : (example_database t b).asset_dynamic_data i = some dyn) :
    dyn = { current_supply := 200, accumulated_fees := 0, fee_pool := 0, fee_burnt := 0 } := by
  simp only [example_database] at h
  split at h
  · exact (Option.some.inj h).symm
  · exact absurd h (by simp)

set_option linter.unusedVariables false in
/-- C10. `override_transfer_evaluator::do_evaluate` accepts exactly when the
asset and both accounts exist, `can_override()` holds, `op.issuer` is the
issuer of the asset, both accounts are authorized for the asset, the sender is
not payer-restricted, the receiver is not receiver-restricted, the sender's
balance covers the amount and, for a burning destination, the asset is not
market-issued and `current_supply - amount >= 0`; the difference
`current_supply - amount` that line 539 computes is an int64 (`hrange`; outside
that range the subtraction throws, and the embedding, which subtracts in `Int`,
is not the code).  Whenever `can_override()` is false the exception is
`override_transfer_not_permitted`, whatever the other conditions. -/
theorem override_do_evaluate_iff (P : chain_parameters) (d : database)
    (ev : override_transfer_evaluator) (op : override_transfer_operation)
    (hrange : ∀ asset_type dyn, d.assets op.amount.asset_id = some asset_type →
      d.asset_dynamic_data asset_type.dynamic_asset_data_id = some dyn →
      in_int64 (dyn.current_supply - op.amount.amount)) :
    ((∃ ev1, override_transfer_evaluator.do_evaluate P d ev op = .ok ev1) ↔
      ∃ asset_type from_account to_account,
        d.assets op.amount.asset_id = some asset_type ∧
        d.accounts op.from_ = some from_account ∧
        d.accounts op.to_ = some to_account ∧
        asset_type.can_override = true ∧
        op.issuer = asset_type.issuer ∧
        P.is_authorized_asset d op.from_ op.amount.asset_id = true ∧
        P.is_authorized_asset d op.to_ op.amount.asset_id = true ∧
        P.not_restricted_account d op.from_ .payer = true ∧
        P.not_restricted_account d op.to_ .receiver = true ∧
        d.get_balance op.from_ op.amount.asset_id ≥ op.amount.amount ∧
        (to_account.burning_mode_enabled = true →
          asset_type.market_issued = false ∧
          ∃ dyn, d.asset_dynamic_data asset_type.dynamic_asset_data_id = some dyn ∧
            dyn.current_supply - op.amount.amount ≥ 0)) ∧
    (∀ asset_type, d.assets op.amount.asset_id = some asset_type →
      asset_type.can_override = false →
      override_transfer_evaluator.do_evaluate P d ev op
        = .error .override_transfer_not_permitted) := by
  constructor
  · constructor
    · rintro ⟨ev1, h⟩
      unfold override_transfer_evaluator.do_evaluate at h
      obtain ⟨asset_type, h1, h⟩ := (bind_ok_iff _ _ _).1 h
      obtain ⟨_, h2, h⟩ := (bind_ok_iff _ _ _).1 h
      obtain ⟨_, h3, h⟩ := (bind_ok_iff _ _ _).1 h
      obtain ⟨from_account, h4, h⟩ := (bind_ok_iff _ _ _).1 h
      obtain ⟨to_account, h5, h⟩ := (bind_ok_iff _ _ _).1 h
      obtain ⟨_, h6, h⟩ := (bind_ok_iff _ _ _).1 h
      obtain ⟨_, h7, h⟩ := (bind_ok_iff _ _ _).1 h
      obtain ⟨_, h8, h⟩ := (bind_ok_iff _ _ _).1 h
      obtain ⟨_, h9, h⟩ := (bind_ok_iff _ _ _).1 h
      obtain ⟨_, _, h⟩ := (bind_ok_iff _ _ _).1 h
      obtain ⟨_, h11, h⟩ := (bind_ok_iff _ _ _).1 h
      obtain ⟨p, h12, h⟩ := (bind_ok_iff _ _ _).1 h
      exact ⟨asset_type, from_account, to_account, (get_ok_iff _ _ _).1 h1,
        (get_ok_iff _ _ _).1 h4, (get_ok_iff _ _ _).1 h5, (fc_assert_ok_iff _ _ _).1 h2,
        (of_decide_eq_true ((fc_assert_ok_iff _ _ _).1 h3)).symm,
        (fc_assert_ok_iff _ _ _).1 h7, (fc_assert_ok_iff _ _ _).1 h6,
        (fc_assert_ok_iff _ _ _).1 h8, (fc_assert_ok_iff _ _ _).1 h9,
        of_decide_eq_true ((fc_assert_ok_iff _ _ _).1 h11),
        (override_burning_checks_ok_iff _ _ _ _ _).1 ⟨p, h12⟩⟩
    · rintro ⟨asset_type, from_account, to_account, h1, h2, h3, h4, h5, h6, h7, h8, h9, h10, h11⟩
      obtain ⟨p, hp⟩ := (override_burning_checks_ok_iff d ev.asset_dyn_data_ptr to_account
        asset_type op).2 h11
      refine ⟨{ ev with to_account_ptr := some op.to_, asset_dyn_data_ptr := p }, ?_⟩
      unfold override_transfer_evaluator.do_evaluate
      simp only [get, h1, h2, h3, bind, Except.bind, fc_assert, h4, h5, h6, h7, h8, h9, if_true,
        decide_True, ite_self, pure, Except.pure]
      have h10' : decide (d.get_balance op.from_ op.amount.asset_id ≥ op.amount.amount) = true :=
        decide_eq_true h10
      rw [h10']
      simp only [if_true]
      rw [hp]
  · intro asset_type h1 h2
    unfold override_transfer_evaluator.do_evaluate
    simp [get, h1, h2, fc_assert, bind, Except.bind]

/-- Override transfers on the example chain: the issuer, account 1, moves 10
units of asset 2 from account 3, which holds them, to account 2 and is
accepted; with `can_override()` false for the asset the same operation is
thrown out with `override_transfer_not_permitted`, and so is one that no
balance covers. -/
theorem override_do_evaluate_witness :
    (∃ ev1, override_transfer_evaluator.do_evaluate example_parameters
      (example_database 700 10) (override_transfer_evaluator.fresh false)
      (example_override 1 3 2 { amount := 10, asset_id := 2 }) = .ok ev1) ∧
    override_transfer_evaluator.do_evaluate example_parameters
      (example_database_no_override 700 10) (override_transfer_evaluator.fresh false)
      (example_override 1 3 2 { amount := 10, asset_id := 2 })
      = .error .override_transfer_not_permitted ∧
    override_transfer_evaluator.do_evaluate example_parameters
      (example_database_no_override 700 10) (override_transfer_evaluator.fresh false)
      (example_override 7 2 9 { amount := 10, asset_id := 2 })
      = .error .override_transfer_not_permitted := by
  refine ⟨?_, ?_, ?_⟩
  · exact ((override_do_evaluate_iff example_parameters (example_database 700 10)
      (override_transfer_evaluator.fresh false)
      (example_override 1 3 2 { amount := 10, asset_id := 2 })
      (fun _ dyn _ hdyn => by
        rw [example_dynamic_data 700 10 _ dyn hdyn]
        exact ⟨by decide, by decide⟩)).1).2
      ⟨example_asset 2, { example_account with burning_mode_enabled := true }, example_account,
        rfl, rfl, rfl, rfl, rfl, rfl, rfl, rfl, rfl, by decide, fun h => absurd h (by decide)⟩
  · exact (override_do_evaluate_iff example_parameters (example_database_no_override 700 10)
      (override_transfer_evaluator.fresh false)
      (example_override 1 3 2 { amount := 10, asset_id := 2 })
      (fun _ dyn _ hdyn => by
        rw [example_dynamic_data 700 10 _ dyn hdyn]
        exact ⟨by decide, by decide⟩)).2
      { example_asset 2 with can_override := false } rfl rfl
  · exact (override_do_evaluate_iff example_parameters (example_database_no_override 700 10)
      (override_transfer_evaluator.fresh false)
      (example_override 7 2 9 { amount := 10, asset_id := 2 })
      (fun _ dyn _ hdyn => by
        rw [example_dynamic_data 700 10 _ dyn hdyn]
        exact ⟨by decide, by decide⟩)).2
      { example_asset 2 with can_override := false } rfl rfl

/-- What a returning `override_transfer_evaluator::do_evaluate` has
established, and the members it leaves. -/
theorem override_do_evaluate_ok {P : chain_parameters} {d : database}
    {ev ev1 : override_transfer_evaluator} {op : override_transfer_operation}
    (h : override_transfer_evaluator.do_evaluate P d ev op = .ok ev1) :
    ∃ asset_type from_account to_account dyn_ptr,
      d.assets op.amount.asset_id = some asset_type ∧
      d.accounts op.from_ = some from_account ∧
      d.accounts op.to_ = some to_account ∧
      d.get_balance op.from_ op.amount.asset_id ≥ op.amount.amount ∧
      override_transfer_evaluator.burning_checks d ev.asset_dyn_data_ptr to_account asset_type op
        = .ok dyn_ptr ∧
      ev1 = { ev with to_account_ptr := some op.to_, asset_dyn_data_ptr := dyn_ptr } := by
  unfold override_transfer_evaluator.do_evaluate at h
  obtain ⟨asset_type, h1, h⟩ := (bind_ok_iff _ _ _).1 h
  obtain ⟨_, _, h⟩ := (bind_ok_iff _ _ _).1 h
  obtain ⟨_, _, h⟩ := (bind_ok_iff _ _ _).1 h
  obtain ⟨from_account, h4, h⟩ := (bind_ok_iff _ _ _).1 h
  obtain ⟨to_account, h5, h⟩ := (bind_ok_iff _ _ _).1 h
  obtain ⟨_, _, h⟩ := (bind_ok_iff _ _ _).1 h
  obtain ⟨_, _, h⟩ := (bind_ok_iff _ _ _).1 h
  obtain ⟨_, _, h⟩ := (bind_ok_iff _ _ _).1 h
  obtain ⟨_, _, h⟩ := (bind_ok_iff _ _ _).1 h
  obtain ⟨_, _, h⟩ := (bind_ok_iff _ _ _).1 h
  obtain ⟨_, h11, h⟩ := (bind_ok_iff _ _ _).1 h
  obtain ⟨p, h12, h⟩ := (bind_ok_iff _ _ _).1 h
  simp only [pure, Except.pure, Except.ok.injEq] at h
  exact ⟨asset_type, from_account, to_account, p, (get_ok_iff _ _ _).1 h1,
    (get_ok_iff _ _ _).1 h4, (get_ok_iff _ _ _).1 h5,
    of_decide_eq_true ((fc_assert_ok_iff _ _ _).1 h11), h12, h.symm⟩

/-- The pointer and the facts a returning burning-destination block of the
override evaluator leaves. -/
theorem override_burning_checks_ok {d : database} {held p : Option Nat}
    {to_account : account_object} {asset_type : asset_object}
    {op : override_transfer_operation}
    (h : override_transfer_evaluator.burning_checks d held to_account asset_type op = .ok p) :
    (to_account.burning_mode_enabled = true →
      p = some asset_type.dynamic_asset_data_id ∧
      ∃ dyn, d.asset_dynamic_data asset_type.dynamic_asset_data_id = some dyn ∧
        dyn.current_supply - op.amount.amount ≥ 0) ∧
    (to_account.burning_mode_enabled = false → p = held) := by
  unfold override_transfer_evaluator.burning_checks at h
  cases hb : to_account.burning_mode_enabled with
  | false =>
    rw [hb] at h
    simp only [Bool.false_eq_true, if_false, pure, Except.pure, Except.ok.injEq] at h
    exact ⟨fun hx => absurd hx (by decide), fun _ => h.symm⟩
  | true =>
    rw [hb] at h
    simp only [if_true] at h
    obtain ⟨_, _, h⟩ := (bind_ok_iff _ _ _).1 h
    obtain ⟨dyn, h2, h⟩ := (bind_ok_iff _ _ _).1 h
    obtain ⟨_, h3, h⟩ := (bind_ok_iff _ _ _).1 h
    simp only [pure, Except.pure, Except.ok.injEq] at h
    exact ⟨fun _ => ⟨h.symm, dyn, (get_ok_iff _ _ _).1 h2,
      of_decide_eq_true ((fc_assert_ok_iff _ _ _).1 h3)⟩, fun hx => absurd hx (by decide)⟩

/-- The steps of a returning `override_transfer_evaluator::do_apply` run on
the members `do_evaluate` left. -/
theorem override_do_apply_ok {d d2 : database} {ev : override_transfer_evaluator}
    {o : override_transfer_operation} {to_account : account_object}
    (hp : ev.to_account_ptr = some o.to_)
    (hto : d.accounts o.to_ = some to_account)
    (h : override_transfer_evaluator.do_apply d ev o = .ok d2) :
    ∃ d1, d.adjust_balance o.from_ o.amount.neg = .ok d1 ∧
      override_transfer_evaluator.apply_credit d1 ev o to_account = .ok d2 := by
  unfold override_transfer_evaluator.do_apply at h
  obtain ⟨d1, h1, h⟩ := (bind_ok_iff _ _ _).1 h
  rw [hp] at h
  simp only at h
  obtain ⟨to_account1, h2, h⟩ := (bind_ok_iff _ _ _).1 h
  obtain ⟨e1, _⟩ := adjust_balance_ok h1
  have ha1 : d1.accounts = d.accounts := by rw [e1]
  have h2' := (get_ok_iff _ _ _).1 h2
  rw [ha1, hto] at h2'
  have e : to_account1 = to_account := (Option.some.inj h2').symm
  subst e
  exact ⟨d1, h1, h⟩

/-- C11, amended. An override transfer of `x` units of asset `a` accepted by
`do_evaluate`, on a ledger where the sender's balance and the supply of `a` are
non-negative.  Once `do_apply` has returned: when sender and receiver differ,
the sender's balance is `x` lower; a receiver that is not burning holds `x`
more and no dynamic data has changed; a burning receiver holds what it held,
the supply is `x` lower and `fee_burnt` is `x` higher.  When sender and
receiver are the same account, its balance is unchanged if it is not burning
and `x` lower, with the supply burnt, if it is.  The sender's balance and the
supply are still non-negative.  For `x >= 0`, `do_apply` does return when the
sums it computes are int64: the credited balance, the supply less `x` and
`fee_burnt` plus `x` (lines 554, 560, 561; outside that range the arithmetic
throws, and the embedding, which computes in `Int`, is not the code). -/
theorem override_apply (P : chain_parameters) (d : database)
    (ev0 ev : override_transfer_evaluator) (op : override_transfer_operation)
    (to_account : account_object) (asset_type : asset_object)
    (dyn : asset_dynamic_data_object)
    (heval : override_transfer_evaluator.do_evaluate P d ev0 op = .ok ev)
    (hto : d.accounts op.to_ = some to_account)
    (hasset : d.assets op.amount.asset_id = some asset_type)
    (hdyn : d.asset_dynamic_data asset_type.dynamic_asset_data_id = some dyn)
    (hbalance : 0 ≤ d.get_balance op.from_ op.amount.asset_id)
    (hsupply : 0 ≤ dyn.current_supply) :
    (∀ d2, override_transfer_evaluator.do_apply d ev op = .ok d2 →
      d2.get_balance op.from_ op.amount.asset_id =
        (if op.from_ = op.to_ ∧ to_account.burning_mode_enabled = false then
          d.get_balance op.from_ op.amount.asset_id
         else d.get_balance op.from_ op.amount.asset_id - op.amount.amount) ∧
      (to_account.burning_mode_enabled = false →
        d2.get_balance op.to_ op.amount.asset_id =
          (if op.from_ = op.to_ then d.get_balance op.to_ op.amount.asset_id
           else d.get_balance op.to_ op.amount.asset_id + op.amount.amount) ∧
        d2.asset_dynamic_data = d.asset_dynamic_data) ∧
      (to_account.burning_mode_enabled = true →
        d2.get_balance op.to_ op.amount.asset_id =
          (if op.from_ = op.to_ then d.get_balance op.to_ op.amount.asset_id - op.amount.amount
           else d.get_balance op.to_ op.amount.asset_id) ∧
        d2.asset_dynamic_data asset_type.dynamic_asset_data_id =
          some (burn_supply dyn op.amount.amount)) ∧
      0 ≤ d2.get_balance op.from_ op.amount.asset_id ∧
      ∃ dyn2, d2.asset_dynamic_data asset_type.dynamic_asset_data_id = some dyn2 ∧
        0 ≤ dyn2.current_supply) ∧
    (0 ≤ op.amount.amount →
      in_int64 (d.get_balance op.to_ op.amount.asset_id + op.amount.amount) →
      in_int64 (dyn.current_supply - op.amount.amount) →
      in_int64 (dyn.fee_burnt + op.amount.amount) →
      ∃ d2, override_transfer_evaluator.do_apply d ev op = .ok d2) := by
  obtain ⟨asset_type1, _, to_account1, p, hasset1, _, hto1, hcover, hburn, hev⟩ :=
    override_do_evaluate_ok heval
  rw [hasset] at hasset1
  rw [hto] at hto1
  have e1 : asset_type1 = asset_type := (Option.some.inj hasset1).symm
  have e2 : to_account1 = to_account := (Option.some.inj hto1).symm
  subst e1 e2
  obtain ⟨hb_true, _⟩ := override_burning_checks_ok hburn
  have hp : ev.to_account_ptr = some op.to_ := by rw [hev]
  have hdp : ev.asset_dyn_data_ptr = p := by rw [hev]
  constructor
  · intro d2 happly
    obtain ⟨d1, h1, h2⟩ := override_do_apply_ok hp hto happly
    obtain ⟨e1, _⟩ := adjust_balance_ok h1
    have hd1 : d1.asset_dynamic_data = d.asset_dynamic_data := by rw [e1]
    unfold override_transfer_evaluator.apply_credit at h2
    by_cases hnb : to_account1.burning_mode_enabled = false
    · rw [if_pos hnb] at h2
      obtain ⟨e2, _⟩ := adjust_balance_ok h2
      have hd2 : d2.asset_dynamic_data = d.asset_dynamic_data := by rw [e2, hd1]
      have hfrom : d2.get_balance op.from_ op.amount.asset_id =
          (if op.from_ = op.to_ then d.get_balance op.from_ op.amount.asset_id
           else d.get_balance op.from_ op.amount.asset_id - op.amount.amount) := by
        simp only [database.get_balance, e2, e1, asset.neg]
        by_cases hft : op.from_ = op.to_
        · simp only [hft, true_and, if_true]
          omega
        · simp only [hft, false_and, true_and, if_true, if_false]
          omega
      have hto2 : d2.get_balance op.to_ op.amount.asset_id =
          (if op.from_ = op.to_ then d.get_balance op.to_ op.amount.asset_id
           else d.get_balance op.to_ op.amount.asset_id + op.amount.amount) := by
        simp only [database.get_balance, e2, e1, asset.neg]
        by_cases hft : op.from_ = op.to_
        · simp only [hft, true_and, if_true]
          omega
        · have htf : ¬ op.to_ = op.from_ := fun h => hft h.symm
          simp only [hft, htf, false_and, true_and, if_true, if_false]
      refine ⟨?_, fun _ => ⟨hto2, hd2⟩, fun hb => ?_, ?_, dyn, by rw [hd2, hdyn], hsupply⟩
      · rw [hfrom]
        simp only [hnb, and_true]
      · rw [hnb] at hb
        exact absurd hb (by decide)
      · rw [hfrom]
        simp only [database.get_balance] at hcover hbalance ⊢
        split <;> omega
    · have hb : to_account1.burning_mode_enabled = true := by
        cases hx : to_account1.burning_mode_enabled
        · exact absurd hx hnb
        · rfl
      obtain ⟨hpp, dyn1, hdyn1, hsup⟩ := hb_true hb
      rw [hdyn] at hdyn1
      have e3 : dyn1 = dyn := (Option.some.inj hdyn1).symm
      subst e3
      rw [if_neg hnb, hdp, hpp] at h2
      simp only at h2
      obtain ⟨data, hdata, h2⟩ := (bind_ok_iff _ _ _).1 h2
      have hdata' := (get_ok_iff _ _ _).1 hdata
      rw [hd1, hdyn] at hdata'
      have e4 : data = dyn1 := (Option.some.inj hdata').symm
      subst e4
      simp only [pure, Except.pure, Except.ok.injEq] at h2
      have hbal2 : d2.balances = d1.balances := by rw [← h2]
      have hd2 : d2.asset_dynamic_data asset_type1.dynamic_asset_data_id =
          some (burn_supply data op.amount.amount) := by
        rw [← h2]
        simp [update]
      have hfrom : d2.get_balance op.from_ op.amount.asset_id =
          d.get_balance op.from_ op.amount.asset_id - op.amount.amount := by
        simp only [database.get_balance, hbal2, e1, asset.neg, and_self, if_true]
        omega
      have hto2 : d2.get_balance op.to_ op.amount.asset_id =
          (if op.from_ = op.to_ then d.get_balance op.to_ op.amount.asset_id - op.amount.amount
           else d.get_balance op.to_ op.amount.asset_id) := by
        simp only [database.get_balance, hbal2, e1, asset.neg]
        by_cases hft : op.from_ = op.to_
        · simp only [hft, true_and, if_true]
          omega
        · have htf : ¬ op.to_ = op.from_ := fun h => hft h.symm
          simp only [hft, htf, false_and, if_false]
      refine ⟨?_, fun hx => ?_, fun _ => ⟨hto2, hd2⟩, ?_, _, hd2, ?_⟩
      · rw [hfrom]
        simp only [hb, reduceCtorEq, and_false, if_false]
      · rw [hb] at hx
        exact absurd hx (by decide)
      · rw [hfrom]
        simp only [database.get_balance] at hcover ⊢
        omega
      · simp only [burn_supply]
        omega
  · intro hpos _ _ _
    have h1 : ∃ d1, d.adjust_balance op.from_ op.amount.neg = .ok d1 := by
      unfold database.adjust_balance
      rw [if_neg]
      · exact ⟨_, rfl⟩
      · simp only [asset.neg, database.get_balance] at hcover ⊢
        omega
    obtain ⟨d1, h1⟩ := h1
    obtain ⟨e1, _⟩ := adjust_balance_ok h1
    have hd1 : d1.asset_dynamic_data = d.asset_dynamic_data := by rw [e1]
    have ha1 : d1.accounts = d.accounts := by rw [e1]
    have h2 : ∃ d2, override_transfer_evaluator.apply_credit d1 ev op to_account1 = .ok d2 := by
      unfold override_transfer_evaluator.apply_credit
      by_cases hnb : to_account1.burning_mode_enabled = false
      · rw [if_pos hnb]
        unfold database.adjust_balance
        rw [if_neg]
        · exact ⟨_, rfl⟩
        · omega
      · have hb : to_account1.burning_mode_enabled = true := by
          cases hx : to_account1.burning_mode_enabled
          · exact absurd hx hnb
          · rfl
        obtain ⟨hpp, dyn1, hdyn1, _⟩ := hb_true hb
        rw [if_neg hnb, hdp, hpp]
        simp only [get, hd1, hdyn1, bind, Except.bind, pure, Except.pure]
        exact ⟨_, rfl⟩
    obtain ⟨d2, h2⟩ := h2
    refine ⟨d2, ?_⟩
    unfold override_transfer_evaluator.do_apply
    simp only [h1, hp, get, ha1, hto, bind, Except.bind]
    exact h2

/-- An override transfer on the example chain: the issuer, account 1, moves 10
units of asset 2 from account 1, which holds 10, to account 2, which holds
none.  Afterwards account 1 holds 0 and account 2 holds 10, and the supply is
unchanged. -/
theorem override_apply_witness :
    ∃ ev d2,
      override_transfer_evaluator.do_evaluate example_parameters (example_database 700 10)
        (override_transfer_evaluator.fresh false)
        (example_override 1 1 2 { amount := 10, asset_id := 2 }) = .ok ev ∧
      override_transfer_evaluator.do_apply (example_database 700 10) ev
        (example_override 1 1 2 { amount := 10, asset_id := 2 }) = .ok d2 ∧
      d2.get_balance 1 2 = 10 - 10 ∧
      d2.get_balance 2 2 = 0 + 10 ∧
      d2.asset_dynamic_data = (example_database 700 10).asset_dynamic_data ∧
      0 ≤ d2.get_balance 1 2 ∧
      ∃ d3, override_transfer_evaluator.do_apply (example_database 700 10) ev
        (example_override 1 1 2 { amount := 10, asset_id := 2 }) = .ok d3 := by
  refine ⟨_, _, rfl, rfl, ?_⟩
  have hall := override_apply example_parameters (example_database 700 10)
    (override_transfer_evaluator.fresh false) _
    (example_override 1 1 2 { amount := 10, asset_id := 2 })
    example_account (example_asset 2)
    { current_supply := 200, accumulated_fees := 0, fee_pool := 0, fee_burnt := 0 }
    rfl rfl rfl rfl (by decide) (by decide)
  have h := hall.1 _ rfl
  exact ⟨h.1, (h.2.1 rfl).1, (h.2.1 rfl).2, h.2.2.2.1,
    hall.2 (by decide) ⟨by decide, by decide⟩ ⟨by decide, by decide⟩ ⟨by decide, by decide⟩⟩

/-- C11 as stated fails when sender and receiver are the same account: on the
example chain the issuer, account 1, overrides 10 units of asset 2 from
account 1 to account 1; `do_evaluate` accepts, `do_apply` returns, and the
balance of account 1 is 10 as before, neither 10 lower as a sender nor 10
higher as a receiver. -/
theorem override_apply_self_counterexample :
    ∃ ev d2,
      override_transfer_evaluator.do_evaluate example_parameters (example_database 700 10)
        (override_transfer_evaluator.fresh false)
        (example_override 1 1 1 { amount := 10, asset_id := 2 }) = .ok ev ∧
      override_transfer_evaluator.do_apply (example_database 700 10) ev
        (example_override 1 1 1 { amount := 10, asset_id := 2 }) = .ok d2 ∧
      (example_database 700 10).get_balance 1 2 = 10 ∧
      d2.get_balance 1 2 = 10 :=
  ⟨_, _, rfl, rfl, by decide, by decide⟩

/-! ## Blind transfers -/

/-- What a returning fee block of `blind_transfer2_evaluator::do_evaluate` has
established. -/
theorem blind_fee_checks_ok {P : chain_parameters} {d : database}
    {from_account to_account : account_object} {settings : settings_object}
    {op : blind_transfer2_operation} {cf : asset} {fd : Nat}
    (h : blind_transfer2_evaluator.fee_checks P d from_account to_account settings op
      = .ok (cf, fd)) :
    fee_dyn_data d cf = .ok fd ∧
    (d.head_block_time > P.HARDFORK_627_TIME →
      cf = blind_transfer2_evaluator.resolve_custom_fee P d from_account to_account settings op ∧
      (op.amount.asset_id = cf.asset_id →
        d.get_balance op.from_ op.amount.asset_id ≥ op.amount.amount + cf.amount) ∧
      (op.amount.asset_id ≠ cf.asset_id →
        d.get_balance op.from_ op.amount.asset_id ≥ op.amount.amount ∧
        d.get_balance op.from_ cf.asset_id ≥ cf.amount) ∧
      (cf.amount > 0 → op.fee.amount ≥ cf.amount ∧ op.fee.asset_id = cf.asset_id)) ∧
    (d.head_block_time ≤ P.HARDFORK_627_TIME →
      cf = settings.blind_transfer_default_fee ∧
      d.get_balance op.from_ op.amount.asset_id ≥ op.amount.amount ∧
      d.get_balance op.from_ cf.asset_id ≥ cf.amount) := by
  unfold blind_transfer2_evaluator.fee_checks at h
  simp only at h
  obtain ⟨default_dyn, h0, h⟩ := (bind_ok_iff _ _ _).1 h
  by_cases ht : d.head_block_time > P.HARDFORK_627_TIME
  · rw [if_pos ht] at h
    obtain ⟨fee_dyn, h1, h⟩ := (bind_ok_iff _ _ _).1 h
    obtain ⟨_, h2, h⟩ := (bind_ok_iff _ _ _).1 h
    obtain ⟨_, h3, h⟩ := (bind_ok_iff _ _ _).1 h
    simp only [pure, Except.pure, Except.ok.injEq, Prod.mk.injEq] at h
    obtain ⟨hcf, hfd⟩ := h
    subst hcf hfd
    refine ⟨h1, fun _ => ⟨rfl, ?_, ?_, ?_⟩, fun hle => absurd ht (by omega)⟩
    · intro hsame
      rw [if_pos hsame] at h2
      exact of_decide_eq_true ((fc_assert_ok_iff _ _ _).1 h2)
    · intro hdiff
      rw [if_neg hdiff] at h2
      obtain ⟨_, h21, h22⟩ := (bind_ok_iff _ _ _).1 h2
      exact ⟨of_decide_eq_true ((fc_assert_ok_iff _ _ _).1 h21),
        of_decide_eq_true ((fc_assert_ok_iff _ _ _).1 h22)⟩
    · intro hpos
      rw [if_pos hpos] at h3
      obtain ⟨_, h31, h32⟩ := (bind_ok_iff _ _ _).1 h3
      exact ⟨of_decide_eq_true ((fc_assert_ok_iff _ _ _).1 h31),
        of_decide_eq_true ((fc_assert_ok_iff _ _ _).1 h32)⟩
  · rw [if_neg ht] at h
    obtain ⟨_, h1, h⟩ := (bind_ok_iff _ _ _).1 h
    obtain ⟨_, h2, h⟩ := (bind_ok_iff _ _ _).1 h
    simp only [pure, Except.pure, Except.ok.injEq, Prod.mk.injEq] at h
    obtain ⟨hcf, hfd⟩ := h
    subst hcf hfd
    exact ⟨h0, fun hgt => absurd hgt ht, fun _ =>
      ⟨rfl, of_decide_eq_true ((fc_assert_ok_iff _ _ _).1 h1),
        of_decide_eq_true ((fc_assert_ok_iff _ _ _).1 h2)⟩⟩

/-- What a returning `blind_transfer2_evaluator::do_evaluate` has established,
and the members it leaves. -/
theorem blind_do_evaluate_ok {P : chain_parameters} {d : database}
    {ev ev1 : blind_transfer2_evaluator} {op : blind_transfer2_operation}
    (h : blind_transfer2_evaluator.do_evaluate P d ev op = .ok ev1) :
    ∃ from_account to_account asset_type asset_dyn_data settings custom_fee fee_dyn,
      d.accounts op.from_ = some from_account ∧
      d.accounts op.to_ = some to_account ∧
      d.assets op.amount.asset_id = some asset_type ∧
      d.asset_dynamic_data asset_type.dynamic_asset_data_id = some asset_dyn_data ∧
      d.settings 0 = some settings ∧
      transfer_preflight P d asset_type op.from_ op.to_ op.amount.asset_id = .ok () ∧
      blind_transfer2_evaluator.daily_limit P d from_account to_account settings op = .ok () ∧
      blind_transfer2_evaluator.fee_checks P d from_account to_account settings op
        = .ok (custom_fee, fee_dyn) ∧
      burning_checks to_account asset_type asset_dyn_data
        (op.amount.amount + custom_fee.amount) = .ok () ∧
      ev1 = { ev with
        from_account_ptr := some op.from_, to_account_ptr := some op.to_,
        asset_dyn_data_ptr := some asset_type.dynamic_asset_data_id,
        fee_dyn_data_ptr := some fee_dyn,
        settings_ptr := some 0, custom_fee := custom_fee } := by
  unfold blind_transfer2_evaluator.do_evaluate at h
  obtain ⟨from_account, h1, h⟩ := (bind_ok_iff _ _ _).1 h
  obtain ⟨to_account, h2, h⟩ := (bind_ok_iff _ _ _).1 h
  obtain ⟨asset_type, h3, h⟩ := (bind_ok_iff _ _ _).1 h
  obtain ⟨asset_dyn_data, h4, h⟩ := (bind_ok_iff _ _ _).1 h
  obtain ⟨settings, h5, h⟩ := (bind_ok_iff _ _ _).1 h
  obtain ⟨_, h6, h⟩ := (bind_ok_iff _ _ _).1 h
  obtain ⟨_, h7, h⟩ := (bind_ok_iff _ _ _).1 h
  obtain ⟨⟨custom_fee, fee_dyn⟩, h8, h⟩ := (bind_ok_iff _ _ _).1 h
  simp only at h
  obtain ⟨_, h9, h⟩ := (bind_ok_iff _ _ _).1 h
  simp only [pure, Except.pure, Except.ok.injEq] at h
  exact ⟨from_account, to_account, asset_type, asset_dyn_data, settings, custom_fee, fee_dyn,
    (get_ok_iff _ _ _).1 h1, (get_ok_iff _ _ _).1 h2, (get_ok_iff _ _ _).1 h3,
    (get_ok_iff _ _ _).1 h4, (get_ok_iff _ _ _).1 h5, h6, h7, h8, h9, h.symm⟩

/-- C12. A blind transfer evaluated after `HARDFORK_627_TIME` whose resolved
`custom_fee.amount` is positive: when `do_evaluate` accepts, `op.fee.amount` is
at least `custom_fee.amount` and `op.fee.asset_id` is `custom_fee.asset_id`;
the member `custom_fee` is the fee lines 305-326 resolve. -/
theorem blind_fee_rule (P : chain_parameters) (d : database)
    (ev0 ev : blind_transfer2_evaluator) (op : blind_transfer2_operation)
    (heval : blind_transfer2_evaluator.do_evaluate P d ev0 op = .ok ev)
    (h627 : d.head_block_time > P.HARDFORK_627_TIME)
    (hpos : ev.custom_fee.amount > 0) :
    op.fee.amount ≥ ev.custom_fee.amount ∧
    op.fee.asset_id = ev.custom_fee.asset_id ∧
    ∃ from_account to_account settings,
      d.accounts op.from_ = some from_account ∧ d.accounts op.to_ = some to_account ∧
      d.settings 0 = some settings ∧
      ev.custom_fee =
        blind_transfer2_evaluator.resolve_custom_fee P d from_account to_account settings op := by
  obtain ⟨from_account, to_account, _, _, settings, cf, _, hfrom, hto, _, _, hsettings, _, _,
    hfee, _, hev⟩ := blind_do_evaluate_ok heval
  have hcf : ev.custom_fee = cf := by rw [hev]
  obtain ⟨_, hpost, _⟩ := blind_fee_checks_ok hfee
  obtain ⟨hres, _, _, hcheck⟩ := hpost h627
  rw [hcf] at hpos ⊢
  exact ⟨(hcheck hpos).1, (hcheck hpos).2, from_account, to_account, settings, hfrom, hto,
    hsettings, hres⟩

/-- The fee of a blind transfer on the example chain after every hardfork, the
default fee being 5 EDC: a transfer of 1000 units of asset 2 stating a fee of
5 EDC is accepted; stating 4 EDC it is thrown out with "Wrong fee amount",
stating 5 units of asset 2 with "Wrong fee asset". -/
theorem blind_fee_rule_witness :
    (∃ ev, blind_transfer2_evaluator.do_evaluate example_parameters
        (example_database_blind 700 1000 5 { amount := 5, asset_id := 1 })
        (blind_transfer2_evaluator.fresh false)
        (example_blind_transfer 1 2 { amount := 1000, asset_id := 2 }
          { amount := 5, asset_id := 1 }) = .ok ev ∧
      ev.custom_fee = { amount := 5, asset_id := 1 } ∧
      (5 : Int) ≥ ev.custom_fee.amount ∧ (1 : Nat) = ev.custom_fee.asset_id) ∧
    blind_transfer2_evaluator.do_evaluate example_parameters
        (example_database_blind 700 1000 5 { amount := 5, asset_id := 1 })
        (blind_transfer2_evaluator.fresh false)
        (example_blind_transfer 1 2 { amount := 1000, asset_id := 2 }
          { amount := 4, asset_id := 1 }) = .error .wrong_fee_amount ∧
    blind_transfer2_evaluator.do_evaluate example_parameters
        (example_database_blind 700 1000 5 { amount := 5, asset_id := 1 })
        (blind_transfer2_evaluator.fresh false)
        (example_blind_transfer 1 2 { amount := 1000, asset_id := 2 }
          { amount := 5, asset_id := 2 }) = .error .wrong_fee_asset := by
  refine ⟨⟨_, rfl, rfl, ?_⟩, rfl, rfl⟩
  have h := blind_fee_rule example_parameters
    (example_database_blind 700 1000 5 { amount := 5, asset_id := 1 })
    (blind_transfer2_evaluator.fresh false) _
    (example_blind_transfer 1 2 { amount := 1000, asset_id := 2 }
      { amount := 5, asset_id := 1 }) rfl (by decide) (by decide)
  exact ⟨h.1, h.2.1⟩

/-- C13. A blind transfer whose resolved `custom_fee` is stated in an asset
other than the transferred asset `X`: when `do_evaluate` accepts, at any
`head_block_time`, the sender's balance in `X` covers `op.amount.amount` and
the sender's balance in the fee asset covers `custom_fee.amount`, each on its
own. -/
theorem blind_cross_asset_fee (P : chain_parameters) (d : database)
    (ev0 ev : blind_transfer2_evaluator) (op : blind_transfer2_operation)
    (heval : blind_transfer2_evaluator.do_evaluate P d ev0 op = .ok ev)
    (hdiff : ev.custom_fee.asset_id ≠ op.amount.asset_id) :
    d.get_balance op.from_ op.amount.asset_id ≥ op.amount.amount ∧
    d.get_balance op.from_ ev.custom_fee.asset_id ≥ ev.custom_fee.amount := by
  obtain ⟨_, _, _, _, _, cf, _, _, _, _, _, _, _, _, hfee, _, hev⟩ := blind_do_evaluate_ok heval
  have hcf : ev.custom_fee = cf := by rw [hev]
  rw [hcf] at hdiff ⊢
  obtain ⟨_, hpost, hpre⟩ := blind_fee_checks_ok hfee
  by_cases ht : d.head_block_time > P.HARDFORK_627_TIME
  · exact (hpost ht).2.2.1 (fun h => hdiff h.symm)
  · exact (hpre (by omega)).2

/-- A blind transfer with a fee in another asset on the example chain: 1000
units of asset 2 out of a balance of 1000, the custom fee being 5 EDC.  With 4
EDC the transfer is thrown out with "Insufficient balance for fee"; with 5 EDC
and a stated fee of 5 EDC it is accepted. -/
theorem blind_cross_asset_fee_witness :
    blind_transfer2_evaluator.do_evaluate example_parameters
        (example_database_blind 700 1000 4 { amount := 5, asset_id := 1 })
        (blind_transfer2_evaluator.fresh false)
        (example_blind_transfer 1 2 { amount := 1000, asset_id := 2 }
          { amount := 5, asset_id := 1 }) = .error .insufficient_balance_for_fee ∧
    ∃ ev, blind_transfer2_evaluator.do_evaluate example_parameters
        (example_database_blind 700 1000 5 { amount := 5, asset_id := 1 })
        (blind_transfer2_evaluator.fresh false)
        (example_blind_transfer 1 2 { amount := 1000, asset_id := 2 }
          { amount := 5, asset_id := 1 }) = .ok ev ∧
      ev.custom_fee = { amount := 5, asset_id := 1 } ∧
      (example_database_blind 700 1000 5 { amount := 5, asset_id := 1 }).get_balance 1 2
        ≥ 1000 ∧
      (example_database_blind 700 1000 5 { amount := 5, asset_id := 1 }).get_balance 1
        ev.custom_fee.asset_id ≥ ev.custom_fee.amount := by
  refine ⟨rfl, _, rfl, rfl, ?_⟩
  exact blind_cross_asset_fee example_parameters
    (example_database_blind 700 1000 5 { amount := 5, asset_id := 1 })
    (blind_transfer2_evaluator.fresh false) _
    (example_blind_transfer 1 2 { amount := 1000, asset_id := 2 }
      { amount := 5, asset_id := 1 }) rfl (by decide)

/-- C14, amended. A blind transfer accepted by `do_evaluate` whose resolved
`custom_fee` is stated in the transferred asset: after `HARDFORK_627_TIME` the
sender's balance covers `op.amount.amount + custom_fee.amount`; up to
`HARDFORK_627_TIME` it covers `op.amount.amount` and it covers
`custom_fee.amount`, the sum not being compared. -/
theorem blind_same_asset_fee (P : chain_parameters) (d : database)
    (ev0 ev : blind_transfer2_evaluator) (op : blind_transfer2_operation)
    (heval : blind_transfer2_evaluator.do_evaluate P d ev0 op = .ok ev)
    (hsame : ev.custom_fee.asset_id = op.amount.asset_id) :
    (d.head_block_time > P.HARDFORK_627_TIME →
      d.get_balance op.from_ op.amount.asset_id ≥ op.amount.amount + ev.custom_fee.amount) ∧
    (d.head_block_time ≤ P.HARDFORK_627_TIME →
      d.get_balance op.from_ op.amount.asset_id ≥ op.amount.amount ∧
      d.get_balance op.from_ op.amount.asset_id ≥ ev.custom_fee.amount) := by
  obtain ⟨_, _, _, _, _, cf, _, _, _, _, _, _, _, _, hfee, _, hev⟩ := blind_do_evaluate_ok heval
  have hcf : ev.custom_fee = cf := by rw [hev]
  rw [hcf] at hsame ⊢
  obtain ⟨_, hpost, hpre⟩ := blind_fee_checks_ok hfee
  constructor
  · intro ht
    exact (hpost ht).2.1 hsame.symm
  · intro ht
    have := hpre ht
    rw [hsame] at this
    exact ⟨this.2.1, this.2.2⟩

/-- A blind transfer with a fee in the transferred asset on the example chain
after every hardfork: 1000 units of asset 2 with a custom fee of 5 units of
asset 2 are accepted out of a balance of 1005, which covers the sum. -/
theorem blind_same_asset_fee_witness :
    ∃ ev, blind_transfer2_evaluator.do_evaluate example_parameters
        (example_database_blind 700 1005 0 { amount := 5, asset_id := 2 })
        (blind_transfer2_evaluator.fresh false)
        (example_blind_transfer 1 2 { amount := 1000, asset_id := 2 }
          { amount := 5, asset_id := 2 }) = .ok ev ∧
      ev.custom_fee = { amount := 5, asset_id := 2 } ∧
      (example_database_blind 700 1005 0 { amount := 5, asset_id := 2 }).get_balance 1 2
        ≥ 1000 + ev.custom_fee.amount := by
  refine ⟨_, rfl, rfl, ?_⟩
  exact (blind_same_asset_fee example_parameters
    (example_database_blind 700 1005 0 { amount := 5, asset_id := 2 })
    (blind_transfer2_evaluator.fresh false) _
    (example_blind_transfer 1 2 { amount := 1000, asset_id := 2 }
      { amount := 5, asset_id := 2 }) rfl rfl).1 (by decide)

/-- C14 as stated fails before `HARDFORK_627_TIME`: on the example chain at
time 600, with a default fee of 5 units of asset 2, a blind transfer of 1000
units of asset 2 out of a balance of 1000 is accepted, the custom fee is 5
units of the same asset, and the balance is below 1000 + 5; `do_apply` then
throws on the debit of the fee. -/
theorem blind_same_asset_fee_counterexample :
    ∃ ev, blind_transfer2_evaluator.do_evaluate example_parameters
        (example_database_blind 600 1000 0 { amount := 5, asset_id := 2 })
        (blind_transfer2_evaluator.fresh false)
        (example_blind_transfer 1 2 { amount := 1000, asset_id := 2 }
          { amount := 0, asset_id := 2 }) = .ok ev ∧
      ev.custom_fee = { amount := 5, asset_id := 2 } ∧
      (example_database_blind 600 1000 0 { amount := 5, asset_id := 2 }).get_balance 1 2
        < 1000 + ev.custom_fee.amount ∧
      blind_transfer2_evaluator.do_apply example_parameters
        (example_database_blind 600 1000 0 { amount := 5, asset_id := 2 }) ev
        (example_blind_transfer 1 2 { amount := 1000, asset_id := 2 }
          { amount := 0, asset_id := 2 }) = .error .insufficient_balance :=
  ⟨_, rfl, rfl, by decide, rfl⟩

/-- The fee block of the blind `do_apply` creates no record and leaves the
clock and the accounts alone; after `HARDFORK_627_TIME` it does nothing. -/
theorem blind_apply_fee_frame {P : chain_parameters} {d d1 : database}
    {ev : blind_transfer2_evaluator} {o : blind_transfer2_operation}
    (h : blind_transfer2_evaluator.apply_fee P d ev o = .ok d1) :
    d1.blind_transfers2 = d.blind_transfers2 ∧ d1.head_block_time = d.head_block_time ∧
    d1.accounts = d.accounts ∧
    (d.head_block_time ≥ P.HARDFORK_627_TIME → d1 = d) := by
  unfold blind_transfer2_evaluator.apply_fee at h
  by_cases ht : d.head_block_time < P.HARDFORK_627_TIME
  · rw [if_pos ht] at h
    obtain ⟨d0, h0, h⟩ := (bind_ok_iff _ _ _).1 h
    have hd0 : d0.blind_transfers2 = d.blind_transfers2 ∧
        d0.head_block_time = d.head_block_time ∧ d0.accounts = d.accounts := by
      split at h0
      · obtain ⟨e0, _⟩ := adjust_balance_ok h0
        rw [e0]
        exact ⟨rfl, rfl, rfl⟩
      · simp only [pure, Except.pure, Except.ok.injEq] at h0
        rw [← h0]
        exact ⟨rfl, rfl, rfl⟩
    refine ⟨?_, ?_, ?_, fun hge => absurd ht (by omega)⟩
    all_goals
      cases hp : ev.fee_dyn_data_ptr with
      | none =>
        rw [hp] at h
        simp only [pure, Except.pure, Except.ok.injEq] at h
        rw [← h]
        first | exact hd0.1 | exact hd0.2.1 | exact hd0.2.2
      | some i =>
        rw [hp] at h
        simp only at h
        obtain ⟨data, _, h⟩ := (bind_ok_iff _ _ _).1 h
        simp only [pure, Except.pure, Except.ok.injEq] at h
        rw [← h]
        first | exact hd0.1 | exact hd0.2.1 | exact hd0.2.2
  · rw [if_neg ht] at h
    simp only [pure, Except.pure, Except.ok.injEq] at h
    rw [← h]
    exact ⟨rfl, rfl, rfl, fun _ => rfl⟩

/-- The counter block of `do_apply` creates no record and keeps every account
that exists. -/
theorem apply_counters_records {P : chain_parameters} {d d1 : database} {b : Bool}
    {from_ : account_id_type} {amount : asset} (h : apply_counters P d b from_ amount = .ok d1) :
    d1.blind_transfers2 = d.blind_transfers2 ∧
    ∀ k acc, d.accounts k = some acc → ∃ acc1, d1.accounts k = some acc1 := by
  unfold apply_counters at h
  split at h
  · obtain ⟨obj, _, h⟩ := (bind_ok_iff _ _ _).1 h
    simp only [pure, Except.pure, Except.ok.injEq] at h
    rw [← h]
    refine ⟨rfl, ?_⟩
    intro k acc hk
    simp only [update]
    split
    · exact ⟨_, rfl⟩
    · exact ⟨acc, hk⟩
  · simp only [pure, Except.pure, Except.ok.injEq] at h
    rw [← h]
    exact ⟨rfl, fun k acc hk => ⟨acc, hk⟩⟩

/-- The burning branch of `do_apply` creates no record and leaves the clock
alone. -/
theorem apply_burning_records {P : chain_parameters} {d d1 : database} {dp fp : Option Nat}
    {amount : asset} (h : apply_burning P d dp fp amount = .ok d1) :
    d1.blind_transfers2 = d.blind_transfers2 ∧ d1.head_block_time = d.head_block_time := by
  unfold apply_burning at h
  cases dp with
  | none =>
    simp only [Except.ok.injEq] at h
    rw [← h]
    exact ⟨rfl, rfl⟩
  | some i =>
    simp only at h
    obtain ⟨data, _, h⟩ := (bind_ok_iff _ _ _).1 h
    split at h
    · obtain ⟨⟨j, acc⟩, _, h⟩ := (bind_ok_iff _ _ _).1 h
      simp only [pure, Except.pure, Except.ok.injEq] at h
      rw [← h]
      exact ⟨rfl, rfl⟩
    · simp only [pure, Except.pure, Except.ok.injEq] at h
      rw [← h]
      exact ⟨rfl, rfl⟩

/-- The steps of a returning `blind_transfer2_evaluator::do_apply`. -/
theorem blind_do_apply_ok {P : chain_parameters} {d d5 : database}
    {ev : blind_transfer2_evaluator} {o : blind_transfer2_operation} {r : asset}
    (h : blind_transfer2_evaluator.do_apply P d ev o = .ok (d5, r)) :
    ∃ i to_account d1 d2 d3 d4,
      ev.to_account_ptr = some i ∧ d.accounts i = some to_account ∧
      d.adjust_balance o.from_ o.amount.neg = .ok d1 ∧
      blind_transfer2_evaluator.apply_fee P d1 ev o = .ok d2 ∧
      apply_counters P d2 to_account.burning_mode_enabled o.from_ o.amount = .ok d3 ∧
      (if to_account.burning_mode_enabled = false then d3.adjust_balance o.to_ o.amount
        else apply_burning P d3 ev.asset_dyn_data_ptr ev.from_account_ptr o.amount) = .ok d4 ∧
      d5 = { d4 with blind_transfers2 :=
              d4.blind_transfers2 ++ [blind_transfer2_evaluator.new_object d4 ev o] } ∧
      r = ev.custom_fee := by
  unfold blind_transfer2_evaluator.do_apply at h
  obtain ⟨⟨i, to_account⟩, h0, h⟩ := (bind_ok_iff _ _ _).1 h
  obtain ⟨d1, h1, h⟩ := (bind_ok_iff _ _ _).1 h
  obtain ⟨d2, h2, h⟩ := (bind_ok_iff _ _ _).1 h
  obtain ⟨d3, h3, h⟩ := (bind_ok_iff _ _ _).1 h
  obtain ⟨d4, h4, h⟩ := (bind_ok_iff _ _ _).1 h
  obtain ⟨hp, hacc⟩ := (deref_ok_iff _ _ _ _).1 h0
  simp only [pure, Except.pure, Except.ok.injEq, Prod.mk.injEq] at h
  exact ⟨i, to_account, d1, d2, d3, d4, hp, hacc, h1, h2, h3, h4, h.1.symm, h.2.symm⟩

/-- C15. For a blind transfer `o` accepted by `do_evaluate`, a returning
`do_apply` has appended exactly one record to the blind-transfer records, with
`from`, `to`, `amount` and `memo` of `o`, the head block time as `datetime` and
`custom_fee.amount` as `fee`, and returns the `custom_fee` resolved by
`do_evaluate`.  After `HARDFORK_627_TIME`, for a positive amount and a
non-negative custom fee, `do_apply` does return when the sums it computes are
int64: the sender's amount counter and `edc_burnt` plus the amount, the
credited balance, the supply less the amount and `fee_burnt` plus the amount
(lines 434, 457, 442, 449, 450; outside that range the arithmetic throws, and
the embedding, which computes in `Int`, is not the code). -/
theorem blind_apply_record (P : chain_parameters) (d : database)
    (ev0 ev : blind_transfer2_evaluator) (o : blind_transfer2_operation)
    (heval : blind_transfer2_evaluator.do_evaluate P d ev0 o = .ok ev) :
    (∀ d5 r, blind_transfer2_evaluator.do_apply P d ev o = .ok (d5, r) →
      d5.blind_transfers2 = d.blind_transfers2 ++
        [{ from_ := o.from_, to_ := o.to_, amount := o.amount,
           datetime := d.head_block_time, memo := o.memo, fee := ev.custom_fee.amount }] ∧
      r = ev.custom_fee) ∧
    (d.head_block_time > P.HARDFORK_627_TIME → o.amount.amount > 0 →
      0 ≤ ev.custom_fee.amount →
      (∀ from_account asset_type dyn, d.accounts o.from_ = some from_account →
        d.assets o.amount.asset_id = some asset_type →
        d.asset_dynamic_data asset_type.dynamic_asset_data_id = some dyn →
        in_int64 (from_account.edc_transfers_amount_counter + o.amount.amount) ∧
        in_int64 (from_account.edc_burnt + o.amount.amount) ∧
        in_int64 (d.get_balance o.to_ o.amount.asset_id + o.amount.amount) ∧
        in_int64 (dyn.current_supply - o.amount.amount) ∧
        in_int64 (dyn.fee_burnt + o.amount.amount)) →
      ∃ d5 r, blind_transfer2_evaluator.do_apply P d ev o = .ok (d5, r)) := by
  constructor
  · intro d5 r happly
    obtain ⟨i, to_account, d1, d2, d3, d4, _, _, h1, h2, h3, h4, hd5, hr⟩ :=
      blind_do_apply_ok happly
    obtain ⟨e1, _⟩ := adjust_balance_ok h1
    have hr1 : d1.blind_transfers2 = d.blind_transfers2 := by rw [e1]
    have ht1 : d1.head_block_time = d.head_block_time := by rw [e1]
    obtain ⟨hr2, ht2, _, _⟩ := blind_apply_fee_frame h2
    obtain ⟨_, _, ht3, _⟩ := apply_counters_frame h3
    obtain ⟨hr3, _⟩ := apply_counters_records h3
    have h45 : d4.blind_transfers2 = d3.blind_transfers2 ∧
        d4.head_block_time = d3.head_block_time := by
      split at h4
      · obtain ⟨e4, _⟩ := adjust_balance_ok h4
        rw [e4]
        exact ⟨rfl, rfl⟩
      · exact apply_burning_records h4
    refine ⟨?_, hr⟩
    rw [hd5]
    simp only [blind_transfer2_evaluator.new_object, h45.1, h45.2, hr3, ht3, hr2, ht2, hr1, ht1]
  · intro h627 hpos hfee _
    obtain ⟨from_account, to_account, asset_type, dyn, _, cf, _, hfrom, hto, _, hdyn, _, _, _,
      hchecks, _, hev⟩ := blind_do_evaluate_ok heval
    have hcf : ev.custom_fee = cf := by rw [hev]
    obtain ⟨_, hpost, _⟩ := blind_fee_checks_ok hchecks
    obtain ⟨_, hsame, hdiff, _⟩ := hpost h627
    have hcover : o.amount.amount ≤ d.get_balance o.from_ o.amount.asset_id := by
      by_cases hs : o.amount.asset_id = cf.asset_id
      · have := hsame hs
        rw [hcf] at hfee
        omega
      · exact (hdiff hs).1
    have hderef : deref d.accounts ev.to_account_ptr = .ok (o.to_, to_account) := by
      rw [hev]
      exact (deref_ok_iff _ _ _ _).2 ⟨rfl, hto⟩
    have h1 : ∃ d1, d.adjust_balance o.from_ o.amount.neg = .ok d1 := by
      unfold database.adjust_balance
      rw [if_neg]
      · exact ⟨_, rfl⟩
      · simp only [asset.neg, database.get_balance] at hcover ⊢
        omega
    obtain ⟨d1, h1⟩ := h1
    obtain ⟨e1, _⟩ := adjust_balance_ok h1
    have ha1 : d1.accounts = d.accounts := by rw [e1]
    have hd1 : d1.asset_dynamic_data = d.asset_dynamic_data := by rw [e1]
    have ht1 : d1.head_block_time = d.head_block_time := by rw [e1]
    have h2 : blind_transfer2_evaluator.apply_fee P d1 ev o = .ok d1 := by
      unfold blind_transfer2_evaluator.apply_fee
      rw [if_neg (by omega)]
      rfl
    obtain ⟨d3, h3⟩ := apply_counters_returns P d1 to_account.burning_mode_enabled o.from_
      o.amount from_account (by rw [ha1]; exact hfrom)
    obtain ⟨_, hd3, _, _⟩ := apply_counters_frame h3
    obtain ⟨_, hkeep⟩ := apply_counters_records h3
    obtain ⟨from3, hfrom3⟩ := hkeep o.from_ from_account (by rw [ha1]; exact hfrom)
    have h4 : ∃ d4,
        (if to_account.burning_mode_enabled = false then d3.adjust_balance o.to_ o.amount
          else apply_burning P d3 ev.asset_dyn_data_ptr ev.from_account_ptr o.amount)
          = .ok d4 := by
      by_cases hnb : to_account.burning_mode_enabled = false
      · rw [if_pos hnb]
        unfold database.adjust_balance
        rw [if_neg]
        · exact ⟨_, rfl⟩
        · omega
      · rw [if_neg hnb, hev]
        exact apply_burning_returns P d3 asset_type.dynamic_asset_data_id o.from_ o.amount dyn
          from3 (by rw [hd3, hd1]; exact hdyn) hfrom3
    obtain ⟨d4, h4⟩ := h4
    refine ⟨{ d4 with blind_transfers2 :=
      d4.blind_transfers2 ++ [blind_transfer2_evaluator.new_object d4 ev o] },
      ev.custom_fee, ?_⟩
    unfold blind_transfer2_evaluator.do_apply
    simp only [hderef, h1, h2, h3, bind, Except.bind]
    rw [h4]
    rfl

/-- A blind transfer applied on the example chain after every hardfork: 1000
units of asset 2 from account 1 to account 2 with a custom fee of 5 EDC.  The
ledger had no record; it now has the one record of this transfer, dated 700
with fee 5, and `do_apply` returns 5 EDC. -/
theorem blind_apply_record_witness :
    ∃ ev d5 r,
      blind_transfer2_evaluator.do_evaluate example_parameters
        (example_database_blind 700 1000 5 { amount := 5, asset_id := 1 })
        (blind_transfer2_evaluator.fresh false)
        (example_blind_transfer 1 2 { amount := 1000, asset_id := 2 }
          { amount := 5, asset_id := 1 }) = .ok ev ∧
      blind_transfer2_evaluator.do_apply example_parameters
        (example_database_blind 700 1000 5 { amount := 5, asset_id := 1 }) ev
        (example_blind_transfer 1 2 { amount := 1000, asset_id := 2 }
          { amount := 5, asset_id := 1 }) = .ok (d5, r) ∧
      d5.blind_transfers2 = [] ++
        [{ from_ := 1, to_ := 2, amount := { amount := 1000, asset_id := 2 },
           datetime := 700, memo := "memo", fee := 5 }] ∧
      r = { amount := 5, asset_id := 1 } ∧
      ∃ d6 r6, blind_transfer2_evaluator.do_apply example_parameters
        (example_database_blind 700 1000 5 { amount := 5, asset_id := 1 }) ev
        (example_blind_transfer 1 2 { amount := 1000, asset_id := 2 }
          { amount := 5, asset_id := 1 }) = .ok (d6, r6) := by
  refine ⟨_, _, _, rfl, rfl, ?_⟩
  have h := blind_apply_record example_parameters
    (example_database_blind 700 1000 5 { amount := 5, asset_id := 1 })
    (blind_transfer2_evaluator.fresh false) _
    (example_blind_transfer 1 2 { amount := 1000, asset_id := 2 }
      { amount := 5, asset_id := 1 }) rfl
  refine ⟨(h.1 _ _ rfl).1, (h.1 _ _ rfl).2, h.2 (by decide) (by decide) (by decide) ?_⟩
  intro from_account asset_type dyn hfrom _ hdyn
  have e1 : from_account = example_account := (Option.some.inj hfrom).symm
  have e2 := example_dynamic_data 700 0 _ dyn hdyn
  rw [e1, e2]
  exact ⟨⟨by decide, by decide⟩, ⟨by decide, by decide⟩, ⟨by decide, by decide⟩,
    ⟨by decide, by decide⟩, ⟨by decide, by decide⟩⟩

/-! ## The blind-transfer settings -/

/-- C16. `update_blind_transfer2_settings_evaluator::do_evaluate` throws
exactly when the ledger has no settings object under id 0.  When it has one,
`do_apply` returns the ledger in which that object carries `op.blind_fee` as
`blind_transfer_default_fee`; every other field of the settings and every
other object of the ledger is as before. -/
theorem update_blind_transfer2_settings_spec (d : database) (ev : generic_evaluator)
    (o : update_blind_transfer2_settings_operation) :
    ((∃ e, update_blind_transfer2_settings_evaluator.do_evaluate d ev o = .error e) ↔
      d.settings 0 = none) ∧
    (∀ s, d.settings 0 = some s →
      update_blind_transfer2_settings_evaluator.do_evaluate d ev o = .ok ev ∧
      update_blind_transfer2_settings_evaluator.do_apply d o =
        .ok { d with settings :=
                update d.settings 0 { s with blind_transfer_default_fee := o.blind_fee } }) := by
  constructor
  · unfold update_blind_transfer2_settings_evaluator.do_evaluate
    cases hs : d.settings 0 with
    | none => simp
    | some s => simp
  · intro s hs
    constructor
    · unfold update_blind_transfer2_settings_evaluator.do_evaluate
      rw [hs]
    · unfold update_blind_transfer2_settings_evaluator.do_apply
      simp only [get, hs, bind, Except.bind, pure, Except.pure]

/-- The settings update on the example chain: the default blind-transfer fee
becomes 7 EDC, the daily limit and the fee lists of the settings stay, and the
accounts are the same; on a ledger without settings `do_evaluate` throws. -/
theorem update_blind_transfer2_settings_witness :
    (∃ d1 s1,
      update_blind_transfer2_settings_evaluator.do_apply (example_database 700 10)
        { fee := { amount := 0, asset_id := 0 }, blind_fee := { amount := 7, asset_id := 1 } }
        = .ok d1 ∧
      d1.settings 0 = some s1 ∧
      s1.blind_transfer_default_fee = { amount := 7, asset_id := 1 } ∧
      s1.edc_transfers_daily_limit = example_settings.edc_transfers_daily_limit ∧
      s1.transfer_fees = example_settings.transfer_fees ∧
      d1.accounts = (example_database 700 10).accounts) ∧
    (∃ e, update_blind_transfer2_settings_evaluator.do_evaluate
      { example_database 700 10 with settings := fun _ => none } (generic_evaluator.fresh false)
      { fee := { amount := 0, asset_id := 0 }, blind_fee := { amount := 7, asset_id := 1 } }
      = .error e) := by
  constructor
  · exact ⟨_, _, ((update_blind_transfer2_settings_spec (example_database 700 10)
      (generic_evaluator.fresh false)
      { fee := { amount := 0, asset_id := 0 }, blind_fee := { amount := 7, asset_id := 1 } }).2
      example_settings rfl).2, rfl, rfl, rfl, rfl, rfl⟩
  · exact (update_blind_transfer2_settings_spec
      { example_database 700 10 with settings := fun _ => none } (generic_evaluator.fresh false)
      { fee := { amount := 0, asset_id := 0 },
        blind_fee := { amount := 7, asset_id := 1 } }).1.2 rfl

/-! ## Fee preparation and conversion -/

/-- What a returning `prepare_fee` has established, and the members it
leaves. -/
theorem prepare_fee_ok {P : chain_parameters} {d : database} {g g1 : generic_evaluator}
    {account_id : account_id_type} {fee : asset}
    (h : g.prepare_fee P d account_id fee = .ok g1) :
    fee.amount ≥ 0 ∧
    ∃ payer stats fee_asset dyn core_fee_paid,
      d.accounts account_id = some payer ∧
      d.account_statistics payer.statistics = some stats ∧
      d.assets fee.asset_id = some fee_asset ∧
      d.asset_dynamic_data fee_asset.dynamic_asset_data_id = some dyn ∧
      (d.head_block_time > P.HARDFORK_419_TIME →
        P.is_authorized_asset d account_id fee.asset_id = true) ∧
      P.not_restricted_account d account_id .payer = true ∧
      payer.verification_is_required = false ∧
      (fee.asset_id = P.CORE_ASSET → core_fee_paid = fee.amount) ∧
      (fee.asset_id ≠ P.CORE_ASSET →
        ∃ fee_from_pool, P.asset_mul_price fee fee_asset.core_exchange_rate = .ok fee_from_pool ∧
          fee_from_pool.asset_id = P.CORE_ASSET ∧ core_fee_paid = fee_from_pool.amount) ∧
      g1 = { g with
        fee_from_account := fee, core_fee_paid := core_fee_paid,
        fee_paying_account := some account_id,
        fee_paying_account_statistics := some payer.statistics,
        fee_asset := some fee.asset_id,
        fee_asset_dyn_data := some fee_asset.dynamic_asset_data_id } := by
  unfold generic_evaluator.prepare_fee at h
  obtain ⟨_, h1, h⟩ := (bind_ok_iff _ _ _).1 h
  obtain ⟨payer, h2, h⟩ := (bind_ok_iff _ _ _).1 h
  obtain ⟨stats, h3, h⟩ := (bind_ok_iff _ _ _).1 h
  obtain ⟨fee_asset, h4, h⟩ := (bind_ok_iff _ _ _).1 h
  obtain ⟨dyn, h5, h⟩ := (bind_ok_iff _ _ _).1 h
  obtain ⟨_, h6, h⟩ := (bind_ok_iff _ _ _).1 h
  obtain ⟨_, h7, h⟩ := (bind_ok_iff _ _ _).1 h
  obtain ⟨_, h8, h⟩ := (bind_ok_iff _ _ _).1 h
  obtain ⟨core_fee_paid, h9, h⟩ := (bind_ok_iff _ _ _).1 h
  simp only [pure, Except.pure, Except.ok.injEq] at h
  refine ⟨of_decide_eq_true ((fc_assert_ok_iff _ _ _).1 h1), payer, stats, fee_asset, dyn,
    core_fee_paid, (get_ok_iff _ _ _).1 h2, (get_ok_iff _ _ _).1 h3, (get_ok_iff _ _ _).1 h4,
    (get_ok_iff _ _ _).1 h5, ?_, (fc_assert_ok_iff _ _ _).1 h7, ?_, ?_, ?_, h.symm⟩
  · intro ht
    rw [if_pos ht] at h6
    exact (fc_assert_ok_iff _ _ _).1 h6
  · have := (fc_assert_ok_iff _ _ _).1 h8
    cases hv : payer.verification_is_required
    · rfl
    · rw [hv] at this
      exact absurd this (by decide)
  · intro hcore
    rw [if_pos hcore] at h9
    simp only [pure, Except.pure, Except.ok.injEq] at h9
    exact h9.symm
  · intro hcore
    rw [if_neg hcore] at h9
    obtain ⟨fee_from_pool, h91, h9⟩ := (bind_ok_iff _ _ _).1 h9
    obtain ⟨_, h92, h9⟩ := (bind_ok_iff _ _ _).1 h9
    simp only [pure, Except.pure, Except.ok.injEq] at h9
    exact ⟨fee_from_pool, h91, of_decide_eq_true ((fc_assert_ok_iff _ _ _).1 h92), h9.symm⟩

/-- A run that does not return has thrown. -/
theorem error_of_not_ok {α : Type} (x : Except error α) (hnever : ∀ a, ¬ x = .ok a) :
    ∃ e, x = .error e :=
  match x, hnever with
  | .error e, _ => ⟨e, rfl⟩
  | .ok a, hno => (hno a rfl).elim

/-- C17. After a returning `prepare_fee( account, fee )`: when the fee is
stated in `CORE_ASSET`, `core_fee_paid` is `fee.amount`; otherwise the product
of the fee and the fee asset's `options.core_exchange_rate` is stated in
`CORE_ASSET` and `core_fee_paid` is its amount.  When that product is stated in
another asset, `prepare_fee` throws. -/
theorem prepare_fee_core_fee_paid (P : chain_parameters) (d : database)
    (g : generic_evaluator) (account_id : account_id_type) (fee : asset) :
    (∀ g1, g.prepare_fee P d account_id fee = .ok g1 →
      (fee.asset_id = P.CORE_ASSET → g1.core_fee_paid = fee.amount) ∧
      (fee.asset_id ≠ P.CORE_ASSET →
        ∃ fee_asset fee_from_pool,
          d.assets fee.asset_id = some fee_asset ∧
          P.asset_mul_price fee fee_asset.core_exchange_rate = .ok fee_from_pool ∧
          fee_from_pool.asset_id = P.CORE_ASSET ∧
          g1.core_fee_paid = fee_from_pool.amount)) ∧
    (fee.asset_id ≠ P.CORE_ASSET →
      ∀ fee_asset fee_from_pool,
        d.assets fee.asset_id = some fee_asset →
        P.asset_mul_price fee fee_asset.core_exchange_rate = .ok fee_from_pool →
        fee_from_pool.asset_id ≠ P.CORE_ASSET →
        ∃ e, g.prepare_fee P d account_id fee = .error e) := by
  constructor
  · intro g1 h
    obtain ⟨_, _, _, fee_asset, _, cfp, _, _, hasset, _, _, _, _, hcore, hother, hg1⟩ :=
      prepare_fee_ok h
    have hpaid : g1.core_fee_paid = cfp := by rw [hg1]
    constructor
    · intro hc
      rw [hpaid]
      exact hcore hc
    · intro hc
      obtain ⟨fee_from_pool, hmul, hid, hamount⟩ := hother hc
      exact ⟨fee_asset, fee_from_pool, hasset, hmul, hid, by rw [hpaid]; exact hamount⟩
  · intro hc fee_asset fee_from_pool hasset hmul hid
    apply error_of_not_ok
    intro g1 h
    obtain ⟨_, _, _, fee_asset1, _, _, _, _, hasset1, _, _, _, _, _, hother, _⟩ :=
      prepare_fee_ok h
    rw [hasset] at hasset1
    have e1 : fee_asset1 = fee_asset := (Option.some.inj hasset1).symm
    subst e1
    obtain ⟨fee_from_pool1, hmul1, hid1, _⟩ := hother hc
    rw [hmul] at hmul1
    have e2 : fee_from_pool1 = fee_from_pool := (Except.ok.inj hmul1).symm
    subst e2
    exact hid hid1

/-- The fee preparation on the example chain, where every asset exchanges one
to one for the core asset: a fee of 7 units of the core asset gives
`core_fee_paid = 7`, a fee of 100 EDC gives `core_fee_paid = 100`. -/
theorem prepare_fee_core_fee_paid_witness :
    (∃ g1, (generic_evaluator.fresh false).prepare_fee example_parameters
        (example_database 700 1000) 1 { amount := 7, asset_id := 0 } = .ok g1 ∧
      g1.core_fee_paid = 7) ∧
    (∃ g1, (generic_evaluator.fresh false).prepare_fee example_parameters
        (example_database 700 1000) 1 { amount := 100, asset_id := 1 } = .ok g1 ∧
      ∃ fee_asset fee_from_pool,
        (example_database 700 1000).assets 1 = some fee_asset ∧
        example_parameters.asset_mul_price { amount := 100, asset_id := 1 }
          fee_asset.core_exchange_rate = .ok fee_from_pool ∧
        fee_from_pool.asset_id = 0 ∧ g1.core_fee_paid = fee_from_pool.amount) := by
  constructor
  · exact ⟨_, rfl, ((prepare_fee_core_fee_paid example_parameters (example_database 700 1000)
      (generic_evaluator.fresh false) 1 { amount := 7, asset_id := 0 }).1 _ rfl).1 rfl⟩
  · exact ⟨_, rfl, ((prepare_fee_core_fee_paid example_parameters (example_database 700 1000)
      (generic_evaluator.fresh false) 1 { amount := 100, asset_id := 1 }).1 _ rfl).2
      (by decide)⟩

/-- C18. `prepare_fee( account, fee )` throws whenever `fee.amount < 0`,
whenever the payer is payer-restricted, whenever the payer's
`verification_is_required` is set and, after `HARDFORK_419_TIME`, whenever the
payer is not authorized for the fee asset.  Up to `HARDFORK_419_TIME` the
outcome does not depend on the authorization query at all. -/
theorem prepare_fee_rejections (P : chain_parameters) (d : database)
    (g : generic_evaluator) (account_id : account_id_type) (fee : asset) :
    (fee.amount < 0 → ∃ e, g.prepare_fee P d account_id fee = .error e) ∧
    (P.not_restricted_account d account_id .payer = false →
      ∃ e, g.prepare_fee P d account_id fee = .error e) ∧
    (∀ payer, d.accounts account_id = some payer → payer.verification_is_required = true →
      ∃ e, g.prepare_fee P d account_id fee = .error e) ∧
    (d.head_block_time > P.HARDFORK_419_TIME →
      P.is_authorized_asset d account_id fee.asset_id = false →
      ∃ e, g.prepare_fee P d account_id fee = .error e) ∧
    (d.head_block_time ≤ P.HARDFORK_419_TIME →
      ∀ f, g.prepare_fee { P with is_authorized_asset := f } d account_id fee =
        g.prepare_fee P d account_id fee) := by
  refine ⟨?_, ?_, ?_, ?_, ?_⟩
  · intro hneg
    apply error_of_not_ok
    intro g1 h
    have := (prepare_fee_ok h).1
    omega
  · intro hr
    apply error_of_not_ok
    intro g1 h
    obtain ⟨_, _, _, _, _, _, _, _, _, _, _, hnr, _⟩ := prepare_fee_ok h
    rw [hr] at hnr
    exact absurd hnr (by decide)
  · intro payer hpayer hv
    apply error_of_not_ok
    intro g1 h
    obtain ⟨_, payer1, _, _, _, _, hpayer1, _, _, _, _, _, hv1, _⟩ := prepare_fee_ok h
    rw [hpayer] at hpayer1
    have e1 : payer1 = payer := (Option.some.inj hpayer1).symm
    subst e1
    rw [hv] at hv1
    exact absurd hv1 (by decide)
  · intro ht ha
    apply error_of_not_ok
    intro g1 h
    obtain ⟨_, _, _, _, _, _, _, _, _, _, hauth, _⟩ := prepare_fee_ok h
    have := hauth ht
    rw [ha] at this
    exact absurd this (by decide)
  · intro ht f
    have hnot : ¬ d.head_block_time > P.HARDFORK_419_TIME := by omega
    unfold generic_evaluator.prepare_fee
    simp only [if_neg hnot]

/-- The rejections of `prepare_fee` on the example chain.  After
`HARDFORK_419_TIME` a negative fee is thrown out, and so is a fee in an asset
the payer is not authorized for; at time 400, before the hardfork, the same
unauthorized payer is let through. -/
theorem prepare_fee_rejections_witness :
    (∃ e, (generic_evaluator.fresh false).prepare_fee example_parameters
      (example_database 700 1000) 1 { amount := -1, asset_id := 1 } = .error e) ∧
    (∃ e, (generic_evaluator.fresh false).prepare_fee example_parameters_unauthorized
      (example_database 700 1000) 1 { amount := 5, asset_id := 1 } = .error e) ∧
    (∃ g1, (generic_evaluator.fresh false).prepare_fee example_parameters_unauthorized
      (example_database 400 1000) 1 { amount := 5, asset_id := 1 } = .ok g1) ∧
    (generic_evaluator.fresh false).prepare_fee
      { example_parameters_unauthorized with is_authorized_asset := fun _ _ _ => true }
      (example_database 400 1000) 1 { amount := 5, asset_id := 1 } =
      (generic_evaluator.fresh false).prepare_fee example_parameters_unauthorized
        (example_database 400 1000) 1 { amount := 5, asset_id := 1 } := by
  refine ⟨?_, ?_, ⟨_, rfl⟩, ?_⟩
  · exact (prepare_fee_rejections example_parameters (example_database 700 1000)
      (generic_evaluator.fresh false) 1 { amount := -1, asset_id := 1 }).1 (by decide)
  · exact (prepare_fee_rejections example_parameters_unauthorized (example_database 700 1000)
      (generic_evaluator.fresh false) 1 { amount := 5, asset_id := 1 }).2.2.2.1
      (by decide) rfl
  · exact (prepare_fee_rejections example_parameters_unauthorized (example_database 400 1000)
      (generic_evaluator.fresh false) 1 { amount := 5, asset_id := 1 }).2.2.2.2
      (by decide) (fun _ _ _ => true)

/-- The members `prepare_fee` leaves point at the fee asset and at its dynamic
data. -/
theorem prepare_fee_pointers {P : chain_parameters} {d : database} {g g1 : generic_evaluator}
    {account_id : account_id_type} {fee : asset}
    (h : g.prepare_fee P d account_id fee = .ok g1) :
    g1.skip_fee = g.skip_fee ∧ g1.fee_from_account = fee ∧
    g1.fee_asset = some g1.fee_from_account.asset_id ∧
    ∃ fee_asset dyn,
      d.assets g1.fee_from_account.asset_id = some fee_asset ∧
      g1.fee_asset_dyn_data = some fee_asset.dynamic_asset_data_id ∧
      d.asset_dynamic_data fee_asset.dynamic_asset_data_id = some dyn := by
  obtain ⟨_, _, _, fee_asset, dyn, _, _, _, hasset, hdyn, _, _, _, _, _, hg1⟩ := prepare_fee_ok h
  rw [hg1]
  exact ⟨rfl, rfl, rfl, fee_asset, dyn, hasset, rfl, hdyn⟩

set_option linter.unusedVariables false in
/-- C19. `convert_fee` returns the ledger of the reference: unchanged when the
fee is skipped or stated in `CORE_ASSET`; otherwise, after
`HARDFORK_623_TIME`, with `current_supply` of the fee asset lowered and its
`fee_burnt` raised by `fee.amount`, and the witnesses accumulator raised by
the full `fee.amount` exactly when the fee asset is `EDC_ASSET` and
`settings.witness_fees_percent > 0`; up to `HARDFORK_623_TIME`, with
`accumulated_fees` raised by `fee.amount` and `fee_pool` lowered by
`core_fee_paid`.  Nothing else changes.  The evaluator's members are those
`prepare_fee` leaves, the two singletons exist, and the sums and differences
that lines 119, 120, 129, 137 and 138 compute are int64 (`hrange`; outside that
range the arithmetic throws, and the embedding, which computes in `Int`, is
not the code). -/
theorem convert_fee_matches_reference (P : chain_parameters) (d : database)
    (g : generic_evaluator) (fee_asset : asset_object) (dyn : asset_dynamic_data_object)
    (settings : settings_object) (witnesses_info : witnesses_info_object)
    (hfee_asset : g.fee_asset = some g.fee_from_account.asset_id)
    (hasset : d.assets g.fee_from_account.asset_id = some fee_asset)
    (hptr : g.fee_asset_dyn_data = some fee_asset.dynamic_asset_data_id)
    (hdyn : d.asset_dynamic_data fee_asset.dynamic_asset_data_id = some dyn)
    (hsettings : d.settings 0 = some settings)
    (hwitnesses : d.witnesses_info 0 = some witnesses_info)
    (hrange : in_int64 (dyn.current_supply - g.fee_from_account.amount) ∧
      in_int64 (dyn.fee_burnt + g.fee_from_account.amount) ∧
      in_int64 (witnesses_info.witness_fees_reward_edc_amount + g.fee_from_account.amount) ∧
      in_int64 (dyn.accumulated_fees + g.fee_from_account.amount) ∧
      in_int64 (dyn.fee_pool - g.core_fee_paid)) :
    g.convert_fee P d =
      .ok (convert_fee_reference P g.skip_fee g.fee_from_account g.core_fee_paid fee_asset dyn
        settings witnesses_info d) := by
  unfold generic_evaluator.convert_fee convert_fee_reference
  cases hskip : g.skip_fee with
  | true => simp [pure, Except.pure]
  | false =>
    simp only [if_true, deref, hfee_asset, hasset, bind, Except.bind, Bool.false_eq_true,
      false_or]
    by_cases hcore : g.fee_from_account.asset_id = P.CORE_ASSET
    · simp [hcore, pure, Except.pure]
    · simp only [ne_eq, hcore, not_false_eq_true, if_true, if_false]
      by_cases ht : d.head_block_time > P.HARDFORK_623_TIME
      · simp only [ht, if_true, hptr, hdyn, get, hsettings]
        by_cases hw : g.fee_from_account.asset_id = P.EDC_ASSET ∧ settings.witness_fees_percent > 0
        · simp only [hw, and_self, if_true, hwitnesses, pure, Except.pure, burn_supply]
        · simp only [hw, if_false, pure, Except.pure, burn_supply]
      · simp only [ht, if_false, hptr, hdyn, pure, Except.pure]

/-- The fee conversion on the example chain for a fee of 100 EDC prepared by
`prepare_fee`, with a witness fee configured.  At time 700 the supply of EDC
goes from 200 to 100, `fee_burnt` to 100 and the witnesses accumulator to 100;
at time 600, before `HARDFORK_623_TIME`, `accumulated_fees` goes to 100 and
`fee_pool` to -100 while the supply stays at 200. -/
theorem convert_fee_matches_reference_witness :
    (∃ d1 dyn1 w1,
      (example_prepared (example_database_witness_fees 700)
        { amount := 100, asset_id := 1 }).convert_fee example_parameters
        (example_database_witness_fees 700) = .ok d1 ∧
      d1.asset_dynamic_data 1 = some dyn1 ∧ dyn1.current_supply = 100 ∧
      dyn1.fee_burnt = 100 ∧
      d1.witnesses_info 0 = some w1 ∧ w1.witness_fees_reward_edc_amount = 100 ∧
      d1.balances 1 1 = 1000) ∧
    (∃ d1 dyn1,
      (example_prepared (example_database_witness_fees 600)
        { amount := 100, asset_id := 1 }).convert_fee example_parameters
        (example_database_witness_fees 600) = .ok d1 ∧
      d1.asset_dynamic_data 1 = some dyn1 ∧ dyn1.current_supply = 200 ∧
      dyn1.accumulated_fees = 100 ∧ dyn1.fee_pool = -100) := by
  constructor
  · exact ⟨_, _, _, convert_fee_matches_reference example_parameters
      (example_database_witness_fees 700)
      (example_prepared (example_database_witness_fees 700) { amount := 100, asset_id := 1 })
      (example_asset 1)
      { current_supply := 200, accumulated_fees := 0, fee_pool := 0, fee_burnt := 0 }
      { example_settings with witness_fees_percent := 10 }
      { witness_fees_reward_edc_amount := 0 } rfl rfl rfl rfl rfl rfl
      ⟨⟨by decide, by decide⟩, ⟨by decide, by decide⟩, ⟨by decide, by decide⟩,
        ⟨by decide, by decide⟩, ⟨by decide, by decide⟩⟩,
      rfl, by decide, by decide, rfl, by decide, by decide⟩
  · exact ⟨_, _, convert_fee_matches_reference example_parameters
      (example_database_witness_fees 600)
      (example_prepared (example_database_witness_fees 600) { amount := 100, asset_id := 1 })
      (example_asset 1)
      { current_supply := 200, accumulated_fees := 0, fee_pool := 0, fee_burnt := 0 }
      { example_settings with witness_fees_percent := 10 }
      { witness_fees_reward_edc_amount := 0 } rfl rfl rfl rfl rfl rfl
      ⟨⟨by decide, by decide⟩, ⟨by decide, by decide⟩, ⟨by decide, by decide⟩,
        ⟨by decide, by decide⟩, ⟨by decide, by decide⟩⟩,
      rfl, by decide, by decide, by decide⟩

/-! ## Asset options -/

/-- A 16-bit value with `x & ~mask == 0` has every one of its bits in the
mask. -/
theorem bits_in_mask_of_and_not_mask (x mask : Nat) (hx : x < 2 ^ 16)
    (h : and_not_mask x mask = 0) (i : Nat) (hi : x.testBit i = true) :
    mask.testBit i = true := by
  have hlt : i < 16 := by
    by_contra hge
    have hpow : 2 ^ 16 ≤ 2 ^ i := Nat.pow_le_pow_right (by decide) (by omega)
    have := @Nat.testBit_lt_two_pow x i (by omega)
    rw [this] at hi
    exact Bool.noConfusion hi
  have hbit : (and_not_mask x mask).testBit i = false := by
    rw [h]
    exact Nat.zero_testBit i
  unfold and_not_mask at hbit
  rw [Nat.testBit_and, hi, Nat.testBit_xor, Nat.testBit_two_pow_sub_one,
    Nat.testBit_mod_two_pow] at hbit
  have h32 : decide (i < 32) = true := decide_eq_true (by omega)
  rw [h32] at hbit
  cases hm : mask.testBit i
  · rw [hm] at hbit
    exact absurd hbit (by decide)
  · rfl

/-- What a returning `asset_options::validate` has established. -/
theorem asset_options_validate_ok {P : chain_parameters} {o : asset_options}
    (h : o.validate P = .ok ()) :
    o.max_supply > 0 ∧ o.max_supply ≤ P.GRAPHENE_MAX_SHARE_SUPPLY ∧
    o.market_fee_percent ≤ P.GRAPHENE_100_PERCENT ∧
    (o.max_market_fee ≥ 0 ∧ o.max_market_fee ≤ P.GRAPHENE_MAX_SHARE_SUPPLY) ∧
    and_not_mask o.issuer_permissions P.ASSET_ISSUER_PERMISSION_MASK = 0 ∧
    o.flags &&& P.global_settle = 0 ∧
    o.flags &&& (P.witness_fed_asset ||| P.committee_fed_asset) ≠
      (P.witness_fed_asset ||| P.committee_fed_asset) ∧
    P.price_validate o.core_exchange_rate = .ok () ∧
    (o.core_exchange_rate.base.asset_id = 0 ∨ o.core_exchange_rate.quote.asset_id = 0) ∧
    ((!o.whitelist_authorities.isEmpty || !o.blacklist_authorities.isEmpty) = true →
      o.flags &&& P.white_list ≠ 0) ∧
    assert_each o.whitelist_markets (fun item => !o.blacklist_markets.contains item) = .ok () ∧
    assert_each o.blacklist_markets (fun item => !o.whitelist_markets.contains item) = .ok () := by
  unfold asset_options.validate at h
  obtain ⟨_, h1, h⟩ := (bind_ok_iff _ _ _).1 h
  obtain ⟨_, h2, h⟩ := (bind_ok_iff _ _ _).1 h
  obtain ⟨_, h3, h⟩ := (bind_ok_iff _ _ _).1 h
  obtain ⟨_, h4, h⟩ := (bind_ok_iff _ _ _).1 h
  obtain ⟨_, h5, h⟩ := (bind_ok_iff _ _ _).1 h
  obtain ⟨_, h6, h⟩ := (bind_ok_iff _ _ _).1 h
  obtain ⟨_, h7, h⟩ := (bind_ok_iff _ _ _).1 h
  obtain ⟨_, h8, h⟩ := (bind_ok_iff _ _ _).1 h
  obtain ⟨_, h9, h⟩ := (bind_ok_iff _ _ _).1 h
  obtain ⟨_, h10, h⟩ := (bind_ok_iff _ _ _).1 h
  obtain ⟨_, h11, h⟩ := (bind_ok_iff _ _ _).1 h
  refine ⟨of_decide_eq_true ((fc_assert_ok_iff _ _ _).1 h1),
    of_decide_eq_true ((fc_assert_ok_iff _ _ _).1 h2),
    of_decide_eq_true ((fc_assert_ok_iff _ _ _).1 h3),
    of_decide_eq_true ((fc_assert_ok_iff _ _ _).1 h4),
    of_decide_eq_true ((fc_assert_ok_iff _ _ _).1 h5),
    of_decide_eq_true ((fc_assert_ok_iff _ _ _).1 h6),
    of_decide_eq_true ((fc_assert_ok_iff _ _ _).1 h7), h8,
    of_decide_eq_true ((fc_assert_ok_iff _ _ _).1 h9), ?_, h11, h⟩
  intro hlists
  rw [if_pos hlists] at h10
  exact of_decide_eq_true ((fc_assert_ok_iff _ _ _).1 h10)

/-- C20. For asset options whose `issuer_permissions` fit their 16 bits, a
returning `validate()` implies: `0 < max_supply <= GRAPHENE_MAX_SHARE_SUPPLY`,
`market_fee_percent <= GRAPHENE_100_PERCENT`,
`0 <= max_market_fee <= GRAPHENE_MAX_SHARE_SUPPLY`, every bit of
`issuer_permissions` lies in `ASSET_ISSUER_PERMISSION_MASK`, `global_settle` is
not set in `flags`, `witness_fed_asset` and `committee_fed_asset` are not both
set in `flags`, and the core asset (instance 0) is the base or the quote asset
of `core_exchange_rate`. -/
theorem asset_options_validate_only_if (P : chain_parameters) (o : asset_options)
    (hwidth : o.issuer_permissions < 2 ^ 16)
    (h : o.validate P = .ok ()) :
    (0 < o.max_supply ∧ o.max_supply ≤ P.GRAPHENE_MAX_SHARE_SUPPLY) ∧
    o.market_fee_percent ≤ P.GRAPHENE_100_PERCENT ∧
    (0 ≤ o.max_market_fee ∧ o.max_market_fee ≤ P.GRAPHENE_MAX_SHARE_SUPPLY) ∧
    (∀ i, o.issuer_permissions.testBit i = true →
      P.ASSET_ISSUER_PERMISSION_MASK.testBit i = true) ∧
    o.flags &&& P.global_settle = 0 ∧
    ¬ (o.flags &&& P.witness_fed_asset = P.witness_fed_asset ∧
       o.flags &&& P.committee_fed_asset = P.committee_fed_asset) ∧
    (o.core_exchange_rate.base.asset_id = 0 ∨ o.core_exchange_rate.quote.asset_id = 0) := by
  obtain ⟨h1, h2, h3, h4, h5, h6, h7, _, h9, _⟩ := asset_options_validate_ok h
  refine ⟨⟨h1, h2⟩, h3, h4, bits_in_mask_of_and_not_mask _ _ hwidth h5, h6, ?_, h9⟩
  rintro ⟨hw, hc⟩
  apply h7
  rw [Nat.and_or_distrib_left, hw, hc]

/-- The validation of asset options on the example chain: `example_options`
pass; with the flag `global_settle` set they are thrown out, and so they are
with a permission bit outside the mask. -/
theorem asset_options_validate_witness :
    example_options.validate example_parameters = .ok () ∧
    ((0 : Int) < example_options.max_supply ∧
      example_options.max_supply ≤ example_parameters.GRAPHENE_MAX_SHARE_SUPPLY) ∧
    (∀ i, example_options.issuer_permissions.testBit i = true →
      example_parameters.ASSET_ISSUER_PERMISSION_MASK.testBit i = true) ∧
    ({ example_options with flags := 0x20 } : asset_options).validate example_parameters
      = .error .assert_exception ∧
    ({ example_options with issuer_permissions := 0x200 } : asset_options).validate
      example_parameters = .error .assert_exception := by
  have h := asset_options_validate_only_if example_parameters example_options
    (by decide) rfl
  exact ⟨rfl, h.1, h.2.2.2.1, rfl, rfl⟩

/-! ## Asset creation and update -/

/-- A bitwise `|` of two numbers is zero only when both are. -/
theorem lor_eq_zero_iff (a b : Nat) : a ||| b = 0 ↔ a = 0 ∧ b = 0 := by
  constructor
  · intro h
    have hbits : ∀ i, (a.testBit i || b.testBit i) = false := by
      intro i
      rw [← Nat.testBit_or, h, Nat.zero_testBit]
    constructor
    · apply Nat.eq_of_testBit_eq
      intro i
      have := hbits i
      rw [Nat.zero_testBit]
      cases ha : a.testBit i
      · rfl
      · rw [ha, Bool.true_or] at this
        exact absurd this (by decide)
    · apply Nat.eq_of_testBit_eq
      intro i
      have := hbits i
      rw [Nat.zero_testBit]
      cases hb : b.testBit i
      · rfl
      · rw [hb, Bool.or_true] at this
        exact absurd this (by decide)
  · rintro ⟨rfl, rfl⟩
    rfl

/-- A number meets `a | b` in some bit exactly when it meets `a` or `b`. -/
theorem and_lor_ne_zero_iff (x a b : Nat) :
    x &&& (a ||| b) ≠ 0 ↔ (x &&& a ≠ 0 ∨ x &&& b ≠ 0) := by
  rw [Nat.and_or_distrib_left, Ne, lor_eq_zero_iff]
  tauto

/-- When `bitasset_options::validate` returns. -/
theorem bitasset_options_validate_iff (P : chain_parameters) (o : bitasset_options) :
    o.validate P = .ok () ↔
      o.minimum_feeds > 0 ∧ o.force_settlement_offset_percent ≤ P.GRAPHENE_100_PERCENT ∧
      o.maximum_force_settlement_volume ≤ P.GRAPHENE_100_PERCENT := by
  unfold bitasset_options.validate
  constructor
  · intro h
    obtain ⟨_, h1, h⟩ := (bind_ok_iff _ _ _).1 h
    obtain ⟨_, h2, h⟩ := (bind_ok_iff _ _ _).1 h
    exact ⟨of_decide_eq_true ((fc_assert_ok_iff _ _ _).1 h1),
      of_decide_eq_true ((fc_assert_ok_iff _ _ _).1 h2),
      of_decide_eq_true ((fc_assert_ok_iff _ _ _).1 h)⟩
  · rintro ⟨h1, h2, h3⟩
    simp [fc_assert, h1, h2, h3, bind, Except.bind]

/-- When the optional bitasset options pass their `validate()`. -/
theorem validate_if_present_iff (P : chain_parameters) (opts : Option bitasset_options) :
    validate_if_present P opts = .ok () ↔ ∀ b, opts = some b → b.validate P = .ok () := by
  cases opts with
  | none => simp [validate_if_present]
  | some b => simp [validate_if_present]

/-- C21. `asset_create_operation::validate()` returns if and only if
`fee.amount >= 0`, the symbol is valid, `common_options.validate()` returns,
`bitasset_opts` is present whenever `issuer_permissions` has
`disable_force_settle` or `global_settle` set, a prediction market has
`bitasset_opts` present and the `global_settle` permission set, `bitasset_opts`
(when present) validates, `asset(1) * common_options.core_exchange_rate` is an
amount of `EDC_ASSET`, and `precision <= 12`. -/
theorem asset_create_validate_iff (P : chain_parameters) (o : asset_create_operation) :
    o.validate P = .ok () ↔
      o.fee.amount ≥ 0 ∧
      is_valid_symbol P.GRAPHENE_MIN_ASSET_SYMBOL_LENGTH P.GRAPHENE_MAX_ASSET_SYMBOL_LENGTH
        o.symbol = true ∧
      o.common_options.validate P = .ok () ∧
      ((o.common_options.issuer_permissions &&& P.disable_force_settle ≠ 0 ∨
        o.common_options.issuer_permissions &&& P.global_settle ≠ 0) →
          o.bitasset_opts.isSome = true) ∧
      (o.is_prediction_market = true →
        o.bitasset_opts.isSome = true ∧
        o.common_options.issuer_permissions &&& P.global_settle ≠ 0) ∧
      (∀ b, o.bitasset_opts = some b → b.validate P = .ok ()) ∧
      (∃ dummy, P.asset_mul_price { amount := 1, asset_id := 0 }
          o.common_options.core_exchange_rate = .ok dummy ∧ dummy.asset_id = P.EDC_ASSET) ∧
      o.precision ≤ 12 := by
  unfold asset_create_operation.validate
  constructor
  · intro h
    obtain ⟨_, h1, h⟩ := (bind_ok_iff _ _ _).1 h
    obtain ⟨_, h2, h⟩ := (bind_ok_iff _ _ _).1 h
    obtain ⟨_, h3, h⟩ := (bind_ok_iff _ _ _).1 h
    obtain ⟨_, h4, h⟩ := (bind_ok_iff _ _ _).1 h
    obtain ⟨_, h5, h⟩ := (bind_ok_iff _ _ _).1 h
    obtain ⟨_, h6, h⟩ := (bind_ok_iff _ _ _).1 h
    obtain ⟨dummy, h7, h⟩ := (bind_ok_iff _ _ _).1 h
    obtain ⟨_, h8, h⟩ := (bind_ok_iff _ _ _).1 h
    refine ⟨of_decide_eq_true ((fc_assert_ok_iff _ _ _).1 h1), (fc_assert_ok_iff _ _ _).1 h2,
      h3, ?_, ?_, (validate_if_present_iff _ _).1 h6,
      ⟨dummy, h7, of_decide_eq_true ((fc_assert_ok_iff _ _ _).1 h8)⟩,
      of_decide_eq_true ((fc_assert_ok_iff _ _ _).1 h)⟩
    · intro hperm
      rw [if_pos ((and_lor_ne_zero_iff _ _ _).2 hperm)] at h4
      exact (fc_assert_ok_iff _ _ _).1 h4
    · intro hpm
      rw [if_pos hpm] at h5
      obtain ⟨_, h5a, h5b⟩ := (bind_ok_iff _ _ _).1 h5
      exact ⟨(fc_assert_ok_iff _ _ _).1 h5a, of_decide_eq_true ((fc_assert_ok_iff _ _ _).1 h5b)⟩
  · rintro ⟨h1, h2, h3, h4, h5, h6, ⟨dummy, h7, h8⟩, h9⟩
    have e1 : fc_assert (decide (o.fee.amount ≥ 0)) .assert_exception = .ok () :=
      (fc_assert_ok_iff _ _ _).2 (decide_eq_true h1)
    have e2 : fc_assert (is_valid_symbol P.GRAPHENE_MIN_ASSET_SYMBOL_LENGTH
        P.GRAPHENE_MAX_ASSET_SYMBOL_LENGTH o.symbol) .assert_exception = .ok () :=
      (fc_assert_ok_iff _ _ _).2 h2
    have e4 : (if o.common_options.issuer_permissions &&&
          (P.disable_force_settle ||| P.global_settle) ≠ 0
        then fc_assert o.bitasset_opts.isSome .assert_exception
        else pure ()) = .ok () := by
      by_cases hperm : o.common_options.issuer_permissions &&&
          (P.disable_force_settle ||| P.global_settle) ≠ 0
      · rw [if_pos hperm]
        exact (fc_assert_ok_iff _ _ _).2 (h4 ((and_lor_ne_zero_iff _ _ _).1 hperm))
      · rw [if_neg hperm]
        rfl
    have e5 : (if o.is_prediction_market = true then do
          fc_assert o.bitasset_opts.isSome .assert_exception
          fc_assert (decide (o.common_options.issuer_permissions &&& P.global_settle ≠ 0))
            .assert_exception
        else pure ()) = .ok () := by
      by_cases hpm : o.is_prediction_market = true
      · rw [if_pos hpm, (fc_assert_ok_iff _ _ ()).2 (h5 hpm).1]
        exact (fc_assert_ok_iff _ _ _).2 (decide_eq_true (h5 hpm).2)
      · rw [if_neg hpm]
        rfl
    have e6 := (validate_if_present_iff P o.bitasset_opts).2 h6
    have e8 : fc_assert (decide (dummy.asset_id = P.EDC_ASSET)) .assert_exception = .ok () :=
      (fc_assert_ok_iff _ _ _).2 (decide_eq_true h8)
    rw [e1, h3, e2, e4, e5, e6, h7]
    simp only [bind, Except.bind]
    rw [e8]
    exact (fc_assert_ok_iff _ _ _).2 (decide_eq_true h9)

/-- When the assertion on an optional new issuer passes. -/
theorem assert_new_issuer_iff (issuer : account_id_type) (new_issuer : Option account_id_type) :
    assert_new_issuer issuer new_issuer = .ok () ↔ ∀ n, new_issuer = some n → n ≠ issuer := by
  cases new_issuer with
  | none => simp [assert_new_issuer]
  | some n =>
    simp only [assert_new_issuer, fc_assert_ok_iff, decide_eq_true_eq, Option.some.injEq,
      forall_eq']
    exact ⟨fun h => Ne.symm h, fun h => Ne.symm h⟩

/-- When `asset_update_operation::validate` returns. -/
theorem asset_update_validate_ok_iff (P : chain_parameters) (o : asset_update_operation) :
    o.validate P = .ok () ↔
      o.fee.amount ≥ 0 ∧ (∀ n, o.new_issuer = some n → n ≠ o.issuer) ∧
      o.new_options.validate P = .ok () ∧
      ∃ dummy, P.asset_mul_price { amount := 1, asset_id := o.asset_to_update }
          o.new_options.core_exchange_rate = .ok dummy ∧ dummy.asset_id = P.CORE_ASSET := by
  unfold asset_update_operation.validate
  constructor
  · intro h
    obtain ⟨_, h1, h⟩ := (bind_ok_iff _ _ _).1 h
    obtain ⟨_, h2, h⟩ := (bind_ok_iff _ _ _).1 h
    obtain ⟨_, h3, h⟩ := (bind_ok_iff _ _ _).1 h
    obtain ⟨dummy, h4, h⟩ := (bind_ok_iff _ _ _).1 h
    exact ⟨of_decide_eq_true ((fc_assert_ok_iff _ _ _).1 h1),
      (assert_new_issuer_iff _ _).1 h2, h3, dummy, h4,
      of_decide_eq_true ((fc_assert_ok_iff _ _ _).1 h)⟩
  · rintro ⟨h1, h2, h3, dummy, h4, h5⟩
    rw [(fc_assert_ok_iff _ _ ()).2 (decide_eq_true h1), (assert_new_issuer_iff _ _).2 h2, h3, h4]
    exact (fc_assert_ok_iff _ _ _).2 (decide_eq_true h5)

/-- C22. `asset_update_operation::validate()` and
`asset_update2_operation::validate()` accept exactly the same field values:
on equal fields the two runs end alike, and each returns if and only if
`fee.amount >= 0`, `new_issuer` (when set) differs from `issuer`,
`new_options.validate()` returns, and
`asset(1, asset_to_update) * new_options.core_exchange_rate` is an amount of
`CORE_ASSET`. -/
theorem asset_update_validate_same (P : chain_parameters) (fee : asset)
    (issuer : account_id_type) (asset_to_update : asset_id_type)
    (new_issuer : Option account_id_type) (new_options : asset_options) :
    asset_update2_operation.validate P
        { fee := fee, issuer := issuer, asset_to_update := asset_to_update,
          new_issuer := new_issuer, new_options := new_options } =
      asset_update_operation.validate P
        { fee := fee, issuer := issuer, asset_to_update := asset_to_update,
          new_issuer := new_issuer, new_options := new_options } ∧
    (asset_update_operation.validate P
        { fee := fee, issuer := issuer, asset_to_update := asset_to_update,
          new_issuer := new_issuer, new_options := new_options } = .ok () ↔
      fee.amount ≥ 0 ∧ (∀ n, new_issuer = some n → n ≠ issuer) ∧
      new_options.validate P = .ok () ∧
      ∃ dummy, P.asset_mul_price { amount := 1, asset_id := asset_to_update }
          new_options.core_exchange_rate = .ok dummy ∧ dummy.asset_id = P.CORE_ASSET) :=
  ⟨rfl, asset_update_validate_ok_iff P _⟩

/-- The two update validators on the example chain: an update of asset 2 with
`example_options` passes both, and both throw when the new issuer is the
issuer. -/
theorem asset_update_validate_example :
    asset_update_operation.validate example_parameters
      { fee := { amount := 0, asset_id := 0 }, issuer := 1, asset_to_update := 2,
        new_issuer := some 2, new_options := example_options } = .ok () ∧
    asset_update2_operation.validate example_parameters
      { fee := { amount := 0, asset_id := 0 }, issuer := 1, asset_to_update := 2,
        new_issuer := some 2, new_options := example_options } = .ok () ∧
    asset_update_operation.validate example_parameters
      { fee := { amount := 0, asset_id := 0 }, issuer := 1, asset_to_update := 2,
        new_issuer := some 1, new_options := example_options } = .error .assert_exception ∧
    asset_update2_operation.validate example_parameters
      { fee := { amount := 0, asset_id := 0 }, issuer := 1, asset_to_update := 2,
        new_issuer := some 1, new_options := example_options } = .error .assert_exception :=
  ⟨rfl, rfl, rfl, rfl⟩

/-! ## Issuing and reserving -/

/-- Three assertions in a row: bound, positivity and a third condition. -/
theorem issue_asserts_ok {P : chain_parameters} {a : asset} {c : Bool}
    (h : (do
      fc_assert (decide (a.amount ≤ P.GRAPHENE_MAX_SHARE_SUPPLY)) .assert_exception
      fc_assert (decide (a.amount > 0)) .assert_exception
      fc_assert c .assert_exception : Except error Unit) = .ok ()) :
    0 < a.amount ∧ a.amount ≤ P.GRAPHENE_MAX_SHARE_SUPPLY ∧ c = true := by
  obtain ⟨_, h1, h⟩ := (bind_ok_iff _ _ _).1 h
  obtain ⟨_, h2, h⟩ := (bind_ok_iff _ _ _).1 h
  exact ⟨of_decide_eq_true ((fc_assert_ok_iff _ _ _).1 h2),
    of_decide_eq_true ((fc_assert_ok_iff _ _ _).1 h1), (fc_assert_ok_iff _ _ _).1 h⟩

/-- C23. For `asset_issue`, `daily_issue` and `referral_issue`, `validate()`
returns only if `0 < asset_to_issue.amount <= GRAPHENE_MAX_SHARE_SUPPLY` and
`asset_to_issue.asset_id != CORE_ASSET`; for `asset_reserve`, only if
`0 < amount_to_reserve.amount <= GRAPHENE_MAX_SHARE_SUPPLY`. -/
theorem issue_validate_only_if (P : chain_parameters) :
    (∀ o : asset_issue_operation, o.validate P = .ok () →
      0 < o.asset_to_issue.amount ∧ o.asset_to_issue.amount ≤ P.GRAPHENE_MAX_SHARE_SUPPLY ∧
      o.asset_to_issue.asset_id ≠ P.CORE_ASSET) ∧
    (∀ o : daily_issue_operation, o.validate P = .ok () →
      0 < o.asset_to_issue.amount ∧ o.asset_to_issue.amount ≤ P.GRAPHENE_MAX_SHARE_SUPPLY ∧
      o.asset_to_issue.asset_id ≠ P.CORE_ASSET) ∧
    (∀ o : referral_issue_operation, o.validate P = .ok () →
      0 < o.asset_to_issue.amount ∧ o.asset_to_issue.amount ≤ P.GRAPHENE_MAX_SHARE_SUPPLY ∧
      o.asset_to_issue.asset_id ≠ P.CORE_ASSET) ∧
    (∀ o : asset_reserve_operation, o.validate P = .ok () →
      0 < o.amount_to_reserve.amount ∧
      o.amount_to_reserve.amount ≤ P.GRAPHENE_MAX_SHARE_SUPPLY) := by
  refine ⟨?_, ?_, ?_, ?_⟩
  · intro o h
    unfold asset_issue_operation.validate at h
    obtain ⟨_, _, h⟩ := (bind_ok_iff _ _ _).1 h
    obtain ⟨h1, h2, h3⟩ := issue_asserts_ok h
    exact ⟨h1, h2, of_decide_eq_true h3⟩
  · intro o h
    obtain ⟨h1, h2, h3⟩ := issue_asserts_ok h
    exact ⟨h1, h2, of_decide_eq_true h3⟩
  · intro o h
    obtain ⟨h1, h2, h3⟩ := issue_asserts_ok h
    exact ⟨h1, h2, of_decide_eq_true h3⟩
  · intro o h
    unfold asset_reserve_operation.validate at h
    obtain ⟨_, _, h⟩ := (bind_ok_iff _ _ _).1 h
    obtain ⟨_, h1, h⟩ := (bind_ok_iff _ _ _).1 h
    exact ⟨of_decide_eq_true ((fc_assert_ok_iff _ _ _).1 h),
      of_decide_eq_true ((fc_assert_ok_iff _ _ _).1 h1)⟩

/-- The four validators on the example chain: 5 units of EDC pass each of them
and lie within the bounds; an amount of zero, one above
`GRAPHENE_MAX_SHARE_SUPPLY` and an issue of the core asset are thrown out. -/
theorem issue_validate_only_if_witness :
    asset_issue_operation.validate example_parameters
      { fee := { amount := 0, asset_id := 0 }, asset_to_issue := { amount := 5, asset_id := 1 } }
      = .ok () ∧
    (0 < (5 : Int) ∧ (5 : Int) ≤ example_parameters.GRAPHENE_MAX_SHARE_SUPPLY ∧
      (1 : Nat) ≠ example_parameters.CORE_ASSET) ∧
    asset_reserve_operation.validate example_parameters
      { fee := { amount := 0, asset_id := 0 },
        amount_to_reserve := { amount := 5, asset_id := 1 } } = .ok () ∧
    daily_issue_operation.validate example_parameters
      { asset_to_issue := { amount := 0, asset_id := 1 } } = .error .assert_exception ∧
    referral_issue_operation.validate example_parameters
      { asset_to_issue := { amount := 1000000000000001, asset_id := 1 } }
      = .error .assert_exception ∧
    asset_issue_operation.validate example_parameters
      { fee := { amount := 0, asset_id := 0 }, asset_to_issue := { amount := 5, asset_id := 0 } }
      = .error .assert_exception :=
  ⟨rfl, (issue_validate_only_if example_parameters).1
      { fee := { amount := 0, asset_id := 0 }, asset_to_issue := { amount := 5, asset_id := 1 } }
      rfl, rfl, rfl, rfl, rfl⟩

/-- C24, as amended. `bonus_operation::validate()` returns if and only if the
asset to issue is not `CORE_ASSET`; it reads no amount, so it returns for
every amount once the asset passes. -/
theorem bonus_validate_iff (P : chain_parameters) (o : bonus_operation) :
    (o.validate P = .ok () ↔ o.asset_to_issue ≠ P.CORE_ASSET) ∧
    ∀ amount : Int, bonus_operation.validate P { o with amount := amount } = o.validate P := by
  refine ⟨?_, fun _ => rfl⟩
  unfold bonus_operation.validate
  rw [fc_assert_ok_iff, decide_eq_true_eq]

/-- C24 fails as stated: on the example chain a bonus of the asset EDC passes
`validate()` with an amount of zero, and with an amount above
`GRAPHENE_MAX_SHARE_SUPPLY`. -/
theorem bonus_validate_counterexample :
    bonus_operation.validate example_parameters { asset_to_issue := 1, amount := 0 } = .ok () ∧
    ¬ (0 < ({ asset_to_issue := 1, amount := 0 } : bonus_operation).amount) ∧
    bonus_operation.validate example_parameters
      { asset_to_issue := 1, amount := 1000000000000001 } = .ok () ∧
    ¬ (({ asset_to_issue := 1, amount := 1000000000000001 } : bonus_operation).amount
        ≤ example_parameters.GRAPHENE_MAX_SHARE_SUPPLY) :=
  ⟨rfl, by decide, rfl, by decide⟩

/-! ## Transfers: the percent of the custom fee -/

/-- The local `fee_percent` of `transfer_evaluator::do_evaluate` is the
reference percent, on every input. -/
theorem fee_percent_eq_reference (P : chain_parameters) (d : database)
    (from_account to_account : account_object) (settings : settings_object)
    (fee_asset_id : asset_id_type) (op : transfer_operation) :
    transfer_evaluator.fee_percent P d from_account to_account settings fee_asset_id op =
      fee_percent_reference P d from_account to_account settings fee_asset_id op.from_
        op.amount.asset_id := by
  unfold transfer_evaluator.fee_percent fee_percent_reference percent_or_zero
  simp only [ge_iff_le, gt_iff_lt]
  by_cases h628 : P.HARDFORK_628_TIME < d.head_block_time
  · have hnot : ¬ d.head_block_time ≤ P.HARDFORK_628_TIME := by omega
    rw [if_pos h628, if_neg hnot]
    by_cases hrank : P.HARDFORK_636_TIME ≤ d.head_block_time ∧ fee_asset_id = P.EDC_ASSET
        ∧ P.rank_default < from_account.rank ∧ to_account.burning_mode_enabled = false
    · rw [if_pos hrank, if_pos hrank]
    · rw [if_neg hrank, if_neg hrank]
      by_cases hlook : d.head_block_time < P.HARDFORK_636_TIME
          ∨ to_account.burning_mode_enabled = false
      · rw [if_pos hlook, if_pos hlook]
        cases P.get_custom_fee d settings.transfer_fees fee_asset_id <;> rfl
      · rw [if_neg hlook, if_neg hlook]
  · have hle : d.head_block_time ≤ P.HARDFORK_628_TIME := by omega
    rw [if_neg h628, if_pos hle]
    cases P.get_custom_fee d settings.transfer_fees op.amount.asset_id <;> rfl

/-- C25. In `transfer_evaluator::do_evaluate` after `HARDFORK_627_TIME` the
local `fee_percent` equals the reference percent of the specification
(`fee_percent_reference`); an accepted transfer leaves the member `custom_fee`
resolved from that percent; and from `HARDFORK_636_TIME` on (the gate 628 lying
before the gate 636) a transfer to a burning destination has `fee_percent` 0. -/
theorem transfer_fee_percent_reference (P : chain_parameters) (d : database)
    (from_account to_account : account_object) (settings : settings_object)
    (fee_asset_id : asset_id_type) (op : transfer_operation) :
    transfer_evaluator.fee_percent P d from_account to_account settings fee_asset_id op =
      fee_percent_reference P d from_account to_account settings fee_asset_id op.from_
        op.amount.asset_id ∧
    (∀ ev ev1 asset_type, d.head_block_time > P.HARDFORK_627_TIME →
      d.accounts op.from_ = some from_account → d.accounts op.to_ = some to_account →
      d.assets op.amount.asset_id = some asset_type →
      fee_asset_type P d asset_type = .ok fee_asset_id → d.settings 0 = some settings →
      transfer_evaluator.do_evaluate P d ev op = .ok ev1 →
      ev1.custom_fee = transfer_evaluator.resolve_custom_fee P d ev.custom_fee
        (fee_percent_reference P d from_account to_account settings fee_asset_id op.from_
          op.amount.asset_id) op) ∧
    (P.HARDFORK_628_TIME < P.HARDFORK_636_TIME →
      d.head_block_time ≥ P.HARDFORK_636_TIME → to_account.burning_mode_enabled = true →
      transfer_evaluator.fee_percent P d from_account to_account settings fee_asset_id op
        = 0) := by
  refine ⟨fee_percent_eq_reference P d from_account to_account settings fee_asset_id op, ?_, ?_⟩
  · intro ev ev1 asset_type ht hfrom hto hasset hfee hsettings hev
    obtain ⟨fa, ta, at1, fid, dyn, st, cf, h1, h2, h3, h4, _, h6, _, h8, _, h10⟩ :=
      transfer_do_evaluate_ok hev
    rw [hfrom] at h1
    rw [hto] at h2
    rw [hasset] at h3
    rw [hsettings] at h6
    obtain rfl := Option.some.inj h1
    obtain rfl := Option.some.inj h2
    obtain rfl := Option.some.inj h3
    obtain rfl := Option.some.inj h6
    rw [hfee] at h4
    obtain rfl := Except.ok.inj h4
    rw [if_pos ht] at h8
    rw [h10, ← fee_percent_eq_reference]
    exact (post_627_ok h8).2.1
  · intro horder ht hburn
    rw [fee_percent_eq_reference]
    unfold fee_percent_reference
    have h628 : ¬ d.head_block_time ≤ P.HARDFORK_628_TIME := by omega
    rw [if_neg h628, if_neg (by simp [hburn]), if_neg (by simp [hburn]; omega)]

/-- The percent on the example chain at time 700 with 1 percent configured for
asset 2: a transfer of 50 units of asset 2 from account 1 to account 2 has a
percent of 1 and is accepted with a custom fee of 1; sent to the burning
account 3 the percent is 0. -/
theorem transfer_fee_percent_reference_witness :
    fee_percent_reference example_parameters
      (example_database_with_fees 700 1000 [{ asset_id := 2, percent := 1 }])
      example_account example_account
      { example_settings with transfer_fees := [{ asset_id := 2, percent := 1 }] } 2 1 2 = 1 ∧
    (∃ ev1, transfer_evaluator.do_evaluate example_parameters
        (example_database_with_fees 700 1000 [{ asset_id := 2, percent := 1 }])
        (transfer_evaluator.fresh false)
        (example_transfer 1 2 { amount := 50, asset_id := 2 } { amount := 1, asset_id := 2 })
        = .ok ev1 ∧ ev1.custom_fee = 1) ∧
    transfer_evaluator.fee_percent example_parameters
      (example_database_with_fees 700 1000 [{ asset_id := 2, percent := 1 }])
      example_account { example_account with burning_mode_enabled := true }
      { example_settings with transfer_fees := [{ asset_id := 2, percent := 1 }] } 2
      (example_transfer 1 3 { amount := 50, asset_id := 2 } { amount := 1, asset_id := 2 })
      = 0 := by
  refine ⟨rfl, ⟨_, rfl, ?_⟩, ?_⟩
  · rw [(transfer_fee_percent_reference example_parameters
      (example_database_with_fees 700 1000 [{ asset_id := 2, percent := 1 }])
      example_account example_account
      { example_settings with transfer_fees := [{ asset_id := 2, percent := 1 }] } 2
      (example_transfer 1 2 { amount := 50, asset_id := 2 }
        { amount := 1, asset_id := 2 })).2.1
      (transfer_evaluator.fresh false) _ (example_asset 2) (by decide) rfl rfl rfl rfl rfl rfl]
    rfl
  · exact (transfer_fee_percent_reference example_parameters
      (example_database_with_fees 700 1000 [{ asset_id := 2, percent := 1 }])
      example_account { example_account with burning_mode_enabled := true }
      { example_settings with transfer_fees := [{ asset_id := 2, percent := 1 }] } 2
      (example_transfer 1 3 { amount := 50, asset_id := 2 }
        { amount := 1, asset_id := 2 })).2.2 (by decide) (by decide) rfl

/-! ## Transfers: the EDC counters -/

/-- The burning branch of `do_apply` leaves the two EDC counters of every
account as they were. -/
theorem apply_burning_counters {P : chain_parameters} {d d1 : database} {dp fp : Option Nat}
    {amount : asset} (h : apply_burning P d dp fp amount = .ok d1) (k : Nat) :
    (d1.accounts k).map (fun acc => (acc.edc_transfers_count, acc.edc_transfers_amount_counter))
      = (d.accounts k).map
          (fun acc => (acc.edc_transfers_count, acc.edc_transfers_amount_counter)) ∧
    d1.head_block_time = d.head_block_time := by
  unfold apply_burning at h
  cases dp with
  | none =>
    simp only [Except.ok.injEq] at h
    rw [← h]
    exact ⟨rfl, rfl⟩
  | some i =>
    simp only at h
    obtain ⟨data, _, h⟩ := (bind_ok_iff _ _ _).1 h
    split at h
    · obtain ⟨⟨j, acc⟩, hj, h⟩ := (bind_ok_iff _ _ _).1 h
      obtain ⟨_, hacc⟩ := (deref_ok_iff _ _ _ _).1 hj
      simp only [pure, Except.pure, Except.ok.injEq] at h
      rw [← h]
      refine ⟨?_, rfl⟩
      by_cases hk : k = j
      · subst hk
        simp [update, hacc]
      · simp [update, hk]
    · simp only [pure, Except.pure, Except.ok.injEq] at h
      rw [← h]
      exact ⟨rfl, rfl⟩

/-- What the counter block of `do_apply` writes into the sender's account. -/
theorem apply_counters_account {P : chain_parameters} {d d1 : database} {b : Bool}
    {from_ : account_id_type} {amount : asset} {obj : account_object}
    (h : apply_counters P d b from_ amount = .ok d1) (hobj : d.accounts from_ = some obj) :
    ∃ obj1, d1.accounts from_ = some obj1 ∧
      (d.head_block_time > P.HARDFORK_627_TIME ∧ amount.asset_id = P.EDC_ASSET →
        obj1.edc_transfers_count = (obj.edc_transfers_count + 1) % 2 ^ 64 ∧
        (d.head_block_time < P.HARDFORK_636_TIME ∨ b = false →
          obj1.edc_transfers_amount_counter = obj.edc_transfers_amount_counter + amount.amount) ∧
        (¬ (d.head_block_time < P.HARDFORK_636_TIME ∨ b = false) →
          obj1.edc_transfers_amount_counter = obj.edc_transfers_amount_counter)) ∧
      (¬ (d.head_block_time > P.HARDFORK_627_TIME ∧ amount.asset_id = P.EDC_ASSET) →
        obj1 = obj) := by
  unfold apply_counters at h
  by_cases hc : d.head_block_time > P.HARDFORK_627_TIME ∧ amount.asset_id = P.EDC_ASSET
  · rw [if_pos hc] at h
    obtain ⟨obj0, hobj0, h⟩ := (bind_ok_iff _ _ _).1 h
    have hsame := (get_ok_iff _ _ _).1 hobj0
    rw [hobj] at hsame
    obtain rfl := Option.some.inj hsame
    simp only [pure, Except.pure, Except.ok.injEq] at h
    by_cases hb : d.head_block_time < P.HARDFORK_636_TIME ∨ b = false
    · rw [if_pos hb] at h
      rw [← h]
      exact ⟨_, if_pos rfl, fun _ => ⟨rfl, fun _ => rfl, fun hn => absurd hb hn⟩,
        fun hn => absurd hc hn⟩
    · rw [if_neg hb] at h
      rw [← h]
      exact ⟨_, if_pos rfl, fun _ => ⟨rfl, fun hp => absurd hp hb, fun _ => rfl⟩,
        fun hn => absurd hc hn⟩
  · rw [if_neg hc] at h
    simp only [pure, Except.pure, Except.ok.injEq] at h
    rw [← h]
    exact ⟨obj, hobj, fun hp => absurd hp hc, fun _ => rfl⟩

/-- C26. For every transfer of amount `x` applied by
`transfer_evaluator::do_apply`: after `HARDFORK_627_TIME` and for `EDC_ASSET`
the sender's `edc_transfers_count` grows by exactly 1 (the 64-bit counter not
being at its last value) and `edc_transfers_amount_counter` grows by `x`,
except that from `HARDFORK_636_TIME` on and for a burning destination the
amount counter is unchanged; otherwise both counters are unchanged. -/
theorem transfer_apply_counters (P : chain_parameters) (d d3 : database)
    (ev : transfer_evaluator) (o : transfer_operation) (acc to_account : account_object)
    (i : Nat)
    (hap : transfer_evaluator.do_apply P d ev o = .ok d3)
    (hfrom : d.accounts o.from_ = some acc)
    (hptr : ev.to_account_ptr = some i) (hto : d.accounts i = some to_account)
    (hwrap : acc.edc_transfers_count + 1 < 2 ^ 64) :
    ∃ acc3, d3.accounts o.from_ = some acc3 ∧
      (d.head_block_time > P.HARDFORK_627_TIME ∧ o.amount.asset_id = P.EDC_ASSET →
        acc3.edc_transfers_count = acc.edc_transfers_count + 1 ∧
        (d.head_block_time ≥ P.HARDFORK_636_TIME ∧ to_account.burning_mode_enabled = true →
          acc3.edc_transfers_amount_counter = acc.edc_transfers_amount_counter) ∧
        (¬ (d.head_block_time ≥ P.HARDFORK_636_TIME ∧ to_account.burning_mode_enabled = true) →
          acc3.edc_transfers_amount_counter
            = acc.edc_transfers_amount_counter + o.amount.amount)) ∧
      (¬ (d.head_block_time > P.HARDFORK_627_TIME ∧ o.amount.asset_id = P.EDC_ASSET) →
        acc3.edc_transfers_count = acc.edc_transfers_count ∧
        acc3.edc_transfers_amount_counter = acc.edc_transfers_amount_counter) := by
  obtain ⟨i1, to1, d1, d2, hp1, hto1, h1, h2, h3⟩ := transfer_do_apply_ok hap
  rw [hptr] at hp1
  obtain rfl := Option.some.inj hp1
  rw [hto] at hto1
  obtain rfl := Option.some.inj hto1
  have hd1 := (adjust_balance_ok h1).1
  have hd2 : (d2.accounts o.from_).map
        (fun a => (a.edc_transfers_count, a.edc_transfers_amount_counter))
      = some (acc.edc_transfers_count, acc.edc_transfers_amount_counter) ∧
      d2.head_block_time = d.head_block_time := by
    by_cases hb : to_account.burning_mode_enabled = false
    · rw [if_pos hb] at h2
      rw [(adjust_balance_ok h2).1, hd1]
      simp [hfrom]
    · rw [if_neg hb] at h2
      obtain ⟨hc, ht⟩ := apply_burning_counters h2 o.from_
      rw [hc, ht, hd1]
      simp [hfrom]
  obtain ⟨hc2, ht2⟩ := hd2
  cases hacc2 : d2.accounts o.from_ with
  | none =>
    rw [hacc2] at hc2
    exact absurd hc2 (by simp)
  | some acc2 =>
    rw [hacc2] at hc2
    simp only [Option.map_some', Option.some.injEq, Prod.mk.injEq] at hc2
    obtain ⟨hcount, hamount⟩ := hc2
    obtain ⟨acc3, hacc3, hedc, hother⟩ := apply_counters_account h3 hacc2
    rw [ht2] at hedc hother
    refine ⟨acc3, hacc3, ?_, ?_⟩
    · intro hc
      obtain ⟨e1, e2, e3⟩ := hedc hc
      refine ⟨?_, ?_, ?_⟩
      · rw [e1, hcount]
        exact Nat.mod_eq_of_lt hwrap
      · rintro ⟨h636, hburn⟩
        rw [e3 (by rw [hburn]; simp; omega), hamount]
      · intro hn
        rw [e2 (by
          by_cases h636 : d.head_block_time < P.HARDFORK_636_TIME
          · exact Or.inl h636
          · right
            cases hbm : to_account.burning_mode_enabled
            · rfl
            · exact absurd ⟨by omega, hbm⟩ hn), hamount]
    · intro hn
      rw [hother hn]
      exact ⟨hcount, hamount⟩

/-- The counters on the example chain at time 700: account 1 has used 400 of
its daily maximum of 500 and sends 100 units of EDC to account 2; the transfer
is accepted and applied, the amount counter becomes 500 and the number of
transfers 1. -/
theorem transfer_apply_counters_witness :
    ∃ d3,
      transfer_evaluator.do_evaluate example_parameters (example_database_counter 700)
        (transfer_evaluator.fresh false)
        (example_transfer 1 2 { amount := 100, asset_id := 1 } { amount := 0, asset_id := 1 })
        = .ok { transfer_evaluator.fresh false with
            from_account_ptr := some 1, to_account_ptr := some 2,
            asset_dyn_data_ptr := some 1, settings_ptr := some 0 } ∧
      transfer_evaluator.do_apply example_parameters (example_database_counter 700)
        { transfer_evaluator.fresh false with
            from_account_ptr := some 1, to_account_ptr := some 2,
            asset_dyn_data_ptr := some 1, settings_ptr := some 0 }
        (example_transfer 1 2 { amount := 100, asset_id := 1 } { amount := 0, asset_id := 1 })
        = .ok d3 ∧
      ∃ acc3, d3.accounts 1 = some acc3 ∧
        acc3.edc_transfers_amount_counter = 500 ∧ acc3.edc_transfers_count = 1 := by
  refine ⟨_, rfl, rfl, ?_⟩
  obtain ⟨acc3, hacc3, hedc, _⟩ := transfer_apply_counters example_parameters
    (example_database_counter 700) _
    { transfer_evaluator.fresh false with
        from_account_ptr := some 1, to_account_ptr := some 2,
        asset_dyn_data_ptr := some 1, settings_ptr := some 0 }
    (example_transfer 1 2 { amount := 100, asset_id := 1 } { amount := 0, asset_id := 1 })
    { example_account with
      edc_limit_transfers_enabled := true, edc_transfers_max_amount := 500,
      edc_transfers_amount_counter := 400 }
    example_account 2 rfl rfl rfl rfl (by decide)
  obtain ⟨hcount, _, hamount⟩ := hedc ⟨by decide, rfl⟩
  exact ⟨acc3, hacc3, by rw [hamount (by decide)]; rfl, by rw [hcount]; rfl⟩

/-! ## Transfers: whitelists and restrictions -/

/-- When the whitelist and restriction assertions pass. -/
theorem transfer_preflight_ok_iff (P : chain_parameters) (d : database)
    (asset_type : asset_object) (from_ to_ : account_id_type) (asset_id : asset_id_type) :
    transfer_preflight P d asset_type from_ to_ asset_id = .ok () ↔
      P.is_authorized_asset d from_ asset_id = true ∧
      P.is_authorized_asset d to_ asset_id = true ∧
      P.not_restricted_account d from_ .payer = true ∧
      P.not_restricted_account d to_ .receiver = true ∧
      (asset_type.transfer_restricted = true →
        from_ = asset_type.issuer ∨ to_ = asset_type.issuer) := by
  unfold transfer_preflight
  constructor
  · intro h
    obtain ⟨_, h1, h⟩ := (bind_ok_iff _ _ _).1 h
    obtain ⟨_, h2, h⟩ := (bind_ok_iff _ _ _).1 h
    obtain ⟨_, h3, h⟩ := (bind_ok_iff _ _ _).1 h
    obtain ⟨_, h4, h⟩ := (bind_ok_iff _ _ _).1 h
    refine ⟨(fc_assert_ok_iff _ _ _).1 h1, (fc_assert_ok_iff _ _ _).1 h2,
      (fc_assert_ok_iff _ _ _).1 h3, (fc_assert_ok_iff _ _ _).1 h4, ?_⟩
    intro hr
    rw [if_pos hr] at h
    exact of_decide_eq_true ((fc_assert_ok_iff _ _ _).1 h)
  · rintro ⟨h1, h2, h3, h4, h5⟩
    rw [h1, h2, h3, h4]
    simp only [fc_assert, if_true, bind, Except.bind]
    by_cases hr : asset_type.transfer_restricted = true
    · rw [if_pos hr, decide_eq_true (h5 hr)]
      rfl
    · rw [if_neg hr]
      rfl

/-- The exception of the whitelist and restriction assertions is that of the
first assertion that fails, in the order of the source. -/
theorem transfer_preflight_first_error (P : chain_parameters) (d : database)
    (asset_type : asset_object) (from_ to_ : account_id_type) (asset_id : asset_id_type) :
    (P.is_authorized_asset d from_ asset_id = false →
      transfer_preflight P d asset_type from_ to_ asset_id
        = .error .transfer_from_account_not_whitelisted) ∧
    (P.is_authorized_asset d from_ asset_id = true →
      P.is_authorized_asset d to_ asset_id = false →
      transfer_preflight P d asset_type from_ to_ asset_id
        = .error .transfer_to_account_not_whitelisted) ∧
    (P.is_authorized_asset d from_ asset_id = true →
      P.is_authorized_asset d to_ asset_id = true →
      P.not_restricted_account d from_ .payer = false →
      transfer_preflight P d asset_type from_ to_ asset_id
        = .error .transfer_from_account_restricted) ∧
    (P.is_authorized_asset d from_ asset_id = true →
      P.is_authorized_asset d to_ asset_id = true →
      P.not_restricted_account d from_ .payer = true →
      P.not_restricted_account d to_ .receiver = false →
      transfer_preflight P d asset_type from_ to_ asset_id
        = .error .transfer_to_account_restricted) ∧
    (P.is_authorized_asset d from_ asset_id = true →
      P.is_authorized_asset d to_ asset_id = true →
      P.not_restricted_account d from_ .payer = true →
      P.not_restricted_account d to_ .receiver = true →
      asset_type.transfer_restricted = true →
      ¬ (from_ = asset_type.issuer ∨ to_ = asset_type.issuer) →
      transfer_preflight P d asset_type from_ to_ asset_id
        = .error .transfer_restricted_transfer_asset) := by
  unfold transfer_preflight
  refine ⟨?_, ?_, ?_, ?_, ?_⟩
  · intro h1
    rw [h1]
    rfl
  · intro h1 h2
    rw [h1, h2]
    rfl
  · intro h1 h2 h3
    rw [h1, h2, h3]
    rfl
  · intro h1 h2 h3 h4
    rw [h1, h2, h3, h4]
    rfl
  · intro h1 h2 h3 h4 h5 h6
    rw [h1, h2, h3, h4, if_pos h5, decide_eq_false h6]
    rfl

/-- Once the objects of a transfer are found, an exception of the whitelist
and restriction assertions is the exception of `do_evaluate`. -/
theorem transfer_do_evaluate_preflight_error {P : chain_parameters} {d : database}
    {ev : transfer_evaluator} {op : transfer_operation}
    {from_account to_account : account_object} {asset_type : asset_object}
    {fee_asset_id : asset_id_type} {dyn : asset_dynamic_data_object}
    {settings : settings_object} {e : error}
    (hfrom : d.accounts op.from_ = some from_account)
    (hto : d.accounts op.to_ = some to_account)
    (hasset : d.assets op.amount.asset_id = some asset_type)
    (hfee : fee_asset_type P d asset_type = .ok fee_asset_id)
    (hdyn : d.asset_dynamic_data asset_type.dynamic_asset_data_id = some dyn)
    (hsettings : d.settings 0 = some settings)
    (hpre : transfer_preflight P d asset_type op.from_ op.to_ op.amount.asset_id = .error e) :
    transfer_evaluator.do_evaluate P d ev op = .error e := by
  unfold transfer_evaluator.do_evaluate
  simp only [get, hfrom, hto, hasset, hfee, hdyn, hsettings, hpre, bind, Except.bind]

/-- C27. `transfer_evaluator::do_evaluate` accepts only if `from` and `to` are
authorized for the asset, `from` is not payer-restricted, `to` is not
receiver-restricted and, for a transfer-restricted asset, `from` or `to` is the
issuer; with the objects of the transfer found, the exception is that of the
first failing check in the order from-not-whitelisted, to-not-whitelisted,
from-restricted, to-restricted, transfer-restricted-asset. -/
theorem transfer_whitelist_checks (P : chain_parameters) (d : database)
    (ev : transfer_evaluator) (op : transfer_operation)
    (from_account to_account : account_object) (asset_type : asset_object)
    (fee_asset_id : asset_id_type) (dyn : asset_dynamic_data_object)
    (settings : settings_object)
    (hfrom : d.accounts op.from_ = some from_account)
    (hto : d.accounts op.to_ = some to_account)
    (hasset : d.assets op.amount.asset_id = some asset_type)
    (hfee : fee_asset_type P d asset_type = .ok fee_asset_id)
    (hdyn : d.asset_dynamic_data asset_type.dynamic_asset_data_id = some dyn)
    (hsettings : d.settings 0 = some settings) :
    ((∃ ev1, transfer_evaluator.do_evaluate P d ev op = .ok ev1) →
      P.is_authorized_asset d op.from_ op.amount.asset_id = true ∧
      P.is_authorized_asset d op.to_ op.amount.asset_id = true ∧
      P.not_restricted_account d op.from_ .payer = true ∧
      P.not_restricted_account d op.to_ .receiver = true ∧
      (asset_type.transfer_restricted = true →
        op.from_ = asset_type.issuer ∨ op.to_ = asset_type.issuer)) ∧
    (P.is_authorized_asset d op.from_ op.amount.asset_id = false →
      transfer_evaluator.do_evaluate P d ev op
        = .error .transfer_from_account_not_whitelisted) ∧
    (P.is_authorized_asset d op.from_ op.amount.asset_id = true →
      P.is_authorized_asset d op.to_ op.amount.asset_id = false →
      transfer_evaluator.do_evaluate P d ev op
        = .error .transfer_to_account_not_whitelisted) ∧
    (P.is_authorized_asset d op.from_ op.amount.asset_id = true →
      P.is_authorized_asset d op.to_ op.amount.asset_id = true →
      P.not_restricted_account d op.from_ .payer = false →
      transfer_evaluator.do_evaluate P d ev op = .error .transfer_from_account_restricted) ∧
    (P.is_authorized_asset d op.from_ op.amount.asset_id = true →
      P.is_authorized_asset d op.to_ op.amount.asset_id = true →
      P.not_restricted_account d op.from_ .payer = true →
      P.not_restricted_account d op.to_ .receiver = false →
      transfer_evaluator.do_evaluate P d ev op = .error .transfer_to_account_restricted) ∧
    (P.is_authorized_asset d op.from_ op.amount.asset_id = true →
      P.is_authorized_asset d op.to_ op.amount.asset_id = true →
      P.not_restricted_account d op.from_ .payer = true →
      P.not_restricted_account d op.to_ .receiver = true →
      asset_type.transfer_restricted = true →
      ¬ (op.from_ = asset_type.issuer ∨ op.to_ = asset_type.issuer) →
      transfer_evaluator.do_evaluate P d ev op
        = .error .transfer_restricted_transfer_asset) := by
  obtain ⟨e1, e2, e3, e4, e5⟩ :=
    transfer_preflight_first_error P d asset_type op.from_ op.to_ op.amount.asset_id
  refine ⟨?_, ?_, ?_, ?_, ?_, ?_⟩
  · rintro ⟨ev1, hev⟩
    obtain ⟨_, _, at1, _, _, _, _, _, _, h3, _, _, _, hpre, _⟩ := transfer_do_evaluate_ok hev
    rw [hasset] at h3
    obtain rfl := Option.some.inj h3
    exact (transfer_preflight_ok_iff _ _ _ _ _ _).1 hpre
  · intro h1
    exact transfer_do_evaluate_preflight_error hfrom hto hasset hfee hdyn hsettings (e1 h1)
  · intro h1 h2
    exact transfer_do_evaluate_preflight_error hfrom hto hasset hfee hdyn hsettings (e2 h1 h2)
  · intro h1 h2 h3
    exact transfer_do_evaluate_preflight_error hfrom hto hasset hfee hdyn hsettings
      (e3 h1 h2 h3)
  · intro h1 h2 h3 h4
    exact transfer_do_evaluate_preflight_error hfrom hto hasset hfee hdyn hsettings
      (e4 h1 h2 h3 h4)
  · intro h1 h2 h3 h4 h5 h6
    exact transfer_do_evaluate_preflight_error hfrom hto hasset hfee hdyn hsettings
      (e5 h1 h2 h3 h4 h5 h6)

/-- The order of the checks on the example chain at time 700: with no account
authorized for any asset, a transfer from account 1 to account 2 fails both
whitelist checks and is thrown out with the exception of the first; with every
account authorized the same transfer is accepted. -/
theorem transfer_whitelist_checks_witness :
    example_parameters_unauthorized.is_authorized_asset (example_database 700 1000) 1 2 = false ∧
    example_parameters_unauthorized.is_authorized_asset (example_database 700 1000) 2 2 = false ∧
    transfer_evaluator.do_evaluate example_parameters_unauthorized (example_database 700 1000)
      (transfer_evaluator.fresh false)
      (example_transfer 1 2 { amount := 300, asset_id := 2 } { amount := 0, asset_id := 2 })
      = .error .transfer_from_account_not_whitelisted ∧
    (∃ ev1, transfer_evaluator.do_evaluate example_parameters (example_database 700 1000)
      (transfer_evaluator.fresh false)
      (example_transfer 1 2 { amount := 300, asset_id := 2 } { amount := 0, asset_id := 2 })
      = .ok ev1) :=
  ⟨rfl, rfl,
    (transfer_whitelist_checks example_parameters_unauthorized (example_database 700 1000)
      (transfer_evaluator.fresh false)
      (example_transfer 1 2 { amount := 300, asset_id := 2 } { amount := 0, asset_id := 2 })
      example_account example_account (example_asset 2) 2
      { current_supply := 200, accumulated_fees := 0, fee_pool := 0, fee_burnt := 0 }
      example_settings rfl rfl rfl rfl rfl rfl).2.1 rfl,
    ⟨_, rfl⟩⟩

/-! ## Blind transfers: the checks before the fee -/

/-- An accepted transfer has passed the checks that come before the fee. -/
theorem transfer_do_evaluate_preflight_checks {P : chain_parameters} {d : database}
    {ev ev1 : transfer_evaluator} {op : transfer_operation}
    (h : transfer_evaluator.do_evaluate P d ev op = .ok ev1) :
    ∃ from_account to_account asset_type settings,
      d.accounts op.from_ = some from_account ∧ d.accounts op.to_ = some to_account ∧
      d.assets op.amount.asset_id = some asset_type ∧ d.settings 0 = some settings ∧
      transfer_evaluator.preflight_checks P d asset_type from_account to_account settings op
        = .ok () := by
  obtain ⟨fa, ta, at1, fid, dyn, st, cf, h1, h2, h3, _, _, h6, h7, h8, _, _⟩ :=
    transfer_do_evaluate_ok h
  refine ⟨fa, ta, at1, st, h1, h2, h3, h6, ?_⟩
  unfold transfer_evaluator.preflight_checks
  rw [h7]
  by_cases ht : d.head_block_time > P.HARDFORK_627_TIME
  · rw [if_pos ht] at h8
    simp only [bind, Except.bind, if_pos ht]
    exact (post_627_ok h8).1
  · simp only [bind, Except.bind, if_neg ht]
    rfl

/-- An accepted blind transfer has passed the checks that come before the
fee. -/
theorem blind_do_evaluate_preflight_checks {P : chain_parameters} {d : database}
    {ev ev1 : blind_transfer2_evaluator} {op : blind_transfer2_operation}
    (h : blind_transfer2_evaluator.do_evaluate P d ev op = .ok ev1) :
    ∃ from_account to_account asset_type settings,
      d.accounts op.from_ = some from_account ∧ d.accounts op.to_ = some to_account ∧
      d.assets op.amount.asset_id = some asset_type ∧ d.settings 0 = some settings ∧
      blind_transfer2_evaluator.preflight_checks P d asset_type from_account to_account
        settings op = .ok () := by
  obtain ⟨fa, ta, at1, dyn, st, cf, fd, h1, h2, h3, _, h5, h6, h7, _, _, _⟩ :=
    blind_do_evaluate_ok h
  refine ⟨fa, ta, at1, st, h1, h2, h3, h5, ?_⟩
  unfold blind_transfer2_evaluator.preflight_checks
  rw [h6]
  exact h7

/-- Up to `HARDFORK_631_TIME` a blind transfer is not held to the EDC daily
limit. -/
theorem blind_daily_limit_before_631 (P : chain_parameters) (d : database)
    (from_account to_account : account_object) (settings : settings_object)
    (bop : blind_transfer2_operation) (ht : d.head_block_time ≤ P.HARDFORK_631_TIME) :
    blind_transfer2_evaluator.daily_limit P d from_account to_account settings bop = .ok () := by
  unfold blind_transfer2_evaluator.daily_limit
  rw [if_neg]
  rintro ⟨h, _⟩
  omega

/-- After `HARDFORK_631_TIME` the EDC daily limit of a blind transfer is that of
a transfer of the same amount. -/
theorem blind_daily_limit_after_631 (P : chain_parameters) (d : database)
    (from_account to_account : account_object) (settings : settings_object)
    (op : transfer_operation) (bop : blind_transfer2_operation)
    (hamount : bop.amount = op.amount) (ht : d.head_block_time > P.HARDFORK_631_TIME) :
    blind_transfer2_evaluator.daily_limit P d from_account to_account settings bop
      = transfer_evaluator.daily_limit P d from_account to_account settings op := by
  unfold blind_transfer2_evaluator.daily_limit transfer_evaluator.daily_limit limit_is_valid
  rw [hamount, if_pos ht]
  by_cases hc : op.amount.asset_id = P.EDC_ASSET ∧ from_account.edc_limit_transfers_enabled = true
  · rw [if_pos hc, if_pos ⟨ht, hc⟩]
  · rw [if_neg hc, if_neg (fun h => hc h.2)]

/-- C28, as amended. For every ledger state and every pair of a transfer and a
blind transfer with identical `from`, `to` and `amount` (the gate 627 not lying
after the gate 631): up to `HARDFORK_627_TIME` and after `HARDFORK_631_TIME` the
checks before the fee of `blind_transfer2_evaluator::do_evaluate` end exactly
as those of `transfer_evaluator::do_evaluate`; at every time the blind checks
pass when the transfer checks pass; between the two gates the blind checks are
the whitelist and restriction assertions alone, without the EDC daily
limit. -/
theorem blind_preflight_matches_transfer (P : chain_parameters) (d : database)
    (asset_type : asset_object) (from_account to_account : account_object)
    (settings : settings_object) (op : transfer_operation) (bop : blind_transfer2_operation)
    (hfrom : bop.from_ = op.from_) (hto : bop.to_ = op.to_) (hamount : bop.amount = op.amount)
    (horder : P.HARDFORK_627_TIME ≤ P.HARDFORK_631_TIME) :
    (d.head_block_time ≤ P.HARDFORK_627_TIME ∨ d.head_block_time > P.HARDFORK_631_TIME →
      blind_transfer2_evaluator.preflight_checks P d asset_type from_account to_account
          settings bop
        = transfer_evaluator.preflight_checks P d asset_type from_account to_account
          settings op) ∧
    (transfer_evaluator.preflight_checks P d asset_type from_account to_account settings op
        = .ok () →
      blind_transfer2_evaluator.preflight_checks P d asset_type from_account to_account
          settings bop = .ok ()) ∧
    (d.head_block_time ≤ P.HARDFORK_631_TIME →
      blind_transfer2_evaluator.preflight_checks P d asset_type from_account to_account
          settings bop
        = transfer_preflight P d asset_type op.from_ op.to_ op.amount.asset_id) := by
  have hwindow : d.head_block_time ≤ P.HARDFORK_631_TIME →
      blind_transfer2_evaluator.preflight_checks P d asset_type from_account to_account
          settings bop
        = transfer_preflight P d asset_type op.from_ op.to_ op.amount.asset_id := by
    intro ht
    unfold blind_transfer2_evaluator.preflight_checks
    rw [blind_daily_limit_before_631 P d from_account to_account settings bop ht, hfrom, hto,
      hamount]
    cases transfer_preflight P d asset_type op.from_ op.to_ op.amount.asset_id <;> rfl
  have hsame : d.head_block_time ≤ P.HARDFORK_627_TIME ∨
      d.head_block_time > P.HARDFORK_631_TIME →
      blind_transfer2_evaluator.preflight_checks P d asset_type from_account to_account
          settings bop
        = transfer_evaluator.preflight_checks P d asset_type from_account to_account
          settings op := by
    rintro (ht | ht)
    · rw [hwindow (by omega)]
      unfold transfer_evaluator.preflight_checks
      rw [if_neg (by omega)]
      cases transfer_preflight P d asset_type op.from_ op.to_ op.amount.asset_id <;> rfl
    · unfold blind_transfer2_evaluator.preflight_checks transfer_evaluator.preflight_checks
      rw [blind_daily_limit_after_631 P d from_account to_account settings op bop hamount ht,
        hfrom, hto, hamount, if_pos (by omega)]
  refine ⟨hsame, ?_, hwindow⟩
  intro hok
  by_cases ht : d.head_block_time ≤ P.HARDFORK_631_TIME
  · rw [hwindow ht]
    unfold transfer_evaluator.preflight_checks at hok
    obtain ⟨_, h1, _⟩ := (bind_ok_iff _ _ _).1 hok
    exact h1
  · rw [hsame (Or.inr (by omega))]
    exact hok

/-- The checks before the fee on the example chain at time 700, after every
gate: account 1 has used 99 of its daily maximum of 100; 1 unit of EDC passes
the checks of both evaluators, 5 units are thrown out by both with the
exception of the daily limit. -/
theorem blind_preflight_matches_transfer_witness :
    blind_transfer2_evaluator.preflight_checks example_parameters (example_database_limited 700)
      (example_asset 1) example_limited_account example_account example_settings
      (example_blind_transfer 1 2 { amount := 1, asset_id := 1 } { amount := 0, asset_id := 1 })
      = .ok () ∧
    transfer_evaluator.preflight_checks example_parameters (example_database_limited 700)
      (example_asset 1) example_limited_account example_account example_settings
      (example_transfer 1 2 { amount := 1, asset_id := 1 } { amount := 0, asset_id := 1 })
      = .ok () ∧
    blind_transfer2_evaluator.preflight_checks example_parameters (example_database_limited 700)
      (example_asset 1) example_limited_account example_account example_settings
      (example_blind_transfer 1 2 { amount := 5, asset_id := 1 } { amount := 0, asset_id := 1 })
      = .error .daily_limit_exceeded ∧
    transfer_evaluator.preflight_checks example_parameters (example_database_limited 700)
      (example_asset 1) example_limited_account example_account example_settings
      (example_transfer 1 2 { amount := 5, asset_id := 1 } { amount := 0, asset_id := 1 })
      = .error .daily_limit_exceeded := by
  have h1 := (blind_preflight_matches_transfer example_parameters (example_database_limited 700)
    (example_asset 1) example_limited_account example_account example_settings
    (example_transfer 1 2 { amount := 1, asset_id := 1 } { amount := 0, asset_id := 1 })
    (example_blind_transfer 1 2 { amount := 1, asset_id := 1 } { amount := 0, asset_id := 1 })
    rfl rfl rfl (by decide)).1 (Or.inr (by decide))
  have h5 := (blind_preflight_matches_transfer example_parameters (example_database_limited 700)
    (example_asset 1) example_limited_account example_account example_settings
    (example_transfer 1 2 { amount := 5, asset_id := 1 } { amount := 0, asset_id := 1 })
    (example_blind_transfer 1 2 { amount := 5, asset_id := 1 } { amount := 0, asset_id := 1 })
    rfl rfl rfl (by decide)).1 (Or.inr (by decide))
  exact ⟨h1.trans rfl, rfl, h5.trans rfl, rfl⟩

/-- C28 fails as stated between `HARDFORK_627_TIME` and `HARDFORK_631_TIME`: on
the example chain at time 630 account 1 has used 99 of its daily maximum of 100
and sends 5 units of EDC to account 2.  The checks of the blind transfer pass
and `do_evaluate` accepts it; the checks of the transfer with the same `from`,
`to` and `amount` throw on the daily limit, and so does its `do_evaluate`. -/
theorem blind_preflight_counterexample :
    blind_transfer2_evaluator.preflight_checks example_parameters (example_database_limited 630)
      (example_asset 1) example_limited_account example_account example_settings
      (example_blind_transfer 1 2 { amount := 5, asset_id := 1 } { amount := 0, asset_id := 1 })
      = .ok () ∧
    transfer_evaluator.preflight_checks example_parameters (example_database_limited 630)
      (example_asset 1) example_limited_account example_account example_settings
      (example_transfer 1 2 { amount := 5, asset_id := 1 } { amount := 0, asset_id := 1 })
      = .error .daily_limit_exceeded ∧
    (∃ ev1, blind_transfer2_evaluator.do_evaluate example_parameters
      (example_database_limited 630) (blind_transfer2_evaluator.fresh false)
      (example_blind_transfer 1 2 { amount := 5, asset_id := 1 } { amount := 0, asset_id := 1 })
      = .ok ev1) ∧
    transfer_evaluator.do_evaluate example_parameters (example_database_limited 630)
      (transfer_evaluator.fresh false)
      (example_transfer 1 2 { amount := 5, asset_id := 1 } { amount := 0, asset_id := 1 })
      = .error .daily_limit_exceeded :=
  ⟨rfl, rfl, ⟨_, rfl⟩, rfl⟩

/-! ## Blind transfers: the fee for a burning destination -/

/-- After `HARDFORK_627_TIME` an accepted blind transfer leaves the member
`custom_fee` as lines 305-326 resolve it. -/
theorem blind_do_evaluate_resolved {P : chain_parameters} {d : database}
    {ev0 ev : blind_transfer2_evaluator} {op : blind_transfer2_operation}
    (heval : blind_transfer2_evaluator.do_evaluate P d ev0 op = .ok ev)
    (h627 : d.head_block_time > P.HARDFORK_627_TIME) :
    ∃ from_account to_account settings,
      d.accounts op.from_ = some from_account ∧ d.accounts op.to_ = some to_account ∧
      d.settings 0 = some settings ∧
      ev.custom_fee =
        blind_transfer2_evaluator.resolve_custom_fee P d from_account to_account settings op := by
  obtain ⟨from_account, to_account, _, _, settings, cf, _, hfrom, hto, _, _, hsettings, _, _,
    hfee, _, hev⟩ := blind_do_evaluate_ok heval
  refine ⟨from_account, to_account, settings, hfrom, hto, hsettings, ?_⟩
  rw [hev]
  exact ((blind_fee_checks_ok hfee).2.1 h627).1

/-- C29, as amended. For every blind transfer to a destination with
`burning_mode_enabled` accepted after `HARDFORK_627_TIME`: from
`HARDFORK_636_TIME` on `do_evaluate` resolves `custom_fee` to
`asset(0, id of the transferred asset)`; before `HARDFORK_636_TIME` it resolves
the fee as for any other destination, to the custom fee that
`settings.blind_transfer_fees` holds for the transferred asset or else to
`settings.blind_transfer_default_fee`. -/
theorem blind_burning_fee (P : chain_parameters) (d : database)
    (ev0 ev : blind_transfer2_evaluator) (op : blind_transfer2_operation)
    (to_account : account_object)
    (heval : blind_transfer2_evaluator.do_evaluate P d ev0 op = .ok ev)
    (hto : d.accounts op.to_ = some to_account)
    (hburn : to_account.burning_mode_enabled = true)
    (h627 : d.head_block_time > P.HARDFORK_627_TIME) :
    (d.head_block_time ≥ P.HARDFORK_636_TIME →
      ev.custom_fee = { amount := 0, asset_id := op.amount.asset_id }) ∧
    (d.head_block_time < P.HARDFORK_636_TIME →
      ∃ settings, d.settings 0 = some settings ∧
        ev.custom_fee =
          match P.get_custom_fee d settings.blind_transfer_fees op.amount.asset_id with
          | some fee =>
            { amount := P.round_percent d op.amount.amount fee.percent, asset_id := fee.asset_id }
          | none => settings.blind_transfer_default_fee) := by
  obtain ⟨from_account, to1, settings, _, hto1, hsettings, hres⟩ :=
    blind_do_evaluate_resolved heval h627
  rw [hto] at hto1
  obtain rfl := Option.some.inj hto1
  unfold blind_transfer2_evaluator.resolve_custom_fee at hres
  have hrank : ¬ (d.head_block_time ≥ P.HARDFORK_636_TIME ∧ op.amount.asset_id = P.EDC_ASSET
      ∧ from_account.rank > P.rank_default ∧ to_account.burning_mode_enabled = false) := by
    rintro ⟨_, _, _, h⟩
    rw [hburn] at h
    exact absurd h (by decide)
  rw [if_neg hrank] at hres
  constructor
  · intro h636
    have hlook : ¬ (d.head_block_time < P.HARDFORK_636_TIME
        ∨ to_account.burning_mode_enabled = false) := by
      rintro (h | h)
      · omega
      · rw [hburn] at h
        exact absurd h (by decide)
    rw [if_neg hlook] at hres
    exact hres
  · intro h636
    rw [if_pos (Or.inl h636)] at hres
    exact ⟨settings, hsettings, hres⟩

/-- A blind transfer to the burning account 3 on the example chain at time
700, after `HARDFORK_636_TIME`, the default fee being 5 EDC: account 1 sends 50
units of asset 2 and is accepted with a `custom_fee` of 0 units of asset 2. -/
theorem blind_burning_fee_witness :
    ∃ ev, blind_transfer2_evaluator.do_evaluate example_parameters
        (example_database_blind 700 1000 5 { amount := 5, asset_id := 1 })
        (blind_transfer2_evaluator.fresh false)
        (example_blind_transfer 1 3 { amount := 50, asset_id := 2 }
          { amount := 5, asset_id := 1 }) = .ok ev ∧
      ev.custom_fee = { amount := 0, asset_id := 2 } := by
  refine ⟨_, rfl, ?_⟩
  exact (blind_burning_fee example_parameters
    (example_database_blind 700 1000 5 { amount := 5, asset_id := 1 })
    (blind_transfer2_evaluator.fresh false) _
    (example_blind_transfer 1 3 { amount := 50, asset_id := 2 } { amount := 5, asset_id := 1 })
    { example_account with burning_mode_enabled := true } rfl rfl rfl (by decide)).1
    (by decide)

/-- C29 fails as stated: on the example chain at time 630, between
`HARDFORK_627_TIME` and `HARDFORK_636_TIME`, the default fee being 5 EDC,
account 1 sends 50 units of asset 2 to account 3, whose `burning_mode_enabled`
is true; `do_evaluate` accepts and resolves `custom_fee` to 5 EDC, not to 0
units of asset 2. -/
theorem blind_burning_fee_counterexample :
    example_parameters.HARDFORK_627_TIME < 630 ∧ 630 < example_parameters.HARDFORK_636_TIME ∧
    ((example_database_blind 630 1000 5 { amount := 5, asset_id := 1 }).accounts 3).map
      (fun acc => acc.burning_mode_enabled) = some true ∧
    ∃ ev, blind_transfer2_evaluator.do_evaluate example_parameters
        (example_database_blind 630 1000 5 { amount := 5, asset_id := 1 })
        (blind_transfer2_evaluator.fresh false)
        (example_blind_transfer 1 3 { amount := 50, asset_id := 2 }
          { amount := 5, asset_id := 1 }) = .ok ev ∧
      ev.custom_fee = { amount := 5, asset_id := 1 } ∧
      ev.custom_fee ≠ { amount := 0, asset_id := 2 } :=
  ⟨by decide, by decide, rfl, _, rfl, rfl, by decide⟩

/-! ## Blind transfers: the fee at the gate 627 -/

/-- C30. The fee of a blind transfer at `head_block_time == HARDFORK_627_TIME`
on the example chain, the default fee being 5 EDC: account 1 holds 1000 units
of asset 2 and 5 EDC and sends the 1000 units to account 2.  `do_evaluate` does
not take the branch behind `head_block_time() > HARDFORK_627_TIME` and accepts
with a `custom_fee` of 5 EDC; `do_apply` does not take the branch behind
`head_block_time() < HARDFORK_627_TIME`: the sender keeps the 5 EDC, the supply
of EDC stays 200 and `fee_burnt` stays 0, while the record states a fee of 5.
One second earlier the same transfer leaves the sender 0 EDC, a supply of 195
and a `fee_burnt` of 5. -/
theorem blind_fee_regime_at_627 :
    example_parameters.HARDFORK_627_TIME = 627 ∧
    (∃ ev d3 fee,
      blind_transfer2_evaluator.do_evaluate example_parameters
        (example_database_blind 627 1000 5 { amount := 5, asset_id := 1 })
        (blind_transfer2_evaluator.fresh false)
        (example_blind_transfer 1 2 { amount := 1000, asset_id := 2 }
          { amount := 5, asset_id := 1 }) = .ok ev ∧
      ev.custom_fee = { amount := 5, asset_id := 1 } ∧
      blind_transfer2_evaluator.do_apply example_parameters
        (example_database_blind 627 1000 5 { amount := 5, asset_id := 1 }) ev
        (example_blind_transfer 1 2 { amount := 1000, asset_id := 2 }
          { amount := 5, asset_id := 1 }) = .ok (d3, fee) ∧
      fee = { amount := 5, asset_id := 1 } ∧
      d3.get_balance 1 1 = 5 ∧
      d3.asset_dynamic_data 1
        = some { current_supply := 200, accumulated_fees := 0, fee_pool := 0, fee_burnt := 0 } ∧
      d3.blind_transfers2.map (fun obj => obj.fee) = [5]) ∧
    (∃ ev d3 fee,
      blind_transfer2_evaluator.do_evaluate example_parameters
        (example_database_blind 626 1000 5 { amount := 5, asset_id := 1 })
        (blind_transfer2_evaluator.fresh false)
        (example_blind_transfer 1 2 { amount := 1000, asset_id := 2 }
          { amount := 5, asset_id := 1 }) = .ok ev ∧
      ev.custom_fee = { amount := 5, asset_id := 1 } ∧
      blind_transfer2_evaluator.do_apply example_parameters
        (example_database_blind 626 1000 5 { amount := 5, asset_id := 1 }) ev
        (example_blind_transfer 1 2 { amount := 1000, asset_id := 2 }
          { amount := 5, asset_id := 1 }) = .ok (d3, fee) ∧
      fee = { amount := 5, asset_id := 1 } ∧
      d3.get_balance 1 1 = 0 ∧
      d3.asset_dynamic_data 1
        = some { current_supply := 195, accumulated_fees := 0, fee_pool := 0, fee_burnt := 5 } ∧
      d3.blind_transfers2.map (fun obj => obj.fee) = [5]) :=
  ⟨rfl, ⟨_, _, _, rfl, rfl, rfl, rfl, by decide, by decide, by decide⟩,
    ⟨_, _, _, rfl, rfl, rfl, rfl, by decide, by decide, by decide⟩⟩

/-! ## Asset options: the lists -/

/-- A loop of assertions that returns has passed its test on every item. -/
theorem assert_each_ok {α : Type} (items : List α) (test : α → Bool)
    (h : assert_each items test = .ok ()) : ∀ item, item ∈ items → test item = true := by
  induction items with
  | nil =>
    intro item hmem
    exact absurd hmem (List.not_mem_nil item)
  | cons first rest ih =>
    unfold assert_each at h
    obtain ⟨_, h1, h2⟩ := (bind_ok_iff _ _ _).1 h
    intro item hmem
    rcases List.mem_cons.1 hmem with hfirst | hrest
    · rw [hfirst]
      exact (fc_assert_ok_iff _ _ _).1 h1
    · exact ih h2 item hrest

/-- C33. For every `asset_options` value on which `validate()` returns,
`whitelist_markets` and `blacklist_markets` have no asset in common, and if
`whitelist_authorities` or `blacklist_authorities` is not empty the flag
`white_list` is set in `flags`. -/
theorem asset_options_validate_lists (P : chain_parameters) (o : asset_options)
    (h : o.validate P = .ok ()) :
    (∀ item, item ∈ o.whitelist_markets → item ∉ o.blacklist_markets) ∧
    (∀ item, item ∈ o.blacklist_markets → item ∉ o.whitelist_markets) ∧
    (o.whitelist_authorities ≠ [] ∨ o.blacklist_authorities ≠ [] →
      o.flags &&& P.white_list ≠ 0) := by
  obtain ⟨_, _, _, _, _, _, _, _, _, hflag, hwhite, hblack⟩ := asset_options_validate_ok h
  refine ⟨?_, ?_, ?_⟩
  · intro item hmem hin
    have htest := assert_each_ok _ _ hwhite item hmem
    simp only [Bool.not_eq_true', List.contains_eq_any_beq, List.any_eq_false, beq_iff_eq]
      at htest
    exact htest item hin rfl
  · intro item hmem hin
    have htest := assert_each_ok _ _ hblack item hmem
    simp only [Bool.not_eq_true', List.contains_eq_any_beq, List.any_eq_false, beq_iff_eq]
      at htest
    exact htest item hin rfl
  · intro hlists
    apply hflag
    rcases hlists with hw | hb
    · cases hl : o.whitelist_authorities with
      | nil => exact absurd hl hw
      | cons a rest => rfl
    · cases hl : o.blacklist_authorities with
      | nil => exact absurd hl hb
      | cons a rest => simp

/-- The lists of asset options on the example chain: with the flag
`white_list`, one whitelisted authority, asset 1 as whitelisted and asset 2 as
blacklisted market, `example_options` pass; with asset 1 in both market lists
they are thrown out, and so they are with a whitelisted authority and no flag. -/
theorem asset_options_validate_lists_witness :
    ({ example_options with
        flags := 0x02, whitelist_authorities := [1], whitelist_markets := [1],
        blacklist_markets := [2] } : asset_options).validate example_parameters = .ok () ∧
    (∀ item, item ∈ [1] → item ∉ [2]) ∧
    (([1] : List account_id_type) ≠ [] ∨ ([] : List account_id_type) ≠ [] →
      0x02 &&& example_parameters.white_list ≠ 0) ∧
    ({ example_options with
        flags := 0x02, whitelist_authorities := [1], whitelist_markets := [1],
        blacklist_markets := [1] } : asset_options).validate example_parameters
      = .error .assert_exception ∧
    ({ example_options with whitelist_authorities := [1] } : asset_options).validate
      example_parameters = .error .assert_exception := by
  have h := asset_options_validate_lists example_parameters
    { example_options with
        flags := 0x02, whitelist_authorities := [1], whitelist_markets := [1],
        blacklist_markets := [2] } rfl
  exact ⟨rfl, h.1, h.2.2, rfl, rfl⟩

/-! ## Burning: supply and burnt amount -/

/-- Burning in one dynamic-data object moves an amount from `current_supply`
to `fee_burnt`: the sum of the two stays, in every object. -/
theorem burn_keeps_sum (d : database) (i : Nat) (data : asset_dynamic_data_object)
    (amount : Int) (hdata : d.asset_dynamic_data i = some data) (k : Nat)
    (d1 : database)
    (hd1 : d1.asset_dynamic_data = update d.asset_dynamic_data i (burn_supply data amount)) :
    supply_plus_burnt d1 k = supply_plus_burnt d k := by
  unfold supply_plus_burnt
  rw [hd1]
  by_cases hk : k = i
  · subst hk
    simp only [update, if_true, hdata, Option.map_some', burn_supply, Option.some.injEq]
    omega
  · simp only [update, if_neg hk]

/-- A ledger with the same dynamic data has the same sums. -/
theorem supply_plus_burnt_congr {d d1 : database}
    (h : d1.asset_dynamic_data = d.asset_dynamic_data) (k : Nat) :
    supply_plus_burnt d1 k = supply_plus_burnt d k := by
  unfold supply_plus_burnt
  rw [h]

/-- The burning branch of `do_apply` keeps the sum, whatever its pointers. -/
theorem apply_burning_sum {P : chain_parameters} {d d1 : database} {dp fp : Option Nat}
    {amount : asset} (h : apply_burning P d dp fp amount = .ok d1) (k : Nat) :
    supply_plus_burnt d1 k = supply_plus_burnt d k := by
  unfold apply_burning at h
  cases dp with
  | none =>
    simp only [Except.ok.injEq] at h
    rw [← h]
  | some i =>
    simp only at h
    obtain ⟨data, hdata, h⟩ := (bind_ok_iff _ _ _).1 h
    have hdata1 := (get_ok_iff _ _ _).1 hdata
    split at h
    · obtain ⟨⟨j, acc⟩, _, h⟩ := (bind_ok_iff _ _ _).1 h
      simp only [pure, Except.pure, Except.ok.injEq] at h
      exact burn_keeps_sum d i data amount.amount hdata1 k d1 (by rw [← h])
    · simp only [pure, Except.pure, Except.ok.injEq] at h
      exact burn_keeps_sum d i data amount.amount hdata1 k d1 (by rw [← h])

/-- A change of balance leaves the dynamic data alone. -/
theorem adjust_balance_dyn_data {d d1 : database} {account : account_id_type} {delta : asset}
    (h : d.adjust_balance account delta = .ok d1) :
    d1.asset_dynamic_data = d.asset_dynamic_data := by
  rw [(adjust_balance_ok h).1]

/-- `transfer_evaluator::do_apply` keeps the sum in every object. -/
theorem transfer_do_apply_sum {P : chain_parameters} {d d3 : database}
    {ev : transfer_evaluator} {o : transfer_operation}
    (h : transfer_evaluator.do_apply P d ev o = .ok d3) (k : Nat) :
    supply_plus_burnt d3 k = supply_plus_burnt d k := by
  obtain ⟨_, to_account, d1, d2, _, _, h1, h2, h3⟩ := transfer_do_apply_ok h
  rw [supply_plus_burnt_congr (apply_counters_frame h3).2.1 k,
    ← supply_plus_burnt_congr (adjust_balance_dyn_data h1) k]
  by_cases hb : to_account.burning_mode_enabled = false
  · rw [if_pos hb] at h2
    exact supply_plus_burnt_congr (adjust_balance_dyn_data h2) k
  · rw [if_neg hb] at h2
    exact apply_burning_sum h2 k

/-- The fee block of the blind `do_apply` keeps the sum in every object. -/
theorem blind_apply_fee_sum {P : chain_parameters} {d d1 : database}
    {ev : blind_transfer2_evaluator} {o : blind_transfer2_operation}
    (h : blind_transfer2_evaluator.apply_fee P d ev o = .ok d1) (k : Nat) :
    supply_plus_burnt d1 k = supply_plus_burnt d k := by
  unfold blind_transfer2_evaluator.apply_fee at h
  by_cases ht : d.head_block_time < P.HARDFORK_627_TIME
  · rw [if_pos ht] at h
    obtain ⟨d0, h0, h⟩ := (bind_ok_iff _ _ _).1 h
    have hd0 : d0.asset_dynamic_data = d.asset_dynamic_data := by
      split at h0
      · exact adjust_balance_dyn_data h0
      · simp only [pure, Except.pure, Except.ok.injEq] at h0
        rw [← h0]
    rw [← supply_plus_burnt_congr hd0 k]
    cases hp : ev.fee_dyn_data_ptr with
    | none =>
      rw [hp] at h
      simp only [pure, Except.pure, Except.ok.injEq] at h
      rw [← h]
    | some i =>
      rw [hp] at h
      simp only at h
      obtain ⟨data, hdata, h⟩ := (bind_ok_iff _ _ _).1 h
      simp only [pure, Except.pure, Except.ok.injEq] at h
      exact burn_keeps_sum d0 i data ev.custom_fee.amount ((get_ok_iff _ _ _).1 hdata) k d1
        (by rw [← h])
  · rw [if_neg ht] at h
    simp only [pure, Except.pure, Except.ok.injEq] at h
    rw [← h]

/-- `blind_transfer2_evaluator::do_apply` keeps the sum in every object. -/
theorem blind_do_apply_sum {P : chain_parameters} {d d5 : database}
    {ev : blind_transfer2_evaluator} {o : blind_transfer2_operation} {r : asset}
    (h : blind_transfer2_evaluator.do_apply P d ev o = .ok (d5, r)) (k : Nat) :
    supply_plus_burnt d5 k = supply_plus_burnt d k := by
  obtain ⟨_, to_account, d1, d2, d3, d4, _, _, h1, h2, h3, h4, h5, _⟩ := blind_do_apply_ok h
  have e5 : supply_plus_burnt d5 k = supply_plus_burnt d4 k := by rw [h5]; rfl
  have e4 : supply_plus_burnt d4 k = supply_plus_burnt d3 k := by
    by_cases hb : to_account.burning_mode_enabled = false
    · rw [if_pos hb] at h4
      exact supply_plus_burnt_congr (adjust_balance_dyn_data h4) k
    · rw [if_neg hb] at h4
      exact apply_burning_sum h4 k
  rw [e5, e4, supply_plus_burnt_congr (apply_counters_frame h3).2.1 k, blind_apply_fee_sum h2 k,
    supply_plus_burnt_congr (adjust_balance_dyn_data h1) k]

/-- `override_transfer_evaluator::do_apply` keeps the sum in every object. -/
theorem override_do_apply_sum {d d2 : database} {ev : override_transfer_evaluator}
    {o : override_transfer_operation}
    (h : override_transfer_evaluator.do_apply d ev o = .ok d2) (k : Nat) :
    supply_plus_burnt d2 k = supply_plus_burnt d k := by
  unfold override_transfer_evaluator.do_apply at h
  obtain ⟨d1, h1, h⟩ := (bind_ok_iff _ _ _).1 h
  rw [← supply_plus_burnt_congr (adjust_balance_dyn_data h1) k]
  cases hp : ev.to_account_ptr with
  | none =>
    rw [hp] at h
    simp only [pure, Except.pure, Except.ok.injEq] at h
    rw [← h]
  | some i =>
    rw [hp] at h
    simp only at h
    obtain ⟨to_account, _, h⟩ := (bind_ok_iff _ _ _).1 h
    unfold override_transfer_evaluator.apply_credit at h
    by_cases hb : to_account.burning_mode_enabled = false
    · rw [if_pos hb] at h
      exact supply_plus_burnt_congr (adjust_balance_dyn_data h) k
    · rw [if_neg hb] at h
      cases hq : ev.asset_dyn_data_ptr with
      | none =>
        rw [hq] at h
        simp only [pure, Except.pure, Except.ok.injEq] at h
        rw [← h]
      | some j =>
        rw [hq] at h
        simp only at h
        obtain ⟨data, hdata, h⟩ := (bind_ok_iff _ _ _).1 h
        simp only [pure, Except.pure, Except.ok.injEq] at h
        exact burn_keeps_sum d1 j data o.amount.amount ((get_ok_iff _ _ _).1 hdata) k d2
          (by rw [← h])

/-- Replacing a dynamic-data object by one with the same sum keeps the sum in
every object. -/
theorem update_keeps_sum (d d1 : database) (i : Nat) (data data1 : asset_dynamic_data_object)
    (hdata : d.asset_dynamic_data i = some data)
    (hsum : data1.current_supply + data1.fee_burnt = data.current_supply + data.fee_burnt)
    (hd1 : d1.asset_dynamic_data = update d.asset_dynamic_data i data1) (k : Nat) :
    supply_plus_burnt d1 k = supply_plus_burnt d k := by
  unfold supply_plus_burnt
  rw [hd1]
  by_cases hk : k = i
  · subst hk
    simp only [update, if_true, hdata, Option.map_some', Option.some.injEq]
    exact hsum
  · simp only [update, if_neg hk]

/-- `generic_evaluator::convert_fee` keeps the sum in every object, before and
after `HARDFORK_623_TIME`. -/
theorem convert_fee_sum {P : chain_parameters} {g : generic_evaluator} {d d1 : database}
    (h : g.convert_fee P d = .ok d1) (k : Nat) :
    supply_plus_burnt d1 k = supply_plus_burnt d k := by
  unfold generic_evaluator.convert_fee at h
  split at h
  · obtain ⟨⟨asset_id, _⟩, _, h⟩ := (bind_ok_iff _ _ _).1 h
    simp only at h
    split at h
    · split at h
      · obtain ⟨⟨i, dyn_data⟩, hdyn, h⟩ := (bind_ok_iff _ _ _).1 h
        obtain ⟨_, hdata⟩ := (deref_ok_iff _ _ _ _).1 hdyn
        simp only at h
        obtain ⟨settings, _, h⟩ := (bind_ok_iff _ _ _).1 h
        split at h
        · obtain ⟨witnesses_info, _, h⟩ := (bind_ok_iff _ _ _).1 h
          simp only [pure, Except.pure, Except.ok.injEq] at h
          exact burn_keeps_sum d i dyn_data g.fee_from_account.amount hdata k d1 (by rw [← h])
        · simp only [pure, Except.pure, Except.ok.injEq] at h
          exact burn_keeps_sum d i dyn_data g.fee_from_account.amount hdata k d1 (by rw [← h])
      · obtain ⟨⟨i, dyn_data⟩, hdyn, h⟩ := (bind_ok_iff _ _ _).1 h
        obtain ⟨_, hdata⟩ := (deref_ok_iff _ _ _ _).1 hdyn
        simp only [pure, Except.pure, Except.ok.injEq] at h
        exact update_keeps_sum d d1 i dyn_data
          { dyn_data with
              accumulated_fees := dyn_data.accumulated_fees + g.fee_from_account.amount,
              fee_pool := dyn_data.fee_pool - g.core_fee_paid }
          hdata rfl (by rw [← h]) k
    · simp only [pure, Except.pure, Except.ok.injEq] at h
      rw [← h]
  · simp only [pure, Except.pure, Except.ok.injEq] at h
    rw [← h]

/-- C31. For every asset dynamic-data object the sum
`current_supply + fee_burnt` is the same before and after each burning path:
`transfer_evaluator::do_apply`, `blind_transfer2_evaluator::do_apply` (with its
burn of the amount and its burn of the fee before `HARDFORK_627_TIME`),
`override_transfer_evaluator::do_apply`, and `generic_evaluator::convert_fee`
(at every time, so after `HARDFORK_623_TIME`). -/
theorem burning_keeps_supply_plus_burnt (P : chain_parameters) (d : database) (k : Nat) :
    (∀ (ev : transfer_evaluator) (o : transfer_operation) (d1 : database),
      transfer_evaluator.do_apply P d ev o = .ok d1 →
      supply_plus_burnt d1 k = supply_plus_burnt d k) ∧
    (∀ (ev : blind_transfer2_evaluator) (o : blind_transfer2_operation) (d1 : database)
      (r : asset), blind_transfer2_evaluator.do_apply P d ev o = .ok (d1, r) →
      supply_plus_burnt d1 k = supply_plus_burnt d k) ∧
    (∀ (ev : override_transfer_evaluator) (o : override_transfer_operation) (d1 : database),
      override_transfer_evaluator.do_apply d ev o = .ok d1 →
      supply_plus_burnt d1 k = supply_plus_burnt d k) ∧
    (∀ (g : generic_evaluator) (d1 : database), g.convert_fee P d = .ok d1 →
      supply_plus_burnt d1 k = supply_plus_burnt d k) :=
  ⟨fun _ _ _ h => transfer_do_apply_sum h k, fun _ _ _ _ h => blind_do_apply_sum h k,
    fun _ _ _ h => override_do_apply_sum h k, fun _ _ h => convert_fee_sum h k⟩

/-- Burning on the example chain at time 700, every supply being 200: account 1
sends 50 units of asset 2 to the burning account 3, which leaves a supply of
150 and 50 burnt; a fee of 10 EDC is converted, which leaves a supply of 190
and 10 burnt.  Each sum is 200 as before. -/
theorem burning_keeps_supply_plus_burnt_witness :
    (∃ d3, transfer_evaluator.do_apply example_parameters (example_database 700 1000)
        { transfer_evaluator.fresh false with
            from_account_ptr := some 1, to_account_ptr := some 3,
            asset_dyn_data_ptr := some 2, settings_ptr := some 0 }
        (example_transfer 1 3 { amount := 50, asset_id := 2 } { amount := 0, asset_id := 2 })
        = .ok d3 ∧
      d3.asset_dynamic_data 2
        = some { current_supply := 150, accumulated_fees := 0, fee_pool := 0, fee_burnt := 50 } ∧
      supply_plus_burnt d3 2 = supply_plus_burnt (example_database 700 1000) 2 ∧
      supply_plus_burnt d3 2 = some 200) ∧
    (∃ d1, (example_prepared (example_database 700 1000)
        { amount := 10, asset_id := 1 }).convert_fee example_parameters
        (example_database 700 1000) = .ok d1 ∧
      d1.asset_dynamic_data 1
        = some { current_supply := 190, accumulated_fees := 0, fee_pool := 0, fee_burnt := 10 } ∧
      supply_plus_burnt d1 1 = supply_plus_burnt (example_database 700 1000) 1 ∧
      supply_plus_burnt d1 1 = some 200) := by
  refine ⟨⟨_, rfl, by decide, ?_, by decide⟩, ⟨_, rfl, by decide, ?_, by decide⟩⟩
  · exact (burning_keeps_supply_plus_burnt example_parameters (example_database 700 1000) 2).1
      { transfer_evaluator.fresh false with
          from_account_ptr := some 1, to_account_ptr := some 3,
          asset_dyn_data_ptr := some 2, settings_ptr := some 0 }
      (example_transfer 1 3 { amount := 50, asset_id := 2 } { amount := 0, asset_id := 2 })
      _ rfl
  · exact (burning_keeps_supply_plus_burnt example_parameters (example_database 700 1000)
      1).2.2.2
      (example_prepared (example_database 700 1000) { amount := 10, asset_id := 1 }) _ rfl

/-! ## Transfers: the daily limit after the transfer -/

/-- The counter block of `do_apply` leaves the sender's personal maximum and
the settings as they were. -/
theorem apply_counters_limit_fields {P : chain_parameters} {d d1 : database} {b : Bool}
    {from_ : account_id_type} {amount : asset} {obj : account_object}
    (h : apply_counters P d b from_ amount = .ok d1) (hobj : d.accounts from_ = some obj) :
    d1.settings = d.settings ∧
    ∃ obj1, d1.accounts from_ = some obj1 ∧
      obj1.edc_transfers_max_amount = obj.edc_transfers_max_amount := by
  unfold apply_counters at h
  by_cases hc : d.head_block_time > P.HARDFORK_627_TIME ∧ amount.asset_id = P.EDC_ASSET
  · rw [if_pos hc] at h
    obtain ⟨obj0, hobj0, h⟩ := (bind_ok_iff _ _ _).1 h
    have hsame := (get_ok_iff _ _ _).1 hobj0
    rw [hobj] at hsame
    obtain rfl := Option.some.inj hsame
    simp only [pure, Except.pure, Except.ok.injEq] at h
    by_cases hb : d.head_block_time < P.HARDFORK_636_TIME ∨ b = false
    · rw [if_pos hb] at h
      rw [← h]
      exact ⟨rfl, _, if_pos rfl, rfl⟩
    · rw [if_neg hb] at h
      rw [← h]
      exact ⟨rfl, _, if_pos rfl, rfl⟩
  · rw [if_neg hc] at h
    simp only [pure, Except.pure, Except.ok.injEq] at h
    rw [← h]
    exact ⟨rfl, obj, hobj, rfl⟩

/-- An accepted EDC transfer after `HARDFORK_631_TIME` from an account under the
daily limit to a destination that is not burning fits under the maximum. -/
theorem daily_limit_accepts {P : chain_parameters} {d : database}
    {from_account to_account : account_object} {settings : settings_object}
    {op : transfer_operation}
    (h : transfer_evaluator.daily_limit P d from_account to_account settings op = .ok ())
    (ht : d.head_block_time > P.HARDFORK_631_TIME)
    (hedc : op.amount.asset_id = P.EDC_ASSET)
    (hlimit : from_account.edc_limit_transfers_enabled = true)
    (hto : to_account.burning_mode_enabled = false) :
    from_account.edc_transfers_amount_counter + op.amount.amount
      ≤ max_amount from_account settings := by
  unfold transfer_evaluator.daily_limit at h
  rw [if_pos ⟨hedc, hlimit⟩, if_pos (Or.inr hto)] at h
  have hvalid := (fc_assert_ok_iff _ _ _).1 h
  unfold limit_is_valid at hvalid
  rw [if_pos ht] at hvalid
  exact of_decide_eq_true hvalid

/-- C32. For every transfer of `EDC_ASSET` evaluated and applied after
`HARDFORK_631_TIME` (the gate 627 not lying after the gate 631) from an account
with `edc_limit_transfers_enabled` to a destination that is not burning: if
`do_evaluate` accepts, then after `do_apply` the sender's
`edc_transfers_amount_counter` has grown by the amount and is at most `max`,
which is the sender's `edc_transfers_max_amount` when that is positive and
`settings.edc_transfers_daily_limit` otherwise; `do_apply` changes neither. -/
theorem daily_limit_after_apply (P : chain_parameters) (d d3 : database)
    (ev0 ev : transfer_evaluator) (op : transfer_operation)
    (from_account to_account : account_object) (settings : settings_object)
    (horder : P.HARDFORK_627_TIME ≤ P.HARDFORK_631_TIME)
    (ht : d.head_block_time > P.HARDFORK_631_TIME)
    (hedc : op.amount.asset_id = P.EDC_ASSET)
    (hfrom : d.accounts op.from_ = some from_account)
    (hto : d.accounts op.to_ = some to_account)
    (hsettings : d.settings 0 = some settings)
    (hlimit : from_account.edc_limit_transfers_enabled = true)
    (hnoburn : to_account.burning_mode_enabled = false)
    (heval : transfer_evaluator.do_evaluate P d ev0 op = .ok ev)
    (hap : transfer_evaluator.do_apply P d ev op = .ok d3) :
    ∃ acc3, d3.accounts op.from_ = some acc3 ∧
      acc3.edc_transfers_amount_counter
        = from_account.edc_transfers_amount_counter + op.amount.amount ∧
      acc3.edc_transfers_amount_counter ≤ max_amount from_account settings ∧
      max_amount acc3 settings = max_amount from_account settings ∧
      d3.settings 0 = some settings := by
  have h627 : d.head_block_time > P.HARDFORK_627_TIME := by omega
  obtain ⟨fa, ta, _, _, _, st, cf, h1, h2, _, _, _, h6, _, h8, _, hev⟩ :=
    transfer_do_evaluate_ok heval
  rw [hfrom] at h1
  rw [hto] at h2
  rw [hsettings] at h6
  obtain rfl := Option.some.inj h1
  obtain rfl := Option.some.inj h2
  obtain rfl := Option.some.inj h6
  rw [if_pos h627] at h8
  have hfits := daily_limit_accepts (post_627_ok h8).1 ht hedc hlimit hnoburn
  have hptr : ev.to_account_ptr = some op.to_ := by rw [hev]
  obtain ⟨i, to1, d1, d2, hp, hto1, hd1, hd2, hd3⟩ := transfer_do_apply_ok hap
  rw [hptr] at hp
  obtain rfl := Option.some.inj hp
  rw [hto] at hto1
  obtain rfl := Option.some.inj hto1
  rw [if_pos hnoburn] at hd2
  have e1 := (adjust_balance_ok hd1).1
  have e2 := (adjust_balance_ok hd2).1
  have hacc2 : d2.accounts op.from_ = some from_account := by rw [e2, e1]; exact hfrom
  have hset2 : d2.settings = d.settings := by rw [e2, e1]
  have htime2 : d2.head_block_time = d.head_block_time := by rw [e2, e1]
  obtain ⟨hset3, obj1, hobj1, hmax⟩ := apply_counters_limit_fields hd3 hacc2
  obtain ⟨acc3, hacc3, hcount, _⟩ := apply_counters_account hd3 hacc2
  rw [hobj1] at hacc3
  obtain rfl := Option.some.inj hacc3
  rw [htime2] at hcount
  obtain ⟨_, hgrow, _⟩ := hcount ⟨h627, hedc⟩
  have hcounter := hgrow (Or.inr hnoburn)
  refine ⟨obj1, hobj1, hcounter, ?_, ?_, ?_⟩
  · rw [hcounter]
    exact hfits
  · unfold max_amount
    rw [hmax]
  · rw [hset3, hset2]
    exact hsettings

/-- The daily limit on the example chain at time 700: account 1 has used 400 of
its maximum of 500 and sends 100 units of EDC to account 2; the transfer is
accepted and applied, and the counter of 500 is within the maximum. -/
theorem daily_limit_after_apply_witness :
    ∃ d3,
      transfer_evaluator.do_evaluate example_parameters (example_database_counter 700)
        (transfer_evaluator.fresh false)
        (example_transfer 1 2 { amount := 100, asset_id := 1 } { amount := 0, asset_id := 1 })
        = .ok { transfer_evaluator.fresh false with
            from_account_ptr := some 1, to_account_ptr := some 2,
            asset_dyn_data_ptr := some 1, settings_ptr := some 0 } ∧
      transfer_evaluator.do_apply example_parameters (example_database_counter 700)
        { transfer_evaluator.fresh false with
            from_account_ptr := some 1, to_account_ptr := some 2,
            asset_dyn_data_ptr := some 1, settings_ptr := some 0 }
        (example_transfer 1 2 { amount := 100, asset_id := 1 } { amount := 0, asset_id := 1 })
        = .ok d3 ∧
      ∃ acc3, d3.accounts 1 = some acc3 ∧ acc3.edc_transfers_amount_counter = 500 ∧
        acc3.edc_transfers_amount_counter ≤ 500 ∧ max_amount acc3 example_settings = 500 := by
  refine ⟨_, rfl, rfl, ?_⟩
  obtain ⟨acc3, hacc3, hcounter, hmax, hsame, _⟩ := daily_limit_after_apply example_parameters
    (example_database_counter 700) _ (transfer_evaluator.fresh false)
    { transfer_evaluator.fresh false with
        from_account_ptr := some 1, to_account_ptr := some 2,
        asset_dyn_data_ptr := some 1, settings_ptr := some 0 }
    (example_transfer 1 2 { amount := 100, asset_id := 1 } { amount := 0, asset_id := 1 })
    { example_account with
      edc_limit_transfers_enabled := true, edc_transfers_max_amount := 500,
      edc_transfers_amount_counter := 400 }
    example_account example_settings (by decide) (by decide) rfl rfl rfl rfl rfl rfl rfl rfl
  exact ⟨acc3, hacc3, by rw [hcounter]; rfl, hmax, by rw [hsame]; rfl⟩

end graphene
